import Mathlib

/-! Merraki backend: order lifecycle and payment authorisation.

A shallow embedding of the order subsystem of the Merraki backend
(`internal/service/order_service.go`, `internal/service/payment_service.go`,
`internal/service/email_service.go`,
`internal/repository/postgres/order_repository.go`,
`internal/repository/postgres/template_repository.go`,
`internal/handler/admin/order_handler.go`,
`internal/handler/public/order_handler.go`) and theorems about it.

Conventions of the embedding

* A Go pointer field (`*string`, `*int64`, `*time.Time`) is an `Option`.
* Go `int` / `int64` values are `Int`. The arithmetic on them in this
  subsystem is the SQL expression `download_count + 1` and the Go statement
  `subtotalINR += template.PriceINR` of `CreateOrder`, whose result is
  reduced to 64 bits by `wrapInt64` (Go `int` on a 64-bit platform).
* A `float64` is its IEEE 754 bit pattern; the operations round to nearest,
  ties to even.
* A `time.Time` is an `Int`, the nanoseconds since the zero `time.Time`,
  which is `0`.
* The PostgreSQL database is a record of tables, each table a list of rows.
  `UPDATE ... WHERE id = $n` rewrites every row whose `id` matches,
  `SELECT * ... WHERE c = $n` fetched with `GetContext` yields the first
  matching row (or `sql.ErrNoRows`).
* Everything the code obtains from outside (the wall clock, the database
  clock `NOW()`, driver errors, SMTP errors, the replies of the payment
  gateway, random tokens) is read from an `Env` of
  oracles indexed by the number of effects performed so far (`World.step`).
* A Go run-time panic (nil dereference) is the `Outcome.panic` result.
-/

namespace Merraki

/-! ## Go standard library pieces used by `PaymentService`

`crypto/sha256`, `crypto/hmac` and `encoding/hex` are written out after
FIPS 180-4 and RFC 2104 on words kept as natural numbers below `2 ^ 32`. -/

/-- Bytes of a Go string (`[]byte(s)`): the UTF-8 encoding, each byte a natural number. -/
def stringBytes (s : String) : List Nat :=
  (s.data.flatMap String.utf8EncodeChar).map UInt8.toNat

/-- Rotate a 32-bit word right by `n` bits. -/
def rotr32 (x n : Nat) : Nat :=
  ((x >>> n) ||| (x <<< (32 - n))) % 2 ^ 32

/-- Trial-division primality test. -/
def isPrime (n : Nat) : Bool :=
  decide (2 ≤ n) && (List.range n).all (fun d => decide (d < 2) || n % d != 0)

/-- The first `count` primes among the numbers below `bound`. -/
def firstPrimes (count bound : Nat) : List Nat :=
  ((List.range bound).filter isPrime).take count

/-- The integer part of the `k`-th root of `n`, for roots below `2 ^ 36`, built bit by bit
from the top. -/
def intRoot (k n : Nat) : Nat :=
  (List.range 36).foldl
    (fun r i => if (r + 2 ^ (35 - i)) ^ k ≤ n then r + 2 ^ (35 - i) else r) 0

/-- Round constants of SHA-256: the first 32 bits of the fractional parts of the cube roots
of the first 64 primes (FIPS 180-4, section 4.2.2). -/
def sha256K : List Nat :=
  (firstPrimes 64 312).map (fun q => intRoot 3 (q * 2 ^ 96) % 2 ^ 32)

/-- Initial hash value of SHA-256: the first 32 bits of the fractional parts of the square
roots of the first 8 primes (FIPS 180-4, section 5.3.3). -/
def sha256Init : List Nat :=
  (firstPrimes 8 20).map (fun q => intRoot 2 (q * 2 ^ 64) % 2 ^ 32)

/-- Big-endian bytes of the low `8 * n` bits of `x`. -/
def bigEndian (n x : Nat) : List Nat :=
  (List.range n).map (fun i => (x >>> (8 * (n - 1 - i))) % 256)

/-- Big-endian value of a list of bytes. -/
def fromBigEndian (bs : List Nat) : Nat :=
  bs.foldl (fun acc b => acc * 256 + b) 0

/-- SHA-256 padding: a `0x80` byte, zero bytes up to 56 modulo 64, the bit length on 8 bytes. -/
def sha256Pad (msg : List Nat) : List Nat :=
  msg ++ [0x80] ++ List.replicate ((119 - msg.length % 64) % 64) 0 ++ bigEndian 8 (8 * msg.length)

/-- The 64-word message schedule of one 64-byte block. -/
def sha256Schedule (block : List Nat) : List Nat :=
  let w16 := (List.range 16).map (fun i => fromBigEndian ((block.drop (4 * i)).take 4))
  (List.range 48).foldl
    (fun w _ =>
      let t := w.length
      let w15 := w.getD (t - 15) 0
      let w2 := w.getD (t - 2) 0
      let s0 := (rotr32 w15 7) ^^^ (rotr32 w15 18) ^^^ (w15 >>> 3)
      let s1 := (rotr32 w2 17) ^^^ (rotr32 w2 19) ^^^ (w2 >>> 10)
      w ++ [(w.getD (t - 16) 0 + s0 + w.getD (t - 7) 0 + s1) % 2 ^ 32])
    w16

/-- One round of the SHA-256 compression function on the working variables `a .. h`. -/
def sha256Round (v : List Nat) (kw : Nat × Nat) : List Nat :=
  match v with
  | [a, b, c, d, e, f, g, h] =>
    let s1 := (rotr32 e 6) ^^^ (rotr32 e 11) ^^^ (rotr32 e 25)
    let ch := (e &&& f) ^^^ ((e ^^^ 0xffffffff) &&& g)
    let t1 := (h + s1 + ch + kw.1 + kw.2) % 2 ^ 32
    let s0 := (rotr32 a 2) ^^^ (rotr32 a 13) ^^^ (rotr32 a 22)
    let maj := (a &&& b) ^^^ (a &&& c) ^^^ (b &&& c)
    let t2 := (s0 + maj) % 2 ^ 32
    [(t1 + t2) % 2 ^ 32, a, b, c, (d + t1) % 2 ^ 32, e, f, g]
  | _ => v

/-- The SHA-256 compression function: absorb one 64-byte block into the hash state. -/
def sha256Compress (state block : List Nat) : List Nat :=
  let v := (sha256K.zip (sha256Schedule block)).foldl sha256Round state
  List.zipWith (fun x y => (x + y) % 2 ^ 32) state v

/-- SHA-256 of a byte string (`sha256.Sum256`), as 32 bytes. -/
def sha256 (msg : List Nat) : List Nat :=
  let padded := sha256Pad msg
  let blocks := (List.range (padded.length / 64)).map (fun i => (padded.drop (64 * i)).take 64)
  (blocks.foldl sha256Compress sha256Init).flatMap (bigEndian 4)

/-- HMAC-SHA256 (`hmac.New(sha256.New, key)`, `Write(msg)`, `Sum(nil)`), as 32 bytes. -/
def hmacSHA256 (key msg : List Nat) : List Nat :=
  let k0 := if key.length > 64 then sha256 key else key
  let k := k0 ++ List.replicate (64 - k0.length) 0
  let ipad := k.map (fun b => b ^^^ 0x36)
  let opad := k.map (fun b => b ^^^ 0x5c)
  sha256 (opad ++ sha256 (ipad ++ msg))

/-- The digit of `hex.EncodeToString` for a value below 16. -/
def hexDigit (n : Nat) : Char :=
  "0123456789abcdef".data.getD n '0'

/-- Lower-case hexadecimal encoding of a byte string (`hex.EncodeToString`). -/
def hexEncode (bs : List Nat) : String :=
  String.mk (bs.flatMap (fun b => [hexDigit (b / 16), hexDigit (b % 16)]))

/-! ## Application errors (`internal/pkg/errors/errors.go`) -/

/-- The `AppError` of the application; the wrapped Go `error` is kept as its text. -/
structure AppError where
  Code : String
  Message : String
  Status : Int
  Err : Option String
  deriving DecidableEq, Repr

/-- Constructor `apperrors.New`. -/
def New (code message : String) (status : Int) : AppError :=
  { Code := code, Message := message, Status := status, Err := none }

/-- Constructor `apperrors.Wrap`. -/
def Wrap (err : String) (code message : String) (status : Int) : AppError :=
  { Code := code, Message := message, Status := status, Err := some err }

/-- The shared error `apperrors.ErrNotFound`. -/
def ErrNotFound : AppError := New "NOT_FOUND" "Resource not found" 404

/-! ## Domain (`internal/domain/order.go`, `internal/domain/admin.go`) -/

/-- An instant (`time.Time`), in nanoseconds; the zero `time.Time` is `0`. -/
abbrev Time := Int

/-- A Go `float64`, carried by its IEEE-754 bit pattern. -/
structure Float64 where
  bits : Nat
  deriving DecidableEq, Repr

/-- Round the non-negative fraction `p / q` to the nearest natural number, ties to even. -/
def roundHalfEven (p q : Nat) : Nat :=
  let f := p / q
  let r := 2 * (p % q)
  if r > q then f + 1 else if r = q then f + f % 2 else f

/-- The `float64` nearest to the fraction `n / d` with `0 < n` and `0 < d` (ties to even), as
its bit pattern without the sign bit; the pattern of `+Inf` when the fraction is too large. -/
def float64Magnitude (n d : Nat) : Nat :=
  -- the integer part of the binary logarithm of `n / d`, offset by 1100
  let e0 := 1100 + Nat.log2 n - Nat.log2 d
  let e := if n * 2 ^ 1100 ≥ d * 2 ^ e0 then e0 else e0 - 1
  -- the exponent of the unit in the last place, offset by 1100; it is at least `-1074`
  let u := max (e - 52) 26
  let m := roundHalfEven (n * 2 ^ 1100) (d * 2 ^ u)
  let b := (u - 26) * 2 ^ 52 + m
  if b ≥ 2047 * 2 ^ 52 then 2047 * 2 ^ 52 else b

/-- Conversion of an exact value to `float64`, rounding to nearest, ties to even; this is how
Go reads a decimal constant such as `0.012`. -/
def Float64.ofRat (q : Rat) : Float64 :=
  if q = 0 then { bits := 0 }
  else if q < 0 then { bits := 2 ^ 63 + float64Magnitude q.num.natAbs q.den }
  else { bits := float64Magnitude q.num.natAbs q.den }

/-- The exact value of a finite `float64`. -/
def Float64.toRat (x : Float64) : Rat :=
  let e := x.bits / 2 ^ 52 % 2048
  let m := x.bits % 2 ^ 52
  let mag : Rat :=
    if e = 0 then mkRat (Int.ofNat m) (2 ^ 1074)
    else mkRat (Int.ofNat ((2 ^ 52 + m) * 2 ^ e)) (2 ^ 1075)
  if x.bits / 2 ^ 63 % 2 = 1 then -mag else mag

/-- The Go conversion `float64(n)` of an `int`. -/
def Float64.ofInt (n : Int) : Float64 := Float64.ofRat n

/-- The Go product of two finite `float64` values: the exact product, rounded. -/
def Float64.mul (a b : Float64) : Float64 := Float64.ofRat (a.toRat * b.toRat)

/-- The Go quotient of two finite `float64` values, the divisor not zero: the exact quotient,
rounded. -/
def Float64.div (a b : Float64) : Float64 := Float64.ofRat (a.toRat / b.toRat)

/-- An instant is counted in nanoseconds from the zero `time.Time`; `Unix()` is the number
of whole seconds since 1 January 1970, which is 62135596800 seconds after the zero time. -/
def unixSeconds (t : Int) : Int := t / 1000000000 - 62135596800

/-- Go `int` arithmetic is 64-bit two's complement: the representative of `x` modulo `2 ^ 64`
in the range of `int`. -/
def wrapInt64 (x : Int) : Int := (x + 2 ^ 63) % 2 ^ 64 - 2 ^ 63

/-- Row of table `orders` (`domain.Order`). -/
structure Order where
  ID : Int
  OrderNumber : String
  CustomerEmail : String
  CustomerName : String
  CustomerPhone : Option String
  SubtotalINR : Int
  DiscountINR : Int
  TaxINR : Int
  TotalINR : Int
  CurrencyCode : String
  ExchangeRate : Float64
  TotalLocal : Option Float64
  PaymentMethod : String
  RazorpayOrderID : Option String
  RazorpayPaymentID : Option String
  RazorpaySignature : Option String
  Status : String
  PaymentStatus : String
  ApprovedBy : Option Int
  ApprovedAt : Option Time
  RejectionReason : Option String
  DownloadToken : Option String
  DownloadCount : Int
  MaxDownloads : Int
  DownloadExpiresAt : Option Time
  IPAddress : Option String
  UserAgent : Option String
  CreatedAt : Time
  UpdatedAt : Time
  PaidAt : Option Time
  CompletedAt : Option Time
  deriving DecidableEq, Repr

/-- Row of table `order_items` (`domain.OrderItem`). -/
structure OrderItem where
  ID : Int
  OrderID : Int
  TemplateID : Int
  TemplateTitle : String
  TemplateSlug : String
  TemplateFileURL : String
  PriceINR : Int
  CreatedAt : Time
  deriving DecidableEq, Repr

/-- Row of table `download_logs` (`domain.DownloadLog`). -/
structure DownloadLog where
  ID : Int
  OrderID : Int
  TemplateID : Option Int
  TemplateTitle : Option String
  DownloadType : String
  FileSizeBytes : Option Int
  IPAddress : Option String
  UserAgent : Option String
  Status : String
  ErrorMessage : Option String
  DownloadedAt : Time
  deriving DecidableEq, Repr

/-- Row of table `activity_logs` (`domain.ActivityLog`); the `JSONMap` of details is a
list of key/value pairs. -/
structure ActivityLog where
  ID : Int
  AdminID : Option Int
  Action : String
  EntityType : Option String
  EntityID : Option Int
  Details : List (String × String)
  IPAddress : Option String
  CreatedAt : Time
  deriving DecidableEq, Repr

/-- Row of table `templates` (`domain.Template`); a `pq.StringArray` is a list of strings. -/
structure Template where
  ID : Int
  Slug : String
  Title : String
  Description : Option String
  DetailedDescription : Option String
  PriceINR : Int
  ThumbnailURL : Option String
  PreviewURLs : List String
  FileURL : String
  FileSizeBytes : Option Int
  CategoryID : Int
  Tags : List String
  DownloadsCount : Int
  ViewsCount : Int
  Rating : Float64
  RatingCount : Int
  Status : String
  IsFeatured : Bool
  MetaTitle : Option String
  MetaDescription : Option String
  CreatedBy : Option Int
  CreatedAt : Time
  UpdatedAt : Time
  deriving DecidableEq, Repr

/-- The zero value of `domain.Order` (what `var order domain.Order` holds before a scan). -/
def zeroOrder : Order :=
  { ID := 0, OrderNumber := "", CustomerEmail := "", CustomerName := "", CustomerPhone := none,
    SubtotalINR := 0, DiscountINR := 0, TaxINR := 0, TotalINR := 0, CurrencyCode := "",
    ExchangeRate := { bits := 0 }, TotalLocal := none, PaymentMethod := "",
    RazorpayOrderID := none, RazorpayPaymentID := none, RazorpaySignature := none,
    Status := "", PaymentStatus := "", ApprovedBy := none, ApprovedAt := none,
    RejectionReason := none, DownloadToken := none, DownloadCount := 0, MaxDownloads := 0,
    DownloadExpiresAt := none, IPAddress := none, UserAgent := none, CreatedAt := 0,
    UpdatedAt := 0, PaidAt := none, CompletedAt := none }

/-! ## The world the services act on -/

/-- The tables of the PostgreSQL database that the order subsystem reads and writes. -/
structure DB where
  orders : List Order
  order_items : List OrderItem
  download_logs : List DownloadLog
  activity_logs : List ActivityLog
  /-- The catalog; the order subsystem only reads it. -/
  templates : List Template
  deriving DecidableEq, Repr

/-- The arguments that fill the fixed HTML template of a transactional e-mail
(`fmt.Sprintf` in `email_service.go`); the markup itself is not kept. -/
inductive MailBody where
  | orderConfirmation (customerName orderNumber : String) (totalINR : Int) (itemCount : Nat)
      (frontendURL : String)
  | orderApproval (customerName orderNumber : String) (itemCount : Nat) (downloadLink : String)
      (maxDownloads : Int) (expiresOn : Time)
  | orderRejection (customerName orderNumber reason : String)
  deriving DecidableEq, Repr

/-- A message handed to `gomail` (`sendEmail`). -/
structure Mail where
  From : String
  To : String
  Subject : String
  Body : MailBody
  deriving DecidableEq, Repr

/-- One call of `dialer.DialAndSend`: the message, and (ghost) the database as it stood at
that moment. -/
structure MailAttempt where
  mail : Mail
  store : DB
  deriving DecidableEq, Repr

/-- The `data` map that `PaymentService.CreateOrder` sends to the payment gateway
(`client.Order.Create`). -/
structure GatewayRequest where
  amount : Int
  currency : String
  receipt : String
  notesOrderNumber : String
  notesCustomerEmail : String
  deriving DecidableEq, Repr

/-- What `client.Order.Create` returns: an error, or the order map, of which only the member
`id` is read (`id = none` when it is absent or not a string). -/
inductive GatewayReply where
  | fault (err : String)
  | order (id : Option String)
  deriving DecidableEq, Repr

/-- Configuration and everything the code reads from outside, indexed by the number of
effects performed before the read. -/
structure Env where
  /-- Field `cfg.Payment.RazorpayKeyID`. -/
  keyID : String
  /-- Field `cfg.Payment.RazorpayKeySecret`. -/
  keySecret : String
  /-- Field `cfg.Payment.RazorpayWebhookSecret`. -/
  webhookSecret : String
  /-- Field `cfg.Frontend.URL`. -/
  frontendURL : String
  /-- Field `cfg.Email.FromName`. -/
  fromName : String
  /-- Field `cfg.Email.FromEmail`. -/
  fromEmail : String
  /-- Reading of `time.Now()` taken as effect number `n`. -/
  now : Nat → Time
  /-- Value of SQL `NOW()` in statement number `n`. -/
  dbNow : Nat → Time
  /-- Value the database gives the `id` column of a row inserted by statement number `n`. -/
  newID : Nat → Int
  /-- Driver error with which statement number `n` fails, if it does; a failing statement
  changes no table. -/
  dbFault : Nat → Option String
  /-- Error with which `DialAndSend` number `n` fails, if it does. -/
  smtpFault : Nat → Option String
  /-- Reply of the payment gateway to the request made as effect number `n`. -/
  gatewayReply : Nat → GatewayReply
  /-- Result of `crypto.GenerateRandomToken(32)` called as effect number `n`; the function
  is not among the sources, so its result is a parameter. -/
  randomToken : Nat → Except String String

/-- State threaded through every operation. -/
structure World where
  db : DB
  /-- Every message handed to the SMTP dialer so far, oldest first. -/
  outbox : List MailAttempt
  /-- Number of effects (clock readings, SQL statements, SMTP sends, gateway requests,
  random draws) performed so far. -/
  step : Nat
  /-- Every request sent to the payment gateway so far, oldest first. -/
  gateway : List GatewayRequest
  deriving DecidableEq, Repr

/-- Result of a Go call that may end in a run-time panic. -/
inductive Outcome (α : Type) where
  | ret (a : α)
  | panic (msg : String)
  deriving DecidableEq, Repr

/-- The text of `sql.ErrNoRows`. -/
def sqlErrNoRows : String := "sql: no rows in result set"

/-- The panic raised by dereferencing a nil pointer. -/
def nilDeref : String := "runtime error: invalid memory address or nil pointer dereference"

/-- The world after one more effect. -/
def World.tick (w : World) : World :=
  { db := w.db, outbox := w.outbox, step := w.step + 1, gateway := w.gateway }

/-! ## Database primitives (`sqlx`) -/

/-- Statement `GetContext(ctx, &order, "SELECT * FROM orders WHERE ...", args)`: the scanned
order (the zero order when nothing was scanned) and the error. -/
def getOrder (env : Env) (w : World) (cond : Order → Bool) : (Order × Option String) × World :=
  match env.dbFault w.step with
  | some e => ((zeroOrder, some e), w.tick)
  | none =>
    match w.db.orders.find? cond with
    | some o => ((o, none), w.tick)
    | none => ((zeroOrder, some sqlErrNoRows), w.tick)

/-- Statement `ExecContext(ctx, "UPDATE orders SET ... WHERE ...", args)`: `set` is the SET
clause, given the value of `NOW()`; the result is the error. -/
def execUpdateOrders (env : Env) (w : World) (set : Time → Order → Order) (cond : Order → Bool) :
    Option String × World :=
  match env.dbFault w.step with
  | some e => (some e, w.tick)
  | none =>
    (none,
      { db := { w.db with
                orders := w.db.orders.map (fun o => if cond o then set (env.dbNow w.step) o else o) },
        outbox := w.outbox,
        step := w.step + 1, gateway := w.gateway })

/-! ## `OrderRepository` (`internal/repository/postgres/order_repository.go`) -/

namespace OrderRepository

/-- A Go `(*domain.Order, error)` result of a finder: `nil, nil` on `sql.ErrNoRows`,
otherwise `&order, err`. -/
def findResult (r : (Order × Option String) × World) : (Option Order × Option String) × World :=
  if r.1.2 = some sqlErrNoRows then ((none, none), r.2) else ((some r.1.1, r.1.2), r.2)

/-- Query `SELECT * FROM orders WHERE id = $1`. -/
def FindByID (env : Env) (w : World) (id : Int) : (Option Order × Option String) × World :=
  findResult (getOrder env w (fun o => o.ID = id))

/-- Query `SELECT * FROM orders WHERE razorpay_order_id = $1`. -/
def FindByRazorpayOrderID (env : Env) (w : World) (razorpayOrderID : String) :
    (Option Order × Option String) × World :=
  findResult (getOrder env w (fun o => o.RazorpayOrderID = some razorpayOrderID))

/-- Query `SELECT * FROM orders WHERE order_number = $1 AND customer_email = $2`. -/
def FindByOrderNumberAndEmail (env : Env) (w : World) (orderNumber email : String) :
    (Option Order × Option String) × World :=
  findResult (getOrder env w (fun o => o.OrderNumber = orderNumber && o.CustomerEmail = email))

/-- Query `SELECT * FROM orders WHERE download_token = $1`. -/
def FindByDownloadToken (env : Env) (w : World) (token : String) :
    (Option Order × Option String) × World :=
  findResult (getOrder env w (fun o => o.DownloadToken = some token))

/-- Statement `UPDATE orders SET payment_status = 'success', status = 'paid',
razorpay_payment_id = $1, razorpay_signature = $2, paid_at = $3, updated_at = NOW()
WHERE id = $4`, after `now := time.Now()`. -/
def UpdatePaymentSuccess (env : Env) (w : World) (id : Int)
    (razorpayPaymentID razorpaySignature : String) : Option String × World :=
  let now := env.now w.step
  execUpdateOrders env w.tick
    (fun t o => { o with PaymentStatus := "success", Status := "paid",
                         RazorpayPaymentID := some razorpayPaymentID,
                         RazorpaySignature := some razorpaySignature,
                         PaidAt := some now, UpdatedAt := t })
    (fun o => o.ID = id)

/-- Statement `UPDATE orders SET payment_status = 'failed', status = 'failed',
updated_at = NOW() WHERE id = $1`. -/
def UpdatePaymentFailed (env : Env) (w : World) (id : Int) : Option String × World :=
  execUpdateOrders env w
    (fun t o => { o with PaymentStatus := "failed", Status := "failed", UpdatedAt := t })
    (fun o => o.ID = id)

/-- Statement `UPDATE orders SET status = 'approved', approved_by = $1, approved_at = $2,
updated_at = NOW() WHERE id = $3`, after `now := time.Now()`. -/
def ApproveOrder (env : Env) (w : World) (id adminID : Int) : Option String × World :=
  let now := env.now w.step
  execUpdateOrders env w.tick
    (fun t o => { o with Status := "approved", ApprovedBy := some adminID,
                         ApprovedAt := some now, UpdatedAt := t })
    (fun o => o.ID = id)

/-- Statement `UPDATE orders SET status = 'rejected', rejection_reason = $1, approved_by = $2,
approved_at = $3, updated_at = NOW() WHERE id = $4`, after `now := time.Now()`. -/
def RejectOrder (env : Env) (w : World) (id adminID : Int) (reason : String) :
    Option String × World :=
  let now := env.now w.step
  execUpdateOrders env w.tick
    (fun t o => { o with Status := "rejected", RejectionReason := some reason,
                         ApprovedBy := some adminID, ApprovedAt := some now, UpdatedAt := t })
    (fun o => o.ID = id)

/-- Statement `UPDATE orders SET download_count = download_count + 1, updated_at = NOW()
WHERE id = $1`. -/
def IncrementDownloadCount (env : Env) (w : World) (id : Int) : Option String × World :=
  execUpdateOrders env w
    (fun t o => { o with DownloadCount := o.DownloadCount + 1, UpdatedAt := t })
    (fun o => o.ID = id)

/-- Statement `UPDATE orders SET status = 'completed', completed_at = $1, updated_at = NOW()
WHERE id = $2`, after `now := time.Now()`. -/
def MarkCompleted (env : Env) (w : World) (id : Int) : Option String × World :=
  let now := env.now w.step
  execUpdateOrders env w.tick
    (fun t o => { o with Status := "completed", CompletedAt := some now, UpdatedAt := t })
    (fun o => o.ID = id)

/-- Query `SELECT * FROM order_items WHERE order_id = $1` (`SelectContext`). -/
def GetOrderItems (env : Env) (w : World) (orderID : Int) :
    (List OrderItem × Option String) × World :=
  match env.dbFault w.step with
  | some e => (([], some e), w.tick)
  | none => ((w.db.order_items.filter (fun i => i.OrderID = orderID), none), w.tick)

/-- Statement `INSERT INTO download_logs (...) VALUES (...) RETURNING id, downloaded_at`. -/
def LogDownload (env : Env) (w : World) (log : DownloadLog) : Option String × World :=
  match env.dbFault w.step with
  | some e => (some e, w.tick)
  | none =>
    (none,
      { db := { w.db with
                download_logs := w.db.download_logs ++
                  [{ log with ID := env.newID w.step, DownloadedAt := env.dbNow w.step }] },
        outbox := w.outbox,
        step := w.step + 1, gateway := w.gateway })

end OrderRepository

/-! ## `ActivityLogRepository` (`internal/repository/postgres/activity_log_repository.go`) -/

namespace ActivityLogRepository

/-- Statement `INSERT INTO activity_logs (...) VALUES (...) RETURNING id, created_at`. -/
def Create (env : Env) (w : World) (log : ActivityLog) : Option String × World :=
  match env.dbFault w.step with
  | some e => (some e, w.tick)
  | none =>
    (none,
      { db := { w.db with
                activity_logs := w.db.activity_logs ++
                  [{ log with ID := env.newID w.step, CreatedAt := env.dbNow w.step }] },
        outbox := w.outbox,
        step := w.step + 1, gateway := w.gateway })

end ActivityLogRepository

/-! ## `EmailService` (`internal/service/email_service.go`) -/

namespace EmailService

/-- Method `sendEmail`: hand the message to `DialAndSend`; a failure is wrapped as
`EMAIL_ERROR`. -/
def sendEmail (env : Env) (w : World) (rcpt subject : String) (body : MailBody) :
    Option AppError × World :=
  let m : Mail :=
    { From := env.fromName ++ " <" ++ env.fromEmail ++ ">", To := rcpt, Subject := subject,
      Body := body }
  let w1 : World :=
    { db := w.db, outbox := w.outbox ++ [{ mail := m, store := w.db }], step := w.step + 1, gateway := w.gateway }
  match env.smtpFault w.step with
  | some e => (some (Wrap e "EMAIL_ERROR" "Failed to send email" 500), w1)
  | none => (none, w1)

/-- Method `SendOrderConfirmation`. -/
def SendOrderConfirmation (env : Env) (w : World) (order : Order) (items : List OrderItem) :
    Option AppError × World :=
  sendEmail env w order.CustomerEmail ("Order Confirmation - " ++ order.OrderNumber)
    (.orderConfirmation order.CustomerName order.OrderNumber order.TotalINR items.length
      env.frontendURL)

/-- Method `SendOrderApproval`: dereferences `order.DownloadToken` and
`order.DownloadExpiresAt`, so it panics when either is nil. -/
def SendOrderApproval (env : Env) (w : World) (order : Order) (items : List OrderItem) :
    Outcome (Option AppError) × World :=
  match order.DownloadToken with
  | none => (.panic nilDeref, w)
  | some token =>
    let downloadLink :=
      env.frontendURL ++ "/orders/download/" ++ order.OrderNumber ++ "?token=" ++ token
    match order.DownloadExpiresAt with
    | none => (.panic nilDeref, w)
    | some expires =>
      let r := sendEmail env w order.CustomerEmail "Order Approved - Download Your Templates"
        (.orderApproval order.CustomerName order.OrderNumber items.length downloadLink
          order.MaxDownloads expires)
      (.ret r.1, r.2)

/-- Method `SendOrderRejection`. -/
def SendOrderRejection (env : Env) (w : World) (order : Order) (reason : String) :
    Option AppError × World :=
  sendEmail env w order.CustomerEmail ("Order Update - " ++ order.OrderNumber)
    (.orderRejection order.CustomerName order.OrderNumber reason)

end EmailService

/-! ## `PaymentService` (`internal/service/payment_service.go`) -/

namespace PaymentService

/-- The value `expectedSignature` of `VerifySignature`: hex of the HMAC-SHA256 of
`orderID + "|" + paymentID` under the key secret. -/
def expectedSignature (env : Env) (orderID paymentID : String) : String :=
  let message := orderID ++ "|" ++ paymentID
  hexEncode (hmacSHA256 (stringBytes env.keySecret) (stringBytes message))

/-- Method `VerifySignature`: `nil` (here `none`) when the signature matches. -/
def VerifySignature (env : Env) (orderID paymentID signature : String) : Option AppError :=
  if expectedSignature env orderID paymentID ≠ signature then
    some (New "INVALID_SIGNATURE" "Payment signature verification failed" 400)
  else
    none

/-- The value `expectedSignature` of `VerifyWebhookSignature`: hex of the HMAC-SHA256 of the
payload under the webhook secret. -/
def expectedWebhookSignature (env : Env) (payload : String) : String :=
  hexEncode (hmacSHA256 (stringBytes env.webhookSecret) (stringBytes payload))

/-- Method `VerifyWebhookSignature`: `nil` (here `none`) when the signature matches. -/
def VerifyWebhookSignature (env : Env) (payload signature : String) : Option AppError :=
  if expectedWebhookSignature env payload ≠ signature then
    some (New "INVALID_SIGNATURE" "Webhook signature verification failed" 400)
  else
    none

end PaymentService

/-! ## `OrderService` (`internal/service/order_service.go`) -/

namespace OrderService

/-- Method `VerifyPayment`; the result is the Go pair `(*domain.Order, error)`. -/
def VerifyPayment (env : Env) (w : World)
    (razorpayOrderID razorpayPaymentID razorpaySignature : String) :
    (Option Order × Option AppError) × World :=
  -- Find order
  match OrderRepository.FindByRazorpayOrderID env w razorpayOrderID with
  | ((_, some err), w1) => ((none, some (Wrap err "DATABASE_ERROR" "Failed to find order" 500)), w1)
  | ((none, none), w1) => ((none, some (New "ORDER_NOT_FOUND" "Order not found" 404)), w1)
  | ((some order, none), w1) =>
    -- Verify signature
    match PaymentService.VerifySignature env razorpayOrderID razorpayPaymentID razorpaySignature with
    | some err =>
      -- Mark payment as failed
      let r := OrderRepository.UpdatePaymentFailed env w1 order.ID
      ((none, some err), r.2)
    | none =>
      -- Update order as paid
      match OrderRepository.UpdatePaymentSuccess env w1 order.ID razorpayPaymentID
          razorpaySignature with
      | (some err, w2) =>
        ((none, some (Wrap err "DATABASE_ERROR" "Failed to update order" 500)), w2)
      | (none, w2) =>
        -- Send order confirmation email
        let items := OrderRepository.GetOrderItems env w2 order.ID
        let mail := EmailService.SendOrderConfirmation env items.2 order items.1.1
        -- Reload order
        let reload := OrderRepository.FindByID env mail.2 order.ID
        ((reload.1.1, none), reload.2)

/-- Method `ApproveOrder`; the result is the Go `error`. -/
def ApproveOrder (env : Env) (w : World) (orderID adminID : Int) :
    Outcome (Option AppError) × World :=
  -- Get order
  match OrderRepository.FindByID env w orderID with
  | ((_, some err), w1) => (.ret (some (Wrap err "DATABASE_ERROR" "Failed to find order" 500)), w1)
  | ((none, none), w1) => (.ret (some ErrNotFound), w1)
  | ((some order, none), w1) =>
    if order.Status ≠ "paid" then
      (.ret (some (New "INVALID_STATUS" "Only paid orders can be approved" 400)), w1)
    else
      -- Approve order
      match OrderRepository.ApproveOrder env w1 orderID adminID with
      | (some err, w2) =>
        (.ret (some (Wrap err "DATABASE_ERROR" "Failed to approve order" 500)), w2)
      | (none, w2) =>
        -- Reload order
        let reload := OrderRepository.FindByID env w2 orderID
        -- Send approval email with download link
        let items := OrderRepository.GetOrderItems env reload.2 orderID
        match reload.1.1 with
        | none => (.panic nilDeref, items.2)
        | some order =>
          match EmailService.SendOrderApproval env items.2 order items.1.1 with
          | (.panic msg, w3) => (.panic msg, w3)
          | (.ret _, w3) =>
            -- Log activity
            let log := ActivityLogRepository.Create env w3
              { ID := 0, AdminID := some adminID, Action := "approve_order",
                EntityType := some "order", EntityID := some orderID,
                Details := [("order_number", order.OrderNumber)], IPAddress := none,
                CreatedAt := 0 }
            (.ret none, log.2)

/-- Method `RejectOrder`; the result is the Go `error`. -/
def RejectOrder (env : Env) (w : World) (orderID adminID : Int) (reason : String) :
    Outcome (Option AppError) × World :=
  -- Get order
  match OrderRepository.FindByID env w orderID with
  | ((_, some err), w1) => (.ret (some (Wrap err "DATABASE_ERROR" "Failed to find order" 500)), w1)
  | ((none, none), w1) => (.ret (some ErrNotFound), w1)
  | ((some order, none), w1) =>
    if order.Status ≠ "paid" then
      (.ret (some (New "INVALID_STATUS" "Only paid orders can be rejected" 400)), w1)
    else
      -- Reject order
      match OrderRepository.RejectOrder env w1 orderID adminID reason with
      | (some err, w2) =>
        (.ret (some (Wrap err "DATABASE_ERROR" "Failed to reject order" 500)), w2)
      | (none, w2) =>
        -- Reload order
        let reload := OrderRepository.FindByID env w2 orderID
        match reload.1.1 with
        | none => (.panic nilDeref, reload.2)
        | some order =>
          -- Send rejection email
          let mail := EmailService.SendOrderRejection env reload.2 order reason
          -- Log activity
          let log := ActivityLogRepository.Create env mail.2
            { ID := 0, AdminID := some adminID, Action := "reject_order",
              EntityType := some "order", EntityID := some orderID,
              Details := [("order_number", order.OrderNumber), ("reason", reason)],
              IPAddress := none, CreatedAt := 0 }
          (.ret none, log.2)

/-- The part of `ValidateDownload` after the order has been looked up. -/
def validateFound (env : Env) (r : (Option Order × Option String) × World) :
    Except AppError (Order × List OrderItem) × World :=
  match r with
  | ((_, some err), w1) => (.error (Wrap err "DATABASE_ERROR" "Failed to find order" 500), w1)
  | ((none, none), w1) => (.error (New "ORDER_NOT_FOUND" "Order not found" 404), w1)
  | ((some order, none), w1) =>
    -- Validate order status
    if order.Status ≠ "approved" ∧ order.Status ≠ "completed" then
      (.error (New "ORDER_NOT_APPROVED" "Order not yet approved" 403), w1)
    else
      -- Check expiry (`time.Now()` is read only when an expiry is set)
      let expired : Bool × World :=
        match order.DownloadExpiresAt with
        | none => (false, w1)
        | some t => (decide (t < env.now w1.step), w1.tick)
      if expired.1 then
        (.error (New "LINK_EXPIRED" "Download link has expired" 410), expired.2)
      -- Check download limit
      else if order.DownloadCount ≥ order.MaxDownloads then
        (.error (New "DOWNLOAD_LIMIT_EXCEEDED" "Maximum download limit reached" 429), expired.2)
      else
        -- Get items
        match OrderRepository.GetOrderItems env expired.2 order.ID with
        | ((_, some err), w2) => (.error (Wrap err "DATABASE_ERROR" "Failed to get items" 500), w2)
        | ((items, none), w2) => (.ok (order, items), w2)

/-- Method `ValidateDownload`; on success the order and its items. -/
def ValidateDownload (env : Env) (w : World) (orderNumber email token : String) :
    Except AppError (Order × List OrderItem) × World :=
  -- Find order by token or email
  if token ≠ "" then
    validateFound env (OrderRepository.FindByDownloadToken env w token)
  else if orderNumber ≠ "" ∧ email ≠ "" then
    validateFound env (OrderRepository.FindByOrderNumberAndEmail env w orderNumber email)
  else
    (.error (New "INVALID_PARAMS" "Token or order number with email required" 400), w)

/-- Method `RecordDownload`; the result is the Go `error`. -/
def RecordDownload (env : Env) (w : World) (orderID : Int) (log : DownloadLog) :
    Option AppError × World :=
  -- Increment download count
  match OrderRepository.IncrementDownloadCount env w orderID with
  | (some err, w1) =>
    (some (Wrap err "DATABASE_ERROR" "Failed to increment download count" 500), w1)
  | (none, w1) =>
    -- Mark as completed on first download
    let found := OrderRepository.FindByID env w1 orderID
    let w2 : World :=
      match found.1.1 with
      | some order =>
        if order.Status = "approved" ∧ order.DownloadCount = 0 then
          (OrderRepository.MarkCompleted env found.2 orderID).2
        else found.2
      | none => found.2
    -- Log download
    match OrderRepository.LogDownload env w2 log with
    | (some err, w3) => (some (Wrap err "DATABASE_ERROR" "Failed to log download" 500), w3)
    | (none, w3) => (none, w3)

end OrderService

/-! ## HTTP responses (`internal/pkg/response/response.go`) -/

/-- A Go `error` as a handler sees it: an `*apperrors.AppError` or any other error. -/
inductive GoError where
  | app (e : AppError)
  | other (msg : String)
  deriving DecidableEq, Repr

/-- The `data` member of a response body. -/
inductive Payload where
  | null
  | download (order : Order) (items : List OrderItem) (message : String)
  deriving DecidableEq, Repr

/-- HTTP status and JSON body written by a handler. -/
structure Response where
  Status : Int
  Success : Bool
  Message : String
  Code : String
  Data : Payload
  deriving DecidableEq, Repr

namespace response

/-- Function `response.Success`. -/
def Success (message : String) (data : Payload) : Response :=
  { Status := 200, Success := true, Message := message, Code := "", Data := data }

/-- Function `response.SuccessData`. -/
def SuccessData (data : Payload) : Response :=
  { Status := 200, Success := true, Message := "", Code := "", Data := data }

/-- Function `response.Error`. -/
def Error (err : GoError) : Response :=
  match err with
  | .app appErr =>
    { Status := appErr.Status, Success := false, Message := appErr.Message, Code := appErr.Code,
      Data := .null }
  | .other _ =>
    { Status := 500, Success := false, Message := "Internal server error",
      Code := "INTERNAL_SERVER_ERROR", Data := .null }

end response

/-! ## Admin handler (`internal/handler/admin/order_handler.go`) -/

namespace admin

/-- Body of the reject request (`json:"reason" validate:"required"`). -/
structure RejectOrderRequest where
  Reason : String
  deriving DecidableEq, Repr

/-- What `OrderHandler.Reject` reads from the `fiber.Ctx`. -/
structure RejectCtx where
  /-- Result of `c.ParamsInt("id")`. -/
  idParam : Except String Int
  /-- Result of `c.BodyParser(&req)`; a JSON body without `reason` parses to `Reason = ""`. -/
  body : Except String RejectOrderRequest
  /-- Result of `middleware.GetAdminID(c)`. -/
  adminID : Int

namespace OrderHandler

/-- Handler `Reject`. -/
def Reject (env : Env) (w : World) (c : RejectCtx) : Outcome Response × World :=
  match c.idParam with
  | .error _ => (.ret (response.Error (.other "Invalid order ID")), w)
  | .ok id =>
    match c.body with
    | .error e => (.ret (response.Error (.other e)), w)
    | .ok req =>
      match OrderService.RejectOrder env w id c.adminID req.Reason with
      | (.panic msg, w1) => (.panic msg, w1)
      | (.ret (some err), w1) => (.ret (response.Error (.app err)), w1)
      | (.ret none, w1) =>
        (.ret (response.Success "Order rejected and customer notified" .null), w1)

end OrderHandler

end admin

/-! ## Public handler (`internal/handler/public/order_handler.go`) -/

namespace public

/-- What `OrderHandler.Download` reads from the `fiber.Ctx`. -/
structure DownloadCtx where
  /-- Path parameter `orderNumber`. -/
  orderNumber : String
  /-- Query parameter `email`. -/
  email : String
  /-- Query parameter `token`. -/
  token : String
  /-- Result of `c.IP()`. -/
  ip : String
  /-- Header `User-Agent`. -/
  userAgent : String

namespace OrderHandler

/-- Handler `Download`. -/
def Download (env : Env) (w : World) (c : DownloadCtx) : Response × World :=
  match OrderService.ValidateDownload env w c.orderNumber c.email c.token with
  | (.error err, w1) => (response.Error (.app err), w1)
  | (.ok (order, items), w1) =>
    let recorded := OrderService.RecordDownload env w1 order.ID
      { ID := 0, OrderID := order.ID, TemplateID := none, TemplateTitle := none,
        DownloadType := "", FileSizeBytes := none, IPAddress := some c.ip,
        UserAgent := some c.userAgent, Status := "success", ErrorMessage := none,
        DownloadedAt := 0 }
    (response.SuccessData (.download order items "Download ready"), recorded.2)

end OrderHandler

/-- What `OrderHandler.Webhook` reads from the `fiber.Ctx`. -/
structure WebhookCtx where
  /-- Header `X-Razorpay-Signature`. -/
  signature : String
  /-- Result of `c.Body()`, the raw request body. -/
  body : String

namespace OrderHandler

/-- Handler `Webhook`. The error of the first branch is a `*fiber.Error`, not an
`*apperrors.AppError`; the answer of the last line, `c.JSON(fiber.Map{"success": true})`,
is status 200 with the body `{"success":true}`, the JSON of `response.SuccessData(nil)`. -/
def Webhook (_env : Env) (w : World) (c : WebhookCtx) : Response × World :=
  -- Verify Razorpay webhook signature
  if c.signature = "" then
    (response.Error (.other "Missing signature"), w)
  else
    let _ := c.body
    -- TODO: Verify webhook signature and process event
    -- For now, just return success
    ({ Status := 200, Success := true, Message := "", Code := "", Data := .null }, w)

end OrderHandler

end public

/-! ## Order creation

`TemplateRepository.GetByIDs` (`internal/repository/postgres/template_repository.go`),
`OrderRepository.Create`, `CreateOrderItem`, `Update`, `PaymentService.CreateOrder` and
`OrderService.CreateOrder`. The schema is not among the sources: a column that an INSERT
does not list takes its default, taken to be `NOW()` for `created_at` and `updated_at`, `0`
for `download_count` and NULL otherwise. -/

namespace TemplateRepository

/-- Method `GetByIDs`: no statement for an empty list, otherwise
`SELECT * FROM templates WHERE id = ANY($1) AND status = 'active'`, the rows in table
order. -/
def GetByIDs (env : Env) (w : World) (ids : List Int) : (List Template × Option String) × World :=
  if ids.length = 0 then (([], none), w)
  else
    match env.dbFault w.step with
    | some e => (([], some e), w.tick)
    | none =>
      ((w.db.templates.filter (fun t => decide (t.ID ∈ ids) && t.Status = "active"), none),
        w.tick)

end TemplateRepository

namespace OrderRepository

/-- Method `Create`: `INSERT INTO orders (...) VALUES (...) RETURNING id, created_at,
updated_at`; the result is the order as the scan leaves it in memory, and the error. -/
def Create (env : Env) (w : World) (order : Order) : (Order × Option String) × World :=
  match env.dbFault w.step with
  | some e => ((order, some e), w.tick)
  | none =>
    (({ order with ID := env.newID w.step, CreatedAt := env.dbNow w.step,
                   UpdatedAt := env.dbNow w.step }, none),
      { db := { w.db with
                orders := w.db.orders ++
                  [{ order with
                     ID := env.newID w.step, RazorpayOrderID := none,
                     RazorpayPaymentID := none, RazorpaySignature := none, ApprovedBy := none,
                     ApprovedAt := none, RejectionReason := none, DownloadCount := 0,
                     CreatedAt := env.dbNow w.step, UpdatedAt := env.dbNow w.step,
                     PaidAt := none, CompletedAt := none }] },
        outbox := w.outbox,
        step := w.step + 1, gateway := w.gateway })

/-- Method `Update`: `UPDATE orders SET status = $1, payment_status = $2,
razorpay_order_id = $3, razorpay_payment_id = $4, razorpay_signature = $5, approved_by = $6,
approved_at = $7, rejection_reason = $8, download_count = $9, paid_at = $10,
completed_at = $11, updated_at = NOW() WHERE id = $12 RETURNING updated_at`; the scan fails
with `sql.ErrNoRows` when no row has that `id`. -/
def Update (env : Env) (w : World) (order : Order) : (Order × Option String) × World :=
  match env.dbFault w.step with
  | some e => ((order, some e), w.tick)
  | none =>
    if w.db.orders.any (fun o => o.ID = order.ID) then
      (({ order with UpdatedAt := env.dbNow w.step }, none),
        { db := { w.db with
                  orders := w.db.orders.map (fun o => if o.ID = order.ID then
                    { o with Status := order.Status, PaymentStatus := order.PaymentStatus,
                             RazorpayOrderID := order.RazorpayOrderID,
                             RazorpayPaymentID := order.RazorpayPaymentID,
                             RazorpaySignature := order.RazorpaySignature,
                             ApprovedBy := order.ApprovedBy, ApprovedAt := order.ApprovedAt,
                             RejectionReason := order.RejectionReason,
                             DownloadCount := order.DownloadCount, PaidAt := order.PaidAt,
                             CompletedAt := order.CompletedAt,
                             UpdatedAt := env.dbNow w.step } else o) },
          outbox := w.outbox,
          step := w.step + 1, gateway := w.gateway })
    else ((order, some sqlErrNoRows), w.tick)

/-- Method `CreateOrderItem`: `INSERT INTO order_items (...) VALUES (...) RETURNING id,
created_at`; the result is the item as the scan leaves it in memory, and the error. -/
def CreateOrderItem (env : Env) (w : World) (item : OrderItem) :
    (OrderItem × Option String) × World :=
  match env.dbFault w.step with
  | some e => ((item, some e), w.tick)
  | none =>
    (({ item with ID := env.newID w.step, CreatedAt := env.dbNow w.step }, none),
      { db := { w.db with
                order_items := w.db.order_items ++
                  [{ item with ID := env.newID w.step, CreatedAt := env.dbNow w.step }] },
        outbox := w.outbox,
        step := w.step + 1, gateway := w.gateway })

end OrderRepository

namespace PaymentService

/-- Method `CreateOrder`: send amount (paise), currency `INR`, the order number as receipt
and the notes to the gateway; the result is the Go pair `(string, error)`. -/
def CreateOrder (env : Env) (w : World) (amountINR : Int) (orderNumber customerEmail : String) :
    (String × Option AppError) × World :=
  let w1 : World :=
    { db := w.db, outbox := w.outbox, step := w.step + 1,
      gateway := w.gateway ++
        [{ amount := amountINR, currency := "INR", receipt := orderNumber,
           notesOrderNumber := orderNumber, notesCustomerEmail := customerEmail }] }
  match env.gatewayReply w.step with
  | .fault err => (("", some (Wrap err "PAYMENT_ERROR" "Failed to create Razorpay order" 500)), w1)
  | .order none => (("", some (New "PAYMENT_ERROR" "Invalid Razorpay order response" 500)), w1)
  | .order (some razorpayOrderID) => ((razorpayOrderID, none), w1)

/-- Method `GetKeyID`. -/
def GetKeyID (env : Env) : String := env.keyID

end PaymentService

namespace OrderService

/-- Request of `CreateOrder`. -/
structure CreateOrderRequest where
  TemplateIDs : List Int
  CustomerEmail : String
  CustomerName : String
  CustomerPhone : String
  CurrencyCode : String
  IPAddress : String
  UserAgent : String
  deriving DecidableEq, Repr

/-- Response of `CreateOrder`. -/
structure CreateOrderResponse where
  Order : Order
  Items : List OrderItem
  RazorpayOrderID : String
  RazorpayKeyID : String
  deriving DecidableEq, Repr

/-- Method `getExchangeRate`: the fixed table of rates, `1.0` for any other currency. -/
def getExchangeRate (toCurrency : String) : Float64 :=
  if toCurrency = "USD" then Float64.ofRat (12 / 1000)
  else if toCurrency = "EUR" then Float64.ofRat (11 / 1000)
  else if toCurrency = "GBP" then Float64.ofRat (95 / 10000)
  else if toCurrency = "AUD" then Float64.ofRat (18 / 1000)
  else if toCurrency = "CAD" then Float64.ofRat (16 / 1000)
  else Float64.ofRat 1

/-- The loop `Calculate total` of `CreateOrder`, entered with the running `subtotalINR`:
the subtotal in Go `int` arithmetic, or `TEMPLATE_INACTIVE` at the first template whose
status is not `active`. -/
def sumPrices : List Template → Int → Except AppError Int
  | [], subtotalINR => .ok subtotalINR
  | template :: rest, subtotalINR =>
    if template.Status ≠ "active" then
      .error (New "TEMPLATE_INACTIVE" ("Template " ++ template.Title ++ " is not active") 400)
    else
      sumPrices rest (wrapInt64 (subtotalINR + template.PriceINR))

/-- The loop `Create order items` of `CreateOrder`, entered with the items made so far: the
items, or the error of the first INSERT that fails. -/
def createItems (env : Env) (orderID : Int) :
    List Template → World → List OrderItem → Except String (List OrderItem) × World
  | [], w, items => (.ok items, w)
  | template :: rest, w, items =>
    match OrderRepository.CreateOrderItem env w
        { ID := 0, OrderID := orderID, TemplateID := template.ID,
          TemplateTitle := template.Title, TemplateSlug := template.Slug,
          TemplateFileURL := template.FileURL, PriceINR := template.PriceINR,
          CreatedAt := 0 } with
    | ((_, some err), w1) => (.error err, w1)
    | ((item, none), w1) => createItems env orderID rest w1 (items ++ [item])

/-- Method `CreateOrder`. -/
def CreateOrder (env : Env) (w : World) (req : CreateOrderRequest) :
    Except AppError CreateOrderResponse × World :=
  -- Get templates
  match TemplateRepository.GetByIDs env w req.TemplateIDs with
  | ((_, some err), w1) => (.error (Wrap err "DATABASE_ERROR" "Failed to get templates" 500), w1)
  | ((templates, none), w1) =>
    if templates.length = 0 then
      (.error (New "NO_TEMPLATES" "No valid templates found" 400), w1)
    else if templates.length ≠ req.TemplateIDs.length then
      (.error (New "INVALID_TEMPLATES" "Some templates are not available" 400), w1)
    else
      -- Calculate total
      match sumPrices templates 0 with
      | .error err => (.error err, w1)
      | .ok subtotalINR =>
        -- Get exchange rate (if needed)
        let exchangeRate :=
          if req.CurrencyCode ≠ "INR" then getExchangeRate req.CurrencyCode
          else Float64.ofRat 1
        let totalLocal :=
          if req.CurrencyCode ≠ "INR" then
            Float64.mul (Float64.div (Float64.ofInt subtotalINR) (Float64.ofRat 100))
              exchangeRate
          else Float64.div (Float64.ofInt subtotalINR) (Float64.ofRat 100)
        -- Generate order number
        let orderNumber := "MRK" ++ toString (unixSeconds (env.now w1.step))
        let w2 := w1.tick
        -- Generate download token
        match env.randomToken w2.step with
        | .error err =>
          (.error (Wrap err "TOKEN_ERROR" "Failed to generate download token" 500), w2.tick)
        | .ok downloadToken =>
          let w3 := w2.tick
          -- Create order
          let order : Order :=
            { zeroOrder with
              OrderNumber := orderNumber, CustomerEmail := req.CustomerEmail,
              CustomerName := req.CustomerName, CustomerPhone := some req.CustomerPhone,
              SubtotalINR := subtotalINR, DiscountINR := 0, TaxINR := 0,
              TotalINR := subtotalINR, CurrencyCode := req.CurrencyCode,
              ExchangeRate := exchangeRate, TotalLocal := some totalLocal,
              PaymentMethod := "razorpay", Status := "pending", PaymentStatus := "pending",
              DownloadToken := some downloadToken, MaxDownloads := 3,
              DownloadExpiresAt := some (env.now w3.step + 30 * 24 * 3600000000000),
              IPAddress := some req.IPAddress, UserAgent := some req.UserAgent }
          match OrderRepository.Create env w3.tick order with
          | ((_, some err), w4) =>
            (.error (Wrap err "DATABASE_ERROR" "Failed to create order" 500), w4)
          | ((order, none), w4) =>
            -- Create order items
            match createItems env order.ID templates w4 [] with
            | (.error err, w5) =>
              (.error (Wrap err "DATABASE_ERROR" "Failed to create order item" 500), w5)
            | (.ok items, w5) =>
              -- Create Razorpay order
              match PaymentService.CreateOrder env w5 order.TotalINR order.OrderNumber
                  req.CustomerEmail with
              | ((_, some err), w6) => (.error err, w6)
              | ((razorpayOrderID, none), w6) =>
                -- Update order with Razorpay ID
                match OrderRepository.Update env w6
                    { order with RazorpayOrderID := some razorpayOrderID } with
                | ((_, some err), w7) =>
                  (.error (Wrap err "DATABASE_ERROR" "Failed to update order" 500), w7)
                | ((order, none), w7) =>
                  (.ok { Order := order, Items := items, RazorpayOrderID := razorpayOrderID,
                         RazorpayKeyID := PaymentService.GetKeyID env }, w7)

end OrderService

namespace OrderService

/-- The rows that the loop `Create order items` inserts for the order `orderID` when no INSERT
fails, the first INSERT being effect number `s`. -/
def itemsFrom (env : Env) (orderID : Int) : List Template → Nat → List OrderItem
  | [], _ => []
  | template :: rest, s =>
    { ID := env.newID s, OrderID := orderID, TemplateID := template.ID,
      TemplateTitle := template.Title, TemplateSlug := template.Slug,
      TemplateFileURL := template.FileURL, PriceINR := template.PriceINR,
      CreatedAt := env.dbNow s } :: itemsFrom env orderID rest (s + 1)

/-- The order as `CreateOrder`, started in `w`, holds it once `Create` has returned: the
order number comes from the clock reading number `w.step + 1`, the token from the draw
number `w.step + 2`, the expiry from the clock reading number `w.step + 3`, and `id`,
`created_at` and `updated_at` from the INSERT, statement number `w.step + 4`. -/
def newOrder (env : Env) (w : World) (req : CreateOrderRequest) (subtotalINR : Int)
    (downloadToken : String) : Order :=
  { zeroOrder with
    ID := env.newID (w.step + 4),
    OrderNumber := "MRK" ++ toString (unixSeconds (env.now (w.step + 1))),
    CustomerEmail := req.CustomerEmail, CustomerName := req.CustomerName,
    CustomerPhone := some req.CustomerPhone, SubtotalINR := subtotalINR, DiscountINR := 0,
    TaxINR := 0, TotalINR := subtotalINR, CurrencyCode := req.CurrencyCode,
    ExchangeRate :=
      if req.CurrencyCode ≠ "INR" then getExchangeRate req.CurrencyCode else Float64.ofRat 1,
    TotalLocal :=
      some (if req.CurrencyCode ≠ "INR" then
          Float64.mul (Float64.div (Float64.ofInt subtotalINR) (Float64.ofRat 100))
            (if req.CurrencyCode ≠ "INR" then getExchangeRate req.CurrencyCode
             else Float64.ofRat 1)
        else Float64.div (Float64.ofInt subtotalINR) (Float64.ofRat 100)),
    PaymentMethod := "razorpay", Status := "pending", PaymentStatus := "pending",
    DownloadToken := some downloadToken, MaxDownloads := 3,
    DownloadExpiresAt := some (env.now (w.step + 3) + 30 * 24 * 3600000000000),
    IPAddress := some req.IPAddress, UserAgent := some req.UserAgent,
    CreatedAt := env.dbNow (w.step + 4), UpdatedAt := env.dbNow (w.step + 4) }

/-- The world in which `CreateOrder`, started in `w`, turns to the payment gateway: the order
and one item per template have been inserted. -/
def worldAtGateway (env : Env) (w : World) (req : CreateOrderRequest)
    (templates : List Template) (subtotalINR : Int) (downloadToken : String) : World :=
  { db := { w.db with
            orders := w.db.orders ++ [newOrder env w req subtotalINR downloadToken],
            order_items := w.db.order_items ++
              itemsFrom env (env.newID (w.step + 4)) templates (w.step + 5) },
    outbox := w.outbox,
    step := w.step + 5 + templates.length, gateway := w.gateway }

/-- The conditions under which `CreateOrder`, started in `w`, gets as far as the payment
gateway: the catalog query runs and resolves `templates`, as many as were requested and at
least one, the loop over them yields `subtotalINR`, the token draw yields `downloadToken`,
and the INSERT of the order and of every item run. -/
structure ReachesGateway (env : Env) (w : World) (req : CreateOrderRequest)
    (templates : List Template) (subtotalINR : Int) (downloadToken : String) : Prop where
  resolved : TemplateRepository.GetByIDs env w req.TemplateIDs = ((templates, none), w.tick)
  nonempty : templates.length ≠ 0
  complete : templates.length = req.TemplateIDs.length
  subtotal : sumPrices templates 0 = .ok subtotalINR
  token : env.randomToken (w.step + 2) = .ok downloadToken
  header : env.dbFault (w.step + 4) = none
  items : ∀ k, k < templates.length → env.dbFault (w.step + 5 + k) = none

end OrderService

/-- The handler `Download` run `k` times in a row on the same request: the responses, oldest
first, and the world after the last of them. -/
def repeatDownload (env : Env) (c : public.DownloadCtx) : Nat → World → List Response × World
  | 0, w => ([], w)
  | k + 1, w =>
    let first := public.OrderHandler.Download env w c
    let rest := repeatDownload env c k first.2
    (first.1 :: rest.1, rest.2)

/-- The rows a download request matches: by download token when a token is supplied,
otherwise by order number and e-mail (`ValidateDownload`, `Find order by token or email`). -/
def requestSelects (orderNumber email token : String) (o : Order) : Bool :=
  if token ≠ "" then o.DownloadToken = some token
  else o.OrderNumber = orderNumber && o.CustomerEmail = email

/-! ## The state machine of the specification -/

/-- The status changes the specification allows an operation to make: none, or one of
`pending → paid`, `pending → failed`, `paid → approved`, `paid → rejected`,
`approved → completed`. -/
def allowedStep (before after : String) : Prop :=
  after = before ∨ (before = "pending" ∧ after = "paid") ∨ (before = "pending" ∧ after = "failed") ∨
    (before = "paid" ∧ after = "approved") ∨ (before = "paid" ∧ after = "rejected") ∨
    (before = "approved" ∧ after = "completed")

instance (before after : String) : Decidable (allowedStep before after) := by
  unfold allowedStep; infer_instance

/-- Both `ApproveOrder` and `RejectOrder`, called on `w`, fail with `INVALID_STATUS` (status
400) and hand back `w.tick`: the world `w` with the same tables and the same outbox, only
the effect counter advanced by the one SELECT that was run. -/
def refusedInvalidStatus (env : Env) (w : World) (orderID adminID : Int) (reason : String) :
    Prop :=
  OrderService.ApproveOrder env w orderID adminID =
      (.ret (some { Code := "INVALID_STATUS", Message := "Only paid orders can be approved",
                    Status := 400, Err := none }), w.tick) ∧
    OrderService.RejectOrder env w orderID adminID reason =
      (.ret (some { Code := "INVALID_STATUS", Message := "Only paid orders can be rejected",
                    Status := 400, Err := none }), w.tick)

/-! ## A concrete store, used to run the operations on explicit inputs -/

namespace Sample

/-- An environment in which no statement and no send fails. -/
def env : Env :=
  { keyID := "rzp_key", keySecret := "key_secret", webhookSecret := "webhook_secret",
    frontendURL := "https://merraki.com", fromName := "Merraki",
    fromEmail := "noreply@merraki.com",
    now := fun n => 1000 + n, dbNow := fun n => 2000 + n, newID := fun n => 100 + n,
    dbFault := fun _ => none, smtpFault := fun _ => none,
    gatewayReply := fun _ => .order (some "order_1"), randomToken := fun _ => .ok "tok" }

/-- Order 7 for two templates (50000 + 30000 paise), with gateway intent `order_1`, in the
given status. -/
def order (status paymentStatus : String) : Order :=
  { zeroOrder with
    ID := 7, OrderNumber := "MRK1700000000", CustomerEmail := "ann@example.com",
    CustomerName := "Ann", SubtotalINR := 80000, TotalINR := 80000, CurrencyCode := "INR",
    ExchangeRate := { bits := 0x3FF0000000000000 }, PaymentMethod := "razorpay",
    RazorpayOrderID := some "order_1", Status := status, PaymentStatus := paymentStatus,
    DownloadToken := some "tok", MaxDownloads := 3, DownloadExpiresAt := some 9000,
    CreatedAt := 10, UpdatedAt := 10 }

/-- A world whose only order is `o`. -/
def world (o : Order) : World :=
  { db := { orders := [o], order_items := [], download_logs := [], activity_logs := [],
            templates := [] },
    outbox := [], step := 0, gateway := [] }

/-- An environment like `env` in which statement number 1 fails: in a call of
`VerifyPayment` started with no effect performed yet, that is the UPDATE that follows the
lookup of the order. -/
def updateFaultEnv : Env :=
  { env with dbFault := fun n => if n = 1 then some "connection reset" else none }

/-- An environment like `env` in which statement number 3 fails: in a download request
started with no effect performed yet, for an order with an expiry, that is the UPDATE that
increments the download count. -/
def incrementFaultEnv : Env :=
  { env with dbFault := fun n => if n = 3 then some "connection reset" else none }

/-- Order 8 of Bob, approved, with the download token `tok8`. -/
def orderB : Order :=
  { order "approved" "success" with
    ID := 8, OrderNumber := "MRK1700000001", CustomerEmail := "bob@example.com",
    CustomerName := "Bob", RazorpayOrderID := some "order_2", DownloadToken := some "tok8" }

/-- A world with order 7 of Ann, approved, and order 8 of Bob. -/
def twoOrders : World :=
  { db := { orders := [order "approved" "success", orderB], order_items := [],
            download_logs := [], activity_logs := [], templates := [] },
    outbox := [], step := 0, gateway := [] }

/-- An environment like `env` whose clock starts at 2023-11-14 22:13:20 UTC (Unix time
1700000000) and advances by one millisecond per effect. -/
def shopEnv : Env :=
  { env with now := fun n => (62135596800 + 1700000000) * 1000000000 + 1000000 * n }

/-- An environment like `shopEnv` in which the payment gateway answers every request with an
error. -/
def downEnv : Env :=
  { shopEnv with gatewayReply := fun _ => .fault "gateway unreachable" }

/-- An environment like `shopEnv` in which statement number 6 fails: in a call of
`CreateOrder` started with no effect performed yet, that is the INSERT of the second
item. -/
def itemFaultEnv : Env :=
  { shopEnv with dbFault := fun n => if n = 6 then some "connection reset" else none }

/-- A template of the catalog. -/
def template (id price : Int) (status : String) : Template :=
  { ID := id, Slug := "template-" ++ toString id, Title := "Template " ++ toString id,
    Description := none, DetailedDescription := none, PriceINR := price, ThumbnailURL := none,
    PreviewURLs := [], FileURL := "files/" ++ toString id ++ ".xlsx", FileSizeBytes := none,
    CategoryID := 1, Tags := [], DownloadsCount := 0, ViewsCount := 0,
    Rating := { bits := 0 }, RatingCount := 0, Status := status, IsFeatured := false,
    MetaTitle := none, MetaDescription := none, CreatedBy := none, CreatedAt := 5,
    UpdatedAt := 5 }

/-- A world with no order yet and the given catalog. -/
def shop (catalog : List Template) : World :=
  { db := { orders := [], order_items := [], download_logs := [], activity_logs := [],
            templates := catalog },
    outbox := [], step := 0, gateway := [] }

/-- The catalog of the scenario: templates 1 and 2, active, priced 50000 and 30000 paise,
and template 3, a draft. -/
def catalog : List Template :=
  [template 1 50000 "active", template 2 30000 "active", template 3 20000 "draft"]

/-- A catalog of two active templates priced 2^62 paise each. -/
def costly : List Template :=
  [template 1 4611686018427387904 "active", template 2 4611686018427387904 "active"]

/-- A request of Ann for the given templates, to be shown in the given currency. -/
def request (ids : List Int) (currency : String) : OrderService.CreateOrderRequest :=
  { TemplateIDs := ids, CustomerEmail := "ann@example.com", CustomerName := "Ann",
    CustomerPhone := "", CurrencyCode := currency, IPAddress := "10.0.0.1",
    UserAgent := "curl" }

end Sample

/-! ## Basic facts about the primitives -/

@[simp] theorem tick_db (w : World) : w.tick.db = w.db := rfl

@[simp] theorem tick_outbox (w : World) : w.tick.outbox = w.outbox := rfl

@[simp] theorem tick_step (w : World) : w.tick.step = w.step + 1 := rfl

@[simp] theorem tick_gateway (w : World) : w.tick.gateway = w.gateway := rfl

@[simp] theorem getOrder_world (env : Env) (w : World) (cond : Order → Bool) :
    (getOrder env w cond).2 = w.tick := by
  unfold getOrder; split
  · rfl
  · split <;> rfl

@[simp] theorem findResult_world (r : (Order × Option String) × World) :
    (OrderRepository.findResult r).2 = r.2 := by
  unfold OrderRepository.findResult; split <;> rfl

@[simp] theorem FindByID_world (env : Env) (w : World) (id : Int) :
    (OrderRepository.FindByID env w id).2 = w.tick := by
  simp [OrderRepository.FindByID]

@[simp] theorem FindByRazorpayOrderID_world (env : Env) (w : World) (x : String) :
    (OrderRepository.FindByRazorpayOrderID env w x).2 = w.tick := by
  simp [OrderRepository.FindByRazorpayOrderID]

@[simp] theorem GetOrderItems_world (env : Env) (w : World) (id : Int) :
    (OrderRepository.GetOrderItems env w id).2 = w.tick := by
  unfold OrderRepository.GetOrderItems; split <;> rfl

@[simp] theorem sendEmail_db (env : Env) (w : World) (a b : String) (c : MailBody) :
    (EmailService.sendEmail env w a b c).2.db = w.db := by
  unfold EmailService.sendEmail; dsimp only; split <;> rfl

@[simp] theorem sendEmail_step (env : Env) (w : World) (a b : String) (c : MailBody) :
    (EmailService.sendEmail env w a b c).2.step = w.step + 1 := by
  unfold EmailService.sendEmail; dsimp only; split <;> rfl

@[simp] theorem sendEmail_outbox (env : Env) (w : World) (a b : String) (c : MailBody) :
    (EmailService.sendEmail env w a b c).2.outbox =
      w.outbox ++ [{ mail := { From := env.fromName ++ " <" ++ env.fromEmail ++ ">", To := a,
                               Subject := b, Body := c },
                     store := w.db }] := by
  unfold EmailService.sendEmail; dsimp only; split <;> rfl

theorem SendOrderApproval_db (env : Env) (w : World) (o : Order) (items : List OrderItem) :
    (EmailService.SendOrderApproval env w o items).2.db = w.db := by
  unfold EmailService.SendOrderApproval
  split
  · rfl
  · split
    · rfl
    · simp

@[simp] theorem ActivityLog_Create_orders (env : Env) (w : World) (l : ActivityLog) :
    (ActivityLogRepository.Create env w l).2.db.orders = w.db.orders := by
  unfold ActivityLogRepository.Create; split <;> rfl

@[simp] theorem ActivityLog_Create_outbox (env : Env) (w : World) (l : ActivityLog) :
    (ActivityLogRepository.Create env w l).2.outbox = w.outbox := by
  unfold ActivityLogRepository.Create; split <;> rfl

@[simp] theorem LogDownload_orders (env : Env) (w : World) (l : DownloadLog) :
    (OrderRepository.LogDownload env w l).2.db.orders = w.db.orders := by
  unfold OrderRepository.LogDownload; split <;> rfl

/-- A finder that reports an order and no error has run its statement without a fault and
found that order as the first matching row. -/
theorem getOrder_some (env : Env) (w w1 : World) (cond : Order → Bool) (o : Order)
    (h : OrderRepository.findResult (getOrder env w cond) = ((some o, none), w1)) :
    env.dbFault w.step = none ∧ w.db.orders.find? cond = some o ∧ w1 = w.tick := by
  cases h0 : env.dbFault w.step with
  | some e => simp [OrderRepository.findResult, getOrder, h0] at h; split at h <;> simp at h
  | none =>
    cases hf : w.db.orders.find? cond with
    | none => simp [OrderRepository.findResult, getOrder, h0, hf, sqlErrNoRows] at h
    | some r =>
      simp [OrderRepository.findResult, getOrder, h0, hf] at h
      simp [h.1, h.2]

/-- A finder whose statement does not fault returns the first matching row. -/
theorem getOrder_found (env : Env) (w : World) (cond : Order → Bool) (o : Order)
    (h0 : env.dbFault w.step = none) (hf : w.db.orders.find? cond = some o) :
    OrderRepository.findResult (getOrder env w cond) = ((some o, none), w.tick) := by
  simp [getOrder, h0, hf, OrderRepository.findResult]

/-- Looking a row up by `id` after an update keyed on `id` that keeps the `id` column. -/
theorem find_map_update (l : List Order) (id : Int) (f : Order → Order)
    (hf : ∀ r, (f r).ID = r.ID) :
    (l.map (fun r => if r.ID = id then f r else r)).find? (fun r => r.ID = id) =
      (l.find? (fun r => r.ID = id)).map f := by
  induction l with
  | nil => rfl
  | cons a l ih =>
    by_cases h : a.ID = id
    · simp [List.find?, h, hf]
    · simp only [List.map_cons, h, if_false, List.find?, decide_False]
      exact ih

/-- Under the primary key on `id`, looking up the `id` of a stored row returns that row. -/
theorem find_by_id_of_mem (l : List Order) (o : Order) (hpk : (l.map (fun r => r.ID)).Nodup)
    (hm : o ∈ l) : l.find? (fun r => r.ID = o.ID) = some o := by
  induction l with
  | nil => cases hm
  | cons a l ih =>
    rw [List.map_cons, List.nodup_cons] at hpk
    by_cases h : a.ID = o.ID
    · have hao : a = o := by
        rcases List.mem_cons.mp hm with h1 | h1
        · exact h1.symm
        · exact absurd (h ▸ List.mem_map_of_mem (fun r => r.ID) h1) hpk.1
      simp [List.find?, hao]
    · have hne : o ≠ a := fun e => h (e ▸ rfl)
      have hm1 : o ∈ l := by
        rcases List.mem_cons.mp hm with h1 | h1
        · exact absurd h1 hne
        · exact h1
      simp only [List.find?, h, decide_False]
      exact ih hpk.2 hm1

/-- Under the primary key on `id`, two stored rows with the same `id` are the same row. -/
theorem pk_unique (l : List Order) (hpk : (l.map (fun r => r.ID)).Nodup) (a b : Order)
    (ha : a ∈ l) (hb : b ∈ l) (h : a.ID = b.ID) : a = b := by
  have h1 := find_by_id_of_mem l a hpk ha
  have h2 := find_by_id_of_mem l b hpk hb
  rw [h] at h1
  exact Option.some.inj (h1.symm.trans h2)

/-! ## Facts about the signature -/

theorem hexDigit_mem (n : Nat) : hexDigit n ∈ "0123456789abcdef".data := by
  by_cases h : n < 16
  · revert n; decide
  · have h16 : "0123456789abcdef".data.length ≤ n := by
      have : "0123456789abcdef".data.length = 16 := by decide
      omega
    unfold hexDigit
    rw [List.getD_eq_default _ _ h16]
    decide

theorem hexEncode_length (bs : List Nat) : (hexEncode bs).length = 2 * bs.length := by
  unfold hexEncode
  show (bs.flatMap (fun b => [hexDigit (b / 16), hexDigit (b % 16)])).length = 2 * bs.length
  induction bs with
  | nil => rfl
  | cons b bs ih => simp [List.flatMap_cons, ih]; omega

theorem hexEncode_mem (bs : List Nat) (c : Char) (h : c ∈ (hexEncode bs).data) :
    c ∈ "0123456789abcdef".data := by
  unfold hexEncode at h
  simp only [List.mem_flatMap] at h
  obtain ⟨b, _, hc⟩ := h
  simp only [List.mem_cons, List.mem_singleton, List.not_mem_nil, or_false] at hc
  rcases hc with hc | hc <;> rw [hc] <;> exact hexDigit_mem _

theorem sha256Round_length (v : List Nat) (kw : Nat × Nat) (h : v.length = 8) :
    (sha256Round v kw).length = 8 := by
  unfold sha256Round
  split
  · rfl
  · exact h

theorem sha256Compress_length (state block : List Nat) (h : state.length = 8) :
    (sha256Compress state block).length = 8 := by
  unfold sha256Compress
  have hv : ∀ (kws : List (Nat × Nat)) (v : List Nat), v.length = 8 →
      (kws.foldl sha256Round v).length = 8 := by
    intro kws
    induction kws with
    | nil => intro v hv; exact hv
    | cons kw kws ih => intro v hv; exact ih _ (sha256Round_length v kw hv)
  simp [List.length_zipWith, h, hv _ _ h]

theorem sha256_length (msg : List Nat) : (sha256 msg).length = 32 := by
  unfold sha256
  have hs : ∀ (blocks : List (List Nat)) (st : List Nat), st.length = 8 →
      (blocks.foldl sha256Compress st).length = 8 := by
    intro blocks
    induction blocks with
    | nil => intro st hst; exact hst
    | cons b blocks ih => intro st hst; exact ih _ (sha256Compress_length st b hst)
  have hb : ∀ (ws : List Nat), (ws.flatMap (bigEndian 4)).length = 4 * ws.length := by
    intro ws
    induction ws with
    | nil => rfl
    | cons x ws ih => simp [List.flatMap_cons, ih, bigEndian]; omega
  dsimp only
  rw [hb, hs _ _ (by rfl)]

theorem expectedSignature_length (env : Env) (i p : String) :
    (PaymentService.expectedSignature env i p).length = 64 := by
  unfold PaymentService.expectedSignature hmacSHA256
  simp [hexEncode_length, sha256_length]

theorem VerifySignature_expected (env : Env) (i p : String) :
    PaymentService.VerifySignature env i p (PaymentService.expectedSignature env i p) = none := by
  simp [PaymentService.VerifySignature]

theorem VerifySignature_mismatch (env : Env) (i p s : String)
    (h : s ≠ PaymentService.expectedSignature env i p) :
    PaymentService.VerifySignature env i p s =
      some (New "INVALID_SIGNATURE" "Payment signature verification failed" 400) := by
  simp [PaymentService.VerifySignature, Ne.symm h]

/-! ## The repository when the statement does not fault -/

/-- A finder whose statement does not fault returns the first matching row, if any. -/
theorem findResult_ok (env : Env) (w : World) (cond : Order → Bool)
    (h0 : env.dbFault w.step = none) :
    OrderRepository.findResult (getOrder env w cond) =
      ((w.db.orders.find? cond, none), w.tick) := by
  cases hf : w.db.orders.find? cond with
  | none => simp [getOrder, h0, hf, OrderRepository.findResult]
  | some o => simp [getOrder, h0, hf, OrderRepository.findResult]

theorem FindByID_ok (env : Env) (w : World) (id : Int) (h0 : env.dbFault w.step = none) :
    OrderRepository.FindByID env w id =
      ((w.db.orders.find? (fun o => o.ID = id), none), w.tick) :=
  findResult_ok env w _ h0

theorem FindByRazorpayOrderID_ok (env : Env) (w : World) (x : String)
    (h0 : env.dbFault w.step = none) :
    OrderRepository.FindByRazorpayOrderID env w x =
      ((w.db.orders.find? (fun o => o.RazorpayOrderID = some x), none), w.tick) :=
  findResult_ok env w _ h0

theorem GetOrderItems_ok (env : Env) (w : World) (id : Int) (h0 : env.dbFault w.step = none) :
    OrderRepository.GetOrderItems env w id =
      ((w.db.order_items.filter (fun it => it.OrderID = id), none), w.tick) := by
  simp [OrderRepository.GetOrderItems, h0]

theorem UpdatePaymentSuccess_ok (env : Env) (w : World) (id : Int) (p s : String)
    (h1 : env.dbFault (w.step + 1) = none) :
    OrderRepository.UpdatePaymentSuccess env w id p s =
      (none,
        { db := { w.db with
                  orders := w.db.orders.map (fun r => if r.ID = id then
                    { r with PaymentStatus := "success", Status := "paid",
                             RazorpayPaymentID := some p, RazorpaySignature := some s,
                             PaidAt := some (env.now w.step),
                             UpdatedAt := env.dbNow (w.step + 1) } else r) },
          outbox := w.outbox, step := w.step + 2, gateway := w.gateway }) := by
  simp [OrderRepository.UpdatePaymentSuccess, execUpdateOrders, h1]

theorem UpdatePaymentFailed_ok (env : Env) (w : World) (id : Int)
    (h0 : env.dbFault w.step = none) :
    OrderRepository.UpdatePaymentFailed env w id =
      (none,
        { db := { w.db with
                  orders := w.db.orders.map (fun r => if r.ID = id then
                    { r with PaymentStatus := "failed", Status := "failed",
                             UpdatedAt := env.dbNow w.step } else r) },
          outbox := w.outbox, step := w.step + 1, gateway := w.gateway }) := by
  simp [OrderRepository.UpdatePaymentFailed, execUpdateOrders, h0]

theorem sendEmail_world (env : Env) (w : World) (a b : String) (c : MailBody) :
    (EmailService.sendEmail env w a b c).2 =
      { db := w.db,
        outbox := w.outbox ++
          [{ mail := { From := env.fromName ++ " <" ++ env.fromEmail ++ ">", To := a,
                       Subject := b, Body := c },
             store := w.db }],
        step := w.step + 1, gateway := w.gateway } := by
  unfold EmailService.sendEmail; dsimp only; split <;> rfl

/-- What a verified confirmation does, whatever the status of the order found. -/
theorem VerifyPayment_valid (env : Env) (w : World) (i p s : String) (order : Order)
    (hdb : ∀ n, env.dbFault n = none)
    (hfind : w.db.orders.find? (fun o => o.RazorpayOrderID = some i) = some order)
    (hsig : s = PaymentService.expectedSignature env i p) :
    OrderService.VerifyPayment env w i p s =
      ((((w.db.orders.find? (fun o => o.ID = order.ID)).map (fun r =>
            { r with PaymentStatus := "success", Status := "paid",
                     RazorpayPaymentID := some p, RazorpaySignature := some s,
                     PaidAt := some (env.now (w.step + 1)),
                     UpdatedAt := env.dbNow (w.step + 2) })), none),
       { db := { w.db with orders := w.db.orders.map (fun r => if r.ID = order.ID then
                    { r with PaymentStatus := "success", Status := "paid",
                             RazorpayPaymentID := some p, RazorpaySignature := some s,
                             PaidAt := some (env.now (w.step + 1)),
                             UpdatedAt := env.dbNow (w.step + 2) } else r) },
         outbox := w.outbox ++
           [{ mail := { From := env.fromName ++ " <" ++ env.fromEmail ++ ">",
                        To := order.CustomerEmail,
                        Subject := "Order Confirmation - " ++ order.OrderNumber,
                        Body := .orderConfirmation order.CustomerName order.OrderNumber
                          order.TotalINR
                          (w.db.order_items.filter (fun it => it.OrderID = order.ID)).length
                          env.frontendURL },
              store := { w.db with orders := w.db.orders.map (fun r => if r.ID = order.ID then
                    { r with PaymentStatus := "success", Status := "paid",
                             RazorpayPaymentID := some p, RazorpaySignature := some s,
                             PaidAt := some (env.now (w.step + 1)),
                             UpdatedAt := env.dbNow (w.step + 2) } else r) } }],
         step := w.step + 6, gateway := w.gateway }) := by
  subst hsig
  simp only [OrderService.VerifyPayment, FindByRazorpayOrderID_ok env _ _ (hdb _), hfind,
    VerifySignature_expected, UpdatePaymentSuccess_ok env _ _ _ _ (hdb _),
    GetOrderItems_ok env _ _ (hdb _), EmailService.SendOrderConfirmation, sendEmail_world,
    FindByID_ok env _ _ (hdb _), tick_db, tick_step, tick_outbox, tick_gateway, World.tick]
  rw [find_map_update]
  intro r; rfl
theorem FindByRazorpayOrderID_found (env : Env) (w : World) (x : String) (order : Order)
    (h : (OrderRepository.FindByRazorpayOrderID env w x).1 = (some order, none)) :
    env.dbFault w.step = none ∧
      w.db.orders.find? (fun o => o.RazorpayOrderID = some x) = some order := by
  have h1 := getOrder_some env w (OrderRepository.FindByRazorpayOrderID env w x).2 _ order
    (Prod.ext h rfl)
  exact ⟨h1.1, h1.2.1⟩

theorem FindByID_found (env : Env) (w : World) (id : Int) (order : Order)
    (h : (OrderRepository.FindByID env w id).1 = (some order, none)) :
    env.dbFault w.step = none ∧ w.db.orders.find? (fun o => o.ID = id) = some order := by
  have h1 := getOrder_some env w (OrderRepository.FindByID env w id).2 _ order (Prod.ext h rfl)
  exact ⟨h1.1, h1.2.1⟩

/-! ## Payment verification -/

/-- C5: `VerifySignature` succeeds exactly when the supplied signature is the lower-case
hexadecimal encoding (64 digits) of HMAC-SHA256, keyed with the key secret, of
`intentID + "|" + paymentID`; in every other case it returns `INVALID_SIGNATURE` with
status 400. -/
theorem C5_VerifySignature_iff_hmac (env : Env) (intentID paymentID signature : String) :
    (PaymentService.VerifySignature env intentID paymentID signature = none ↔
      signature = hexEncode (hmacSHA256 (stringBytes env.keySecret)
        (stringBytes (intentID ++ "|" ++ paymentID)))) ∧
    (PaymentService.VerifySignature env intentID paymentID signature =
      if signature = hexEncode (hmacSHA256 (stringBytes env.keySecret)
          (stringBytes (intentID ++ "|" ++ paymentID)))
      then none
      else some { Code := "INVALID_SIGNATURE", Message := "Payment signature verification failed",
                  Status := 400, Err := none }) ∧
    (hexEncode (hmacSHA256 (stringBytes env.keySecret)
        (stringBytes (intentID ++ "|" ++ paymentID)))).length = 64 ∧
    (∀ c ∈ (hexEncode (hmacSHA256 (stringBytes env.keySecret)
        (stringBytes (intentID ++ "|" ++ paymentID)))).data, c ∈ "0123456789abcdef".data) := by
  refine ⟨?_, ?_, expectedSignature_length env intentID paymentID, fun c hc => hexEncode_mem _ c hc⟩
  · unfold PaymentService.VerifySignature PaymentService.expectedSignature
    by_cases h : signature = hexEncode (hmacSHA256 (stringBytes env.keySecret)
        (stringBytes (intentID ++ "|" ++ paymentID)))
    · simp [h]
    · simp [h, Ne.symm h]
  · unfold PaymentService.VerifySignature PaymentService.expectedSignature New
    by_cases h : signature = hexEncode (hmacSHA256 (stringBytes env.keySecret)
        (stringBytes (intentID ++ "|" ++ paymentID)))
    · simp [h]
    · simp [h, Ne.symm h]

/-- C4: when the order is found by the submitted intent ID and the signature does not match,
`VerifyPayment` fails with `INVALID_SIGNATURE` and (the UPDATE statement executing) leaves
the order with `payment_status = failed` and `status = failed`. -/
theorem C4_VerifyPayment_bad_signature (env : Env) (w : World)
    (intentID paymentID signature : String) (order : Order)
    (hfind : (OrderRepository.FindByRazorpayOrderID env w intentID).1 = (some order, none))
    (hupd : env.dbFault (w.step + 1) = none)
    (hsig : signature ≠ PaymentService.expectedSignature env intentID paymentID) :
    (OrderService.VerifyPayment env w intentID paymentID signature).1 =
        (none, some { Code := "INVALID_SIGNATURE",
                      Message := "Payment signature verification failed",
                      Status := 400, Err := none }) ∧
      (OrderService.VerifyPayment env w intentID paymentID signature).2.db.orders =
        w.db.orders.map (fun o => if o.ID = order.ID then
          { o with PaymentStatus := "failed", Status := "failed",
                   UpdatedAt := env.dbNow (w.step + 1) } else o) ∧
      { order with PaymentStatus := "failed", Status := "failed",
                   UpdatedAt := env.dbNow (w.step + 1) } ∈
        (OrderService.VerifyPayment env w intentID paymentID signature).2.db.orders := by
  obtain ⟨h0, hf⟩ := FindByRazorpayOrderID_found env w intentID order hfind
  have hm : order ∈ w.db.orders := List.mem_of_find?_eq_some hf
  have hv : OrderService.VerifyPayment env w intentID paymentID signature =
      ((none, some (New "INVALID_SIGNATURE" "Payment signature verification failed" 400)),
        { db := { w.db with
                  orders := w.db.orders.map (fun r => if r.ID = order.ID then
                    { r with PaymentStatus := "failed", Status := "failed",
                             UpdatedAt := env.dbNow (w.step + 1) } else r) },
          outbox := w.outbox, step := w.step + 2, gateway := w.gateway }) := by
    simp only [OrderService.VerifyPayment, FindByRazorpayOrderID_ok env _ _ h0, hf,
      VerifySignature_mismatch env _ _ _ hsig,
      UpdatePaymentFailed_ok env w.tick _ hupd, tick_db, tick_step, tick_outbox, tick_gateway]
  rw [hv]
  refine ⟨rfl, rfl, ?_⟩
  exact List.mem_map.mpr ⟨order, hm, by simp⟩

theorem forged_ne_expected (env : Env) (i p : String) :
    "forged" ≠ PaymentService.expectedSignature env i p := by
  intro h
  have h1 := congrArg String.length h
  rw [expectedSignature_length] at h1
  revert h1
  decide

/-- Witness of C4: order 7, still pending, receives the signature `forged`. -/
theorem C4_VerifyPayment_bad_signature_witness :
    (OrderService.VerifyPayment Sample.env (Sample.world (Sample.order "pending" "pending"))
        "order_1" "pay_1" "forged").1 =
        (none, some { Code := "INVALID_SIGNATURE",
                      Message := "Payment signature verification failed",
                      Status := 400, Err := none }) ∧
      (OrderService.VerifyPayment Sample.env (Sample.world (Sample.order "pending" "pending"))
        "order_1" "pay_1" "forged").2.db.orders =
        [{ Sample.order "pending" "pending" with
           PaymentStatus := "failed", Status := "failed", UpdatedAt := 2001 }] :=
  have h := C4_VerifyPayment_bad_signature Sample.env
    (Sample.world (Sample.order "pending" "pending")) "order_1" "pay_1" "forged"
    (Sample.order "pending" "pending") (by decide) rfl (forged_ne_expected _ _ _)
  ⟨h.1, h.2.1.trans (by decide)⟩

theorem VerifySignature_none (env : Env) (i p s : String)
    (h : PaymentService.VerifySignature env i p s = none) :
    s = PaymentService.expectedSignature env i p := by
  unfold PaymentService.VerifySignature at h
  by_cases hs : PaymentService.expectedSignature env i p = s
  · exact hs.symm
  · simp [hs] at h

/-- A verified confirmation for an order found by its intent ID, under the primary key on
`id`: the order returned, the store and the outbox afterwards. -/
theorem VerifyPayment_verified (env : Env) (w : World) (i p s : String) (order : Order)
    (hdb : ∀ n, env.dbFault n = none)
    (hpk : (w.db.orders.map (fun o => o.ID)).Nodup)
    (hfind : (OrderRepository.FindByRazorpayOrderID env w i).1 = (some order, none))
    (hsig : PaymentService.VerifySignature env i p s = none) :
    (OrderService.VerifyPayment env w i p s).1 =
        (some { order with PaymentStatus := "success", Status := "paid",
                           RazorpayPaymentID := some p, RazorpaySignature := some s,
                           PaidAt := some (env.now (w.step + 1)),
                           UpdatedAt := env.dbNow (w.step + 2) }, none) ∧
      (OrderService.VerifyPayment env w i p s).2.db =
        { w.db with orders := w.db.orders.map (fun o => if o.ID = order.ID then
            { o with PaymentStatus := "success", Status := "paid",
                     RazorpayPaymentID := some p, RazorpaySignature := some s,
                     PaidAt := some (env.now (w.step + 1)),
                     UpdatedAt := env.dbNow (w.step + 2) } else o) } ∧
      (OrderService.VerifyPayment env w i p s).2.outbox =
        w.outbox ++
          [{ mail := { From := env.fromName ++ " <" ++ env.fromEmail ++ ">",
                       To := order.CustomerEmail,
                       Subject := "Order Confirmation - " ++ order.OrderNumber,
                       Body := .orderConfirmation order.CustomerName order.OrderNumber
                         order.TotalINR
                         (w.db.order_items.filter (fun it => it.OrderID = order.ID)).length
                         env.frontendURL },
             store := (OrderService.VerifyPayment env w i p s).2.db }] := by
  obtain ⟨_, hf⟩ := FindByRazorpayOrderID_found env w i order hfind
  have hm : order ∈ w.db.orders := List.mem_of_find?_eq_some hf
  rw [VerifyPayment_valid env w i p s order hdb hf (VerifySignature_none env i p s hsig),
    find_by_id_of_mem w.db.orders order hpk hm]
  exact ⟨rfl, rfl, rfl⟩

/-- C3 (amended): for a pending order found by its gateway intent ID, `VerifyPayment` with a
correctly signed confirmation returns the order without error (the store executing its
statements) and leaves it with `payment_status = success`, `status = paid`, the submitted
payment ID and signature stored, the paid timestamp set and `updated_at` refreshed to the
database's `NOW()`, every other field and every other order unchanged; it attempts the
order-confirmation notification exactly once, after the state change. -/
theorem C3_VerifyPayment_first_success (env : Env) (w : World)
    (intentID paymentID signature : String) (order : Order)
    (hdb : ∀ n, env.dbFault n = none)
    (hpk : (w.db.orders.map (fun o => o.ID)).Nodup)
    (hfind : (OrderRepository.FindByRazorpayOrderID env w intentID).1 = (some order, none))
    (hpending : order.Status = "pending")
    (hsig : PaymentService.VerifySignature env intentID paymentID signature = none) :
    order.Status = "pending" ∧
      (OrderService.VerifyPayment env w intentID paymentID signature).1 =
        (some { order with PaymentStatus := "success", Status := "paid",
                           RazorpayPaymentID := some paymentID,
                           RazorpaySignature := some signature,
                           PaidAt := some (env.now (w.step + 1)),
                           UpdatedAt := env.dbNow (w.step + 2) }, none) ∧
      (OrderService.VerifyPayment env w intentID paymentID signature).2.db =
        { w.db with orders := w.db.orders.map (fun o => if o.ID = order.ID then
            { o with PaymentStatus := "success", Status := "paid",
                     RazorpayPaymentID := some paymentID, RazorpaySignature := some signature,
                     PaidAt := some (env.now (w.step + 1)),
                     UpdatedAt := env.dbNow (w.step + 2) } else o) } ∧
      (OrderService.VerifyPayment env w intentID paymentID signature).2.outbox =
        w.outbox ++
          [{ mail := { From := env.fromName ++ " <" ++ env.fromEmail ++ ">",
                       To := order.CustomerEmail,
                       Subject := "Order Confirmation - " ++ order.OrderNumber,
                       Body := .orderConfirmation order.CustomerName order.OrderNumber
                         order.TotalINR
                         (w.db.order_items.filter (fun it => it.OrderID = order.ID)).length
                         env.frontendURL },
             store := (OrderService.VerifyPayment env w intentID paymentID signature).2.db }] :=
  ⟨hpending, VerifyPayment_verified env w intentID paymentID signature order hdb hpk hfind hsig⟩

/-- Witness of C3: order 7, pending, receives the signature computed for
`order_1|pay_1`. -/
theorem C3_VerifyPayment_first_success_witness :
    (OrderService.VerifyPayment Sample.env (Sample.world (Sample.order "pending" "pending"))
        "order_1" "pay_1" (PaymentService.expectedSignature Sample.env "order_1" "pay_1")).1 =
      (some { Sample.order "pending" "pending" with
              PaymentStatus := "success", Status := "paid", RazorpayPaymentID := some "pay_1",
              RazorpaySignature :=
                some (PaymentService.expectedSignature Sample.env "order_1" "pay_1"),
              PaidAt := some 1001, UpdatedAt := 2002 }, none) :=
  (C3_VerifyPayment_first_success Sample.env (Sample.world (Sample.order "pending" "pending"))
    "order_1" "pay_1" (PaymentService.expectedSignature Sample.env "order_1" "pay_1")
    (Sample.order "pending" "pending") (fun _ => rfl) (by decide) (by decide) rfl
    (VerifySignature_expected _ _ _)).2.1

/-- Counterexample to C3 as stated: `updated_at`, a field other than the five the claim
lists, is 10 before the verification and 2002 after it. -/
theorem C3_counterexample_updated_at :
    (Sample.world (Sample.order "pending" "pending")).db.orders.map (fun o => o.UpdatedAt) = [10] ∧
      (OrderService.VerifyPayment Sample.env (Sample.world (Sample.order "pending" "pending"))
        "order_1" "pay_1"
        (PaymentService.expectedSignature Sample.env "order_1" "pay_1")).2.db.orders.map
          (fun o => o.UpdatedAt) = [2002] := by
  refine ⟨by decide, ?_⟩
  rw [VerifyPayment_valid Sample.env _ "order_1" "pay_1" _ (Sample.order "pending" "pending")
    (fun _ => rfl) (by decide) rfl]
  decide

/-- C2 (amended): for an order whose status is already paid, approved or completed,
`VerifyPayment` with a correctly signed confirmation for its intent returns without error
(the store executing its statements), but it is not a no-op: it rewrites the order exactly
as a first verification does (`status = paid`, `payment_status = success`, the submitted
payment ID and signature, the paid timestamp and `updated_at` re-stamped) and attempts the
order-confirmation notification once more. -/
theorem C2_VerifyPayment_repeat_rewrites (env : Env) (w : World)
    (intentID paymentID signature : String) (order : Order)
    (hdb : ∀ n, env.dbFault n = none)
    (hpk : (w.db.orders.map (fun o => o.ID)).Nodup)
    (hfind : (OrderRepository.FindByRazorpayOrderID env w intentID).1 = (some order, none))
    (hstatus : order.Status = "paid" ∨ order.Status = "approved" ∨ order.Status = "completed")
    (hsig : PaymentService.VerifySignature env intentID paymentID signature = none) :
    (order.Status = "paid" ∨ order.Status = "approved" ∨ order.Status = "completed") ∧
      (OrderService.VerifyPayment env w intentID paymentID signature).1.2 = none ∧
      (OrderService.VerifyPayment env w intentID paymentID signature).1.1 =
        some { order with PaymentStatus := "success", Status := "paid",
                          RazorpayPaymentID := some paymentID,
                          RazorpaySignature := some signature,
                          PaidAt := some (env.now (w.step + 1)),
                          UpdatedAt := env.dbNow (w.step + 2) } ∧
      (OrderService.VerifyPayment env w intentID paymentID signature).2.db.orders =
        w.db.orders.map (fun o => if o.ID = order.ID then
            { o with PaymentStatus := "success", Status := "paid",
                     RazorpayPaymentID := some paymentID, RazorpaySignature := some signature,
                     PaidAt := some (env.now (w.step + 1)),
                     UpdatedAt := env.dbNow (w.step + 2) } else o) ∧
      (OrderService.VerifyPayment env w intentID paymentID signature).2.outbox.length =
        w.outbox.length + 1 ∧
      (∀ a ∈ (OrderService.VerifyPayment env w intentID paymentID signature).2.outbox,
        a ∈ w.outbox ∨
          a.mail.Subject = "Order Confirmation - " ++ order.OrderNumber ∧
            a.mail.To = order.CustomerEmail) := by
  have h := VerifyPayment_verified env w intentID paymentID signature order hdb hpk hfind hsig
  refine ⟨hstatus, ?_, ?_, ?_, ?_, ?_⟩
  · rw [h.1]
  · rw [h.1]
  · rw [h.2.1]
  · rw [h.2.2]; simp
  · intro a ha
    rw [h.2.2] at ha
    rcases List.mem_append.mp ha with h1 | h1
    · exact Or.inl h1
    · right
      rw [List.mem_singleton] at h1
      subst h1
      exact ⟨rfl, rfl⟩

/-- Witness of C2: order 7, already approved, receives the signature computed for
`order_1|pay_1` again. -/
theorem C2_VerifyPayment_repeat_rewrites_witness :
    (OrderService.VerifyPayment Sample.env (Sample.world (Sample.order "approved" "success"))
        "order_1" "pay_1" (PaymentService.expectedSignature Sample.env "order_1" "pay_1")).1.1 =
      some { Sample.order "approved" "success" with
             PaymentStatus := "success", Status := "paid", RazorpayPaymentID := some "pay_1",
             RazorpaySignature :=
               some (PaymentService.expectedSignature Sample.env "order_1" "pay_1"),
             PaidAt := some 1001, UpdatedAt := 2002 } :=
  (C2_VerifyPayment_repeat_rewrites Sample.env
    (Sample.world (Sample.order "approved" "success"))
    "order_1" "pay_1" (PaymentService.expectedSignature Sample.env "order_1" "pay_1")
    (Sample.order "approved" "success") (fun _ => rfl) (by decide) (by decide)
    (Or.inr (Or.inl rfl)) (VerifySignature_expected _ _ _)).2.2.1

/-- Counterexample to C2 as stated: order 7 is approved and its confirmation is verified a
second time; the call succeeds, yet the stored status goes back from `approved` to `paid`,
the paid timestamp is stamped anew and a further confirmation message is handed to the
mailer. -/
theorem C2_counterexample_not_a_noop :
    (Sample.world (Sample.order "approved" "success")).db.orders.map
        (fun o => (o.Status, o.PaidAt)) = [("approved", none)] ∧
      (Sample.world (Sample.order "approved" "success")).outbox.length = 0 ∧
      PaymentService.VerifySignature Sample.env "order_1" "pay_1"
        (PaymentService.expectedSignature Sample.env "order_1" "pay_1") = none ∧
      (OrderService.VerifyPayment Sample.env (Sample.world (Sample.order "approved" "success"))
        "order_1" "pay_1"
        (PaymentService.expectedSignature Sample.env "order_1" "pay_1")).1.2 = none ∧
      (OrderService.VerifyPayment Sample.env (Sample.world (Sample.order "approved" "success"))
        "order_1" "pay_1"
        (PaymentService.expectedSignature Sample.env "order_1" "pay_1")).2.db.orders.map
          (fun o => (o.Status, o.PaidAt)) = [("paid", some 1001)] ∧
      (OrderService.VerifyPayment Sample.env (Sample.world (Sample.order "approved" "success"))
        "order_1" "pay_1"
        (PaymentService.expectedSignature Sample.env "order_1" "pay_1")).2.outbox.length = 1 := by
  refine ⟨by decide, by decide, VerifySignature_expected _ _ _, ?_, ?_, ?_⟩ <;>
    rw [VerifyPayment_valid Sample.env _ "order_1" "pay_1" _ (Sample.order "approved" "success")
      (fun _ => rfl) (by decide) rfl] <;>
    decide

/-! ## How each operation rewrites table `orders`, whatever fails -/

theorem execUpdateOrders_cases (env : Env) (w : World) (set : Time → Order → Order)
    (cond : Order → Bool) :
    (execUpdateOrders env w set cond).2.db.orders = w.db.orders ∨
      (env.dbFault w.step = none ∧
        (execUpdateOrders env w set cond).2.db.orders =
          w.db.orders.map (fun o => if cond o then set (env.dbNow w.step) o else o)) := by
  unfold execUpdateOrders
  cases h : env.dbFault w.step with
  | some e => left; rfl
  | none => right; exact ⟨rfl, rfl⟩

theorem SendOrderApproval_orders (env : Env) (w : World) (o : Order) (items : List OrderItem) :
    (EmailService.SendOrderApproval env w o items).2.db.orders = w.db.orders := by
  rw [SendOrderApproval_db]

theorem VerifyPayment_orders (env : Env) (w : World) (i p s : String) :
    (OrderService.VerifyPayment env w i p s).2.db.orders = w.db.orders ∨
      (∃ id, PaymentService.VerifySignature env i p s ≠ none ∧
        (OrderService.VerifyPayment env w i p s).2.db.orders =
          w.db.orders.map (fun o => if o.ID = id then
            { o with PaymentStatus := "failed", Status := "failed",
                     UpdatedAt := env.dbNow (w.step + 1) } else o)) ∨
      (∃ id, PaymentService.VerifySignature env i p s = none ∧
        (OrderService.VerifyPayment env w i p s).2.db.orders =
          w.db.orders.map (fun o => if o.ID = id then
            { o with PaymentStatus := "success", Status := "paid",
                     RazorpayPaymentID := some p, RazorpaySignature := some s,
                     PaidAt := some (env.now (w.step + 1)),
                     UpdatedAt := env.dbNow (w.step + 2) } else o)) := by
  unfold OrderService.VerifyPayment
  split
  · next h => left; have := congrArg Prod.snd h; simp at this; simp [← this]
  · next h => left; have := congrArg Prod.snd h; simp at this; simp [← this]
  · next order w1 h =>
    have hw := congrArg Prod.snd h
    simp at hw
    subst hw
    split
    · next err hs =>
      cases h1 : env.dbFault (w.step + 1) with
      | some e => left; simp [OrderRepository.UpdatePaymentFailed, execUpdateOrders, h1]
      | none =>
        right; left
        refine ⟨order.ID, by simp [hs], ?_⟩
        simp [OrderRepository.UpdatePaymentFailed, execUpdateOrders, h1]
    · next hs =>
      cases h2 : env.dbFault (w.step + 2) with
      | some e =>
        left
        simp [OrderRepository.UpdatePaymentSuccess, execUpdateOrders, h2, Nat.add_assoc]
      | none =>
        right; right
        refine ⟨order.ID, hs, ?_⟩
        simp [OrderRepository.UpdatePaymentSuccess, execUpdateOrders, h2, Nat.add_assoc,
          EmailService.SendOrderConfirmation]

theorem ApproveOrder_orders (env : Env) (w : World) (id a : Int) :
    ((∃ e, (OrderService.ApproveOrder env w id a).1 = .ret (some e)) ∧
      (OrderService.ApproveOrder env w id a).2.db.orders = w.db.orders) ∨
    ∃ order, w.db.orders.find? (fun o => o.ID = id) = some order ∧ order.Status = "paid" ∧
      (OrderService.ApproveOrder env w id a).2.db.orders =
        w.db.orders.map (fun o => if o.ID = id then
          { o with Status := "approved", ApprovedBy := some a,
                   ApprovedAt := some (env.now (w.step + 1)),
                   UpdatedAt := env.dbNow (w.step + 2) } else o) := by
  unfold OrderService.ApproveOrder
  split
  · next h => left; have := congrArg Prod.snd h; simp at this; simp [← this]
  · next h => left; have := congrArg Prod.snd h; simp at this; simp [← this]
  · next order w1 h =>
    have hw := congrArg Prod.snd h
    simp at hw
    subst hw
    have hf := (FindByID_found env w id order (congrArg Prod.fst h)).2
    split
    · left; simp
    · next hst =>
      simp at hst
      simp only [OrderRepository.ApproveOrder, execUpdateOrders]
      cases h2 : env.dbFault (w.tick.tick.step) with
      | some e => left; simp
      | none =>
        right
        refine ⟨order, hf, hst, ?_⟩
        simp only [FindByID_world, GetOrderItems_world]
        split
        · simp
        · split
          · next h3 =>
            have := congrArg (fun r => r.2.db.orders) h3
            simp [SendOrderApproval_db] at this
            simp [← this]
          · next h3 =>
            have := congrArg (fun r => r.2.db.orders) h3
            simp [SendOrderApproval_db] at this
            simp [← this]

theorem RejectOrder_orders (env : Env) (w : World) (id a : Int) (reason : String) :
    ((∃ e, (OrderService.RejectOrder env w id a reason).1 = .ret (some e)) ∧
      (OrderService.RejectOrder env w id a reason).2.db.orders = w.db.orders) ∨
    ∃ order, w.db.orders.find? (fun o => o.ID = id) = some order ∧ order.Status = "paid" ∧
      (OrderService.RejectOrder env w id a reason).2.db.orders =
        w.db.orders.map (fun o => if o.ID = id then
          { o with Status := "rejected", RejectionReason := some reason, ApprovedBy := some a,
                   ApprovedAt := some (env.now (w.step + 1)),
                   UpdatedAt := env.dbNow (w.step + 2) } else o) := by
  unfold OrderService.RejectOrder
  split
  · next h => left; have := congrArg Prod.snd h; simp at this; simp [← this]
  · next h => left; have := congrArg Prod.snd h; simp at this; simp [← this]
  · next order w1 h =>
    have hw := congrArg Prod.snd h
    simp at hw
    subst hw
    have hf := (FindByID_found env w id order (congrArg Prod.fst h)).2
    split
    · left; simp
    · next hst =>
      simp at hst
      simp only [OrderRepository.RejectOrder, execUpdateOrders]
      cases h2 : env.dbFault (w.tick.tick.step) with
      | some e => left; simp
      | none =>
        right
        refine ⟨order, hf, hst, ?_⟩
        simp only [FindByID_world]
        split
        · simp
        · simp [EmailService.SendOrderRejection]

theorem FindByID_fault (env : Env) (w : World) (id : Int) (e : String)
    (h : env.dbFault w.step = some e) :
    (OrderRepository.FindByID env w id).1.1 = none ∨
      (OrderRepository.FindByID env w id).1.1 = some zeroOrder := by
  unfold OrderRepository.FindByID OrderRepository.findResult getOrder
  simp only [h]
  split
  · left; rfl
  · right; rfl

theorem RecordDownload_orders (env : Env) (w : World) (id : Int) (log : DownloadLog) :
    ((∃ e, env.dbFault w.step = some e) ∧
      (OrderService.RecordDownload env w id log).2.db.orders = w.db.orders) ∨
      (OrderService.RecordDownload env w id log).2.db.orders =
        w.db.orders.map (fun o => if o.ID = id then
          { o with DownloadCount := o.DownloadCount + 1, UpdatedAt := env.dbNow w.step }
          else o) ∨
      ∃ found,
        (w.db.orders.map (fun o => if o.ID = id then
          { o with DownloadCount := o.DownloadCount + 1, UpdatedAt := env.dbNow w.step }
          else o)).find? (fun o => o.ID = id) = some found ∧
        found.Status = "approved" ∧ found.DownloadCount = 0 ∧
        (OrderService.RecordDownload env w id log).2.db.orders =
          (w.db.orders.map (fun o => if o.ID = id then
            { o with DownloadCount := o.DownloadCount + 1, UpdatedAt := env.dbNow w.step }
            else o)).map (fun o => if o.ID = id then
              { o with Status := "completed", CompletedAt := some (env.now (w.step + 2)),
                       UpdatedAt := env.dbNow (w.step + 3) } else o) := by
  have hlog : ∀ (w2 : World),
      (match OrderRepository.LogDownload env w2 log with
        | (some err, w3) => (some (Wrap err "DATABASE_ERROR" "Failed to log download" 500), w3)
        | (none, w3) => (none, w3)).2.db.orders = w2.db.orders := by
    intro w2
    split
    · next h => have := congrArg (fun r => r.2.db.orders) h; simp at this; simp [← this]
    · next h => have := congrArg (fun r => r.2.db.orders) h; simp at this; simp [← this]
  unfold OrderService.RecordDownload
  cases h0 : env.dbFault w.step with
  | some e =>
    left
    exact ⟨⟨e, rfl⟩, by simp [OrderRepository.IncrementDownloadCount, execUpdateOrders, h0]⟩
  | none =>
    right
    simp only [OrderRepository.IncrementDownloadCount, execUpdateOrders, h0, hlog]
    cases h1 : env.dbFault (w.step + 1) with
    | some e =>
      left
      rcases FindByID_fault env
        { db := { w.db with
                  orders := w.db.orders.map (fun o => if (fun o => decide (o.ID = id)) o = true then
                    (fun t o => { o with DownloadCount := o.DownloadCount + 1, UpdatedAt := t })
                      (env.dbNow w.step) o else o) },
          outbox := w.outbox, step := w.step + 1, gateway := w.gateway } id e h1 with hz | hz
      · simp only [hz, FindByID_world]; simp
      · simp only [hz, FindByID_world]; simp [zeroOrder]
    | none =>
      rw [FindByID_ok env _ _ h1]
      dsimp only
      split
      · next order hfo =>
        split
        · next hc =>
          cases h3 : env.dbFault (w.step + 3) with
          | some e =>
            left
            simp [OrderRepository.MarkCompleted, execUpdateOrders, h3, Nat.add_assoc]
          | none =>
            right
            refine ⟨order, by simpa using hfo, hc.1, hc.2, ?_⟩
            simp [OrderRepository.MarkCompleted, execUpdateOrders, h3, Nat.add_assoc]
        · left; simp
      · left; simp

/-! ## The status transitions -/

/-- Rows are related to themselves by a reflexive relation. -/
theorem rows_unchanged (P : String → String → Prop) (hP : ∀ s, P s s) (l : List Order) :
    List.Forall₂ (fun o o' => o'.ID = o.ID ∧ P o.Status o'.Status) l l :=
  List.forall₂_same.mpr (fun _ _ => ⟨rfl, hP _⟩)

/-- An update that keeps `id`, applied to the rows selected by `id`. -/
theorem rows_updated (P : String → String → Prop) (hP : ∀ s, P s s) (l : List Order) (id : Int)
    (f : Order → Order) (hid : ∀ o, (f o).ID = o.ID)
    (hf : ∀ o ∈ l, o.ID = id → P o.Status (f o).Status) :
    List.Forall₂ (fun o o' => o'.ID = o.ID ∧ P o.Status o'.Status) l
      (l.map (fun o => if o.ID = id then f o else o)) := by
  rw [List.forall₂_map_right_iff, List.forall₂_same]
  intro o ho
  show (if o.ID = id then f o else o).ID = o.ID ∧
    P o.Status (if o.ID = id then f o else o).Status
  by_cases h : o.ID = id
  · rw [if_pos h]
    exact ⟨hid o, hf o ho h⟩
  · rw [if_neg h]
    exact ⟨rfl, hP _⟩

/-- An update guarded by a check on the row found by `id`, under the primary key. -/
theorem rows_guarded_update (P : String → String → Prop) (hP : ∀ s, P s s) (l : List Order)
    (hpk : (l.map (fun o => o.ID)).Nodup) (id : Int) (found : Order)
    (hfound : l.find? (fun o => o.ID = id) = some found)
    (f : Order → Order) (hid : ∀ o, (f o).ID = o.ID)
    (hf : P found.Status (f found).Status) :
    List.Forall₂ (fun o o' => o'.ID = o.ID ∧ P o.Status o'.Status) l
      (l.map (fun o => if o.ID = id then f o else o)) := by
  apply rows_updated P hP l id f hid
  intro o ho hoid
  have hfm : found ∈ l := List.mem_of_find?_eq_some hfound
  have hfid : found.ID = id := by simpa using List.find?_some hfound
  have : o = found := pk_unique l hpk o found ho hfm (hoid.trans hfid.symm)
  rw [this]
  exact hf

/-- C1 (amended): for every order, `ApproveOrder`, `RejectOrder` and `RecordDownload`, with
any arguments and whatever statement fails, leave its status unchanged or move it along
`paid → approved`, `paid → rejected` and `approved → completed` respectively, so none of
them changes the status of a completed, rejected or failed order; `VerifyPayment` leaves the
status unchanged or sets it to `paid` (the signature matches) or to `failed` (it does not),
whatever the status was before. No operation adds, removes or renumbers an order. -/
theorem C1_status_transitions (env : Env) (w : World)
    (hpk : (w.db.orders.map (fun o => o.ID)).Nodup) :
    (∀ orderID adminID,
      List.Forall₂ (fun o o' => o'.ID = o.ID ∧
          (o'.Status = o.Status ∨ (o.Status = "paid" ∧ o'.Status = "approved")))
        w.db.orders (OrderService.ApproveOrder env w orderID adminID).2.db.orders) ∧
    (∀ orderID adminID reason,
      List.Forall₂ (fun o o' => o'.ID = o.ID ∧
          (o'.Status = o.Status ∨ (o.Status = "paid" ∧ o'.Status = "rejected")))
        w.db.orders (OrderService.RejectOrder env w orderID adminID reason).2.db.orders) ∧
    (∀ orderID log,
      List.Forall₂ (fun o o' => o'.ID = o.ID ∧
          (o'.Status = o.Status ∨ (o.Status = "approved" ∧ o'.Status = "completed")))
        w.db.orders (OrderService.RecordDownload env w orderID log).2.db.orders) ∧
    (∀ intentID paymentID signature,
      List.Forall₂ (fun o o' => o'.ID = o.ID ∧
          (o'.Status = o.Status ∨
            (PaymentService.VerifySignature env intentID paymentID signature = none ∧
              o'.Status = "paid") ∨
            (PaymentService.VerifySignature env intentID paymentID signature ≠ none ∧
              o'.Status = "failed")))
        w.db.orders
        (OrderService.VerifyPayment env w intentID paymentID signature).2.db.orders) := by
  refine ⟨?_, ?_, ?_, ?_⟩
  · intro orderID adminID
    rcases ApproveOrder_orders env w orderID adminID with ⟨_, h⟩ | ⟨order, hf, hst, h⟩
    · rw [h]
      exact rows_unchanged (fun s s' => s' = s ∨ (s = "paid" ∧ s' = "approved"))
        (fun _ => Or.inl rfl) _
    · rw [h]
      exact rows_guarded_update (fun s s' => s' = s ∨ (s = "paid" ∧ s' = "approved"))
        (fun _ => Or.inl rfl) _ hpk orderID order hf _ (fun _ => rfl) (Or.inr ⟨hst, rfl⟩)
  · intro orderID adminID reason
    rcases RejectOrder_orders env w orderID adminID reason with ⟨_, h⟩ | ⟨order, hf, hst, h⟩
    · rw [h]
      exact rows_unchanged (fun s s' => s' = s ∨ (s = "paid" ∧ s' = "rejected"))
        (fun _ => Or.inl rfl) _
    · rw [h]
      exact rows_guarded_update (fun s s' => s' = s ∨ (s = "paid" ∧ s' = "rejected"))
        (fun _ => Or.inl rfl) _ hpk orderID order hf _ (fun _ => rfl) (Or.inr ⟨hst, rfl⟩)
  · intro orderID log
    rcases RecordDownload_orders env w orderID log with ⟨_, h⟩ | h | ⟨found, hf, hst, _, h⟩
    · rw [h]
      exact rows_unchanged (fun s s' => s' = s ∨ (s = "approved" ∧ s' = "completed"))
        (fun _ => Or.inl rfl) _
    · rw [h]
      exact rows_updated (fun s s' => s' = s ∨ (s = "approved" ∧ s' = "completed"))
        (fun _ => Or.inl rfl) _ orderID _ (fun _ => rfl) (fun _ _ _ => Or.inl rfl)
    · rw [h, List.map_map]
      rw [find_map_update] at hf
      swap
      · intro r; rfl
      cases hfo : w.db.orders.find? (fun o => decide (o.ID = orderID)) with
      | none => rw [hfo] at hf; cases hf
      | some o0 =>
        rw [hfo] at hf
        simp only [Option.map_some', Option.some.injEq] at hf
        have hst0 : o0.Status = "approved" := by rw [← hf] at hst; exact hst
        have hfid : o0.ID = orderID := by simpa using List.find?_some hfo
        have hfm : o0 ∈ w.db.orders := List.mem_of_find?_eq_some hfo
        rw [List.forall₂_map_right_iff, List.forall₂_same]
        intro o ho
        by_cases hoid : o.ID = orderID
        · have : o = o0 := pk_unique _ hpk o o0 ho hfm (hoid.trans hfid.symm)
          subst this
          simp [hoid, hst0]
        · simp [hoid]
  · intro intentID paymentID signature
    rcases VerifyPayment_orders env w intentID paymentID signature with
      h | ⟨id, hs, h⟩ | ⟨id, hs, h⟩
    · rw [h]
      exact rows_unchanged (fun s s' => s' = s ∨
          (PaymentService.VerifySignature env intentID paymentID signature = none ∧
            s' = "paid") ∨
          (PaymentService.VerifySignature env intentID paymentID signature ≠ none ∧
            s' = "failed"))
        (fun _ => Or.inl rfl) _
    · rw [h]
      exact rows_updated (fun s s' => s' = s ∨
          (PaymentService.VerifySignature env intentID paymentID signature = none ∧
            s' = "paid") ∨
          (PaymentService.VerifySignature env intentID paymentID signature ≠ none ∧
            s' = "failed"))
        (fun _ => Or.inl rfl) _ id _ (fun _ => rfl) (fun _ _ _ => Or.inr (Or.inr ⟨hs, rfl⟩))
    · rw [h]
      exact rows_updated (fun s s' => s' = s ∨
          (PaymentService.VerifySignature env intentID paymentID signature = none ∧
            s' = "paid") ∨
          (PaymentService.VerifySignature env intentID paymentID signature ≠ none ∧
            s' = "failed"))
        (fun _ => Or.inl rfl) _ id _ (fun _ => rfl) (fun _ _ _ => Or.inr (Or.inl ⟨hs, rfl⟩))

/-- Witness of C1: the four operations on the store that holds order 7, paid. -/
theorem C1_status_transitions_witness :
    List.Forall₂ (fun o o' => o'.ID = o.ID ∧
        (o'.Status = o.Status ∨ (o.Status = "paid" ∧ o'.Status = "approved")))
      (Sample.world (Sample.order "paid" "success")).db.orders
      (OrderService.ApproveOrder Sample.env (Sample.world (Sample.order "paid" "success"))
        7 99).2.db.orders :=
  (C1_status_transitions Sample.env (Sample.world (Sample.order "paid" "success"))
    (by decide)).1 7 99

/-- What a confirmation with a wrong signature does, whatever the status of the order
found. -/
theorem VerifyPayment_mismatch (env : Env) (w : World) (i p s : String) (order : Order)
    (h0 : env.dbFault w.step = none) (h1 : env.dbFault (w.step + 1) = none)
    (hfind : w.db.orders.find? (fun o => o.RazorpayOrderID = some i) = some order)
    (hsig : s ≠ PaymentService.expectedSignature env i p) :
    OrderService.VerifyPayment env w i p s =
      ((none, some (New "INVALID_SIGNATURE" "Payment signature verification failed" 400)),
        { db := { w.db with
                  orders := w.db.orders.map (fun r => if r.ID = order.ID then
                    { r with PaymentStatus := "failed", Status := "failed",
                             UpdatedAt := env.dbNow (w.step + 1) } else r) },
          outbox := w.outbox, step := w.step + 2, gateway := w.gateway }) := by
  simp only [OrderService.VerifyPayment, FindByRazorpayOrderID_ok env _ _ h0, hfind,
    VerifySignature_mismatch env _ _ _ hsig,
    UpdatePaymentFailed_ok env w.tick _ h1, tick_db, tick_step, tick_outbox, tick_gateway]

/-- Counterexample to C1 as stated: order 7 is completed; a confirmation with a wrong
signature moves it to `failed`, and one with the right signature moves it to `paid`.
Neither `completed → failed` nor `completed → paid` is a transition of the state machine. -/
theorem C1_counterexample_completed_order :
    (Sample.world (Sample.order "completed" "success")).db.orders.map (fun o => o.Status) =
        ["completed"] ∧
      (OrderService.VerifyPayment Sample.env (Sample.world (Sample.order "completed" "success"))
        "order_1" "pay_1" "forged").2.db.orders.map (fun o => o.Status) = ["failed"] ∧
      (OrderService.VerifyPayment Sample.env (Sample.world (Sample.order "completed" "success"))
        "order_1" "pay_1"
        (PaymentService.expectedSignature Sample.env "order_1" "pay_1")).2.db.orders.map
          (fun o => o.Status) = ["paid"] ∧
      ¬ allowedStep "completed" "failed" ∧ ¬ allowedStep "completed" "paid" := by
  refine ⟨by decide, ?_, ?_, by decide, by decide⟩
  · rw [VerifyPayment_mismatch Sample.env _ "order_1" "pay_1" "forged"
      (Sample.order "completed" "success") rfl rfl (by decide) (forged_ne_expected _ _ _)]
    decide
  · rw [VerifyPayment_valid Sample.env _ "order_1" "pay_1" _ (Sample.order "completed" "success")
      (fun _ => rfl) (by decide) rfl]
    decide

/-! ## Approval and rejection -/

theorem Repository_ApproveOrder_ok (env : Env) (w : World) (id a : Int)
    (h1 : env.dbFault (w.step + 1) = none) :
    OrderRepository.ApproveOrder env w id a =
      (none,
        { db := { w.db with
                  orders := w.db.orders.map (fun r => if r.ID = id then
                    { r with Status := "approved", ApprovedBy := some a,
                             ApprovedAt := some (env.now w.step),
                             UpdatedAt := env.dbNow (w.step + 1) } else r) },
          outbox := w.outbox, step := w.step + 2, gateway := w.gateway }) := by
  simp [OrderRepository.ApproveOrder, execUpdateOrders, h1]

theorem Repository_RejectOrder_ok (env : Env) (w : World) (id a : Int) (reason : String)
    (h1 : env.dbFault (w.step + 1) = none) :
    OrderRepository.RejectOrder env w id a reason =
      (none,
        { db := { w.db with
                  orders := w.db.orders.map (fun r => if r.ID = id then
                    { r with Status := "rejected", RejectionReason := some reason,
                             ApprovedBy := some a, ApprovedAt := some (env.now w.step),
                             UpdatedAt := env.dbNow (w.step + 1) } else r) },
          outbox := w.outbox, step := w.step + 2, gateway := w.gateway }) := by
  simp [OrderRepository.RejectOrder, execUpdateOrders, h1]

theorem ActivityLog_Create_ok (env : Env) (w : World) (log : ActivityLog)
    (h0 : env.dbFault w.step = none) :
    ActivityLogRepository.Create env w log =
      (none,
        { db := { w.db with
                  activity_logs := w.db.activity_logs ++
                    [{ log with ID := env.newID w.step, CreatedAt := env.dbNow w.step }] },
          outbox := w.outbox, step := w.step + 1, gateway := w.gateway }) := by
  simp [ActivityLogRepository.Create, h0]

/-- What `ApproveOrder` does to a paid order that carries a download token and an expiry,
when no statement faults. -/
theorem ApproveOrder_paid (env : Env) (w : World) (id a : Int) (order : Order)
    (token : String) (expires : Time)
    (hdb : ∀ n, env.dbFault n = none)
    (hfind : w.db.orders.find? (fun o => o.ID = id) = some order)
    (hpaid : order.Status = "paid")
    (htok : order.DownloadToken = some token)
    (hexp : order.DownloadExpiresAt = some expires) :
    OrderService.ApproveOrder env w id a =
      (.ret none,
        { db :=
            { orders := w.db.orders.map (fun o => if o.ID = id then
                { o with Status := "approved", ApprovedBy := some a,
                         ApprovedAt := some (env.now (w.step + 1)),
                         UpdatedAt := env.dbNow (w.step + 2) } else o),
              order_items := w.db.order_items,
              download_logs := w.db.download_logs,
              templates := w.db.templates,
              activity_logs := w.db.activity_logs ++
                [{ ID := env.newID (w.step + 6), AdminID := some a, Action := "approve_order",
                   EntityType := some "order", EntityID := some id,
                   Details := [("order_number", order.OrderNumber)], IPAddress := none,
                   CreatedAt := env.dbNow (w.step + 6) }] },
          outbox := w.outbox ++
            [{ mail :=
                 { From := env.fromName ++ " <" ++ env.fromEmail ++ ">",
                   To := order.CustomerEmail,
                   Subject := "Order Approved - Download Your Templates",
                   Body := .orderApproval order.CustomerName order.OrderNumber
                     (w.db.order_items.filter (fun it => it.OrderID = id)).length
                     (env.frontendURL ++ "/orders/download/" ++ order.OrderNumber ++ "?token=" ++
                       token)
                     order.MaxDownloads expires },
               store :=
                 { w.db with orders := w.db.orders.map (fun o => if o.ID = id then
                     { o with Status := "approved", ApprovedBy := some a,
                              ApprovedAt := some (env.now (w.step + 1)),
                              UpdatedAt := env.dbNow (w.step + 2) } else o) } }],
          step := w.step + 7, gateway := w.gateway }) := by
  simp only [OrderService.ApproveOrder, FindByID_ok env _ _ (hdb _), hfind, hpaid,
    Repository_ApproveOrder_ok env _ _ _ (hdb _), GetOrderItems_ok env _ _ (hdb _),
    tick_db, tick_step, tick_outbox, tick_gateway, World.tick]
  rw [find_map_update]
  swap
  · intro r; rfl
  simp only [hfind, Option.map_some', EmailService.SendOrderApproval, htok, hexp,
    sendEmail_world, ActivityLog_Create_ok env _ _ (hdb _), ne_eq, not_true_eq_false, if_false]

/-- What `RejectOrder` does to a paid order when no statement faults. -/
theorem RejectOrder_paid (env : Env) (w : World) (id a : Int) (reason : String) (order : Order)
    (hdb : ∀ n, env.dbFault n = none)
    (hfind : w.db.orders.find? (fun o => o.ID = id) = some order)
    (hpaid : order.Status = "paid") :
    OrderService.RejectOrder env w id a reason =
      (.ret none,
        { db :=
            { orders := w.db.orders.map (fun o => if o.ID = id then
                { o with Status := "rejected", RejectionReason := some reason,
                         ApprovedBy := some a, ApprovedAt := some (env.now (w.step + 1)),
                         UpdatedAt := env.dbNow (w.step + 2) } else o),
              order_items := w.db.order_items,
              download_logs := w.db.download_logs,
              templates := w.db.templates,
              activity_logs := w.db.activity_logs ++
                [{ ID := env.newID (w.step + 5), AdminID := some a, Action := "reject_order",
                   EntityType := some "order", EntityID := some id,
                   Details := [("order_number", order.OrderNumber), ("reason", reason)],
                   IPAddress := none, CreatedAt := env.dbNow (w.step + 5) }] },
          outbox := w.outbox ++
            [{ mail :=
                 { From := env.fromName ++ " <" ++ env.fromEmail ++ ">",
                   To := order.CustomerEmail,
                   Subject := "Order Update - " ++ order.OrderNumber,
                   Body := .orderRejection order.CustomerName order.OrderNumber reason },
               store :=
                 { w.db with orders := w.db.orders.map (fun o => if o.ID = id then
                     { o with Status := "rejected", RejectionReason := some reason,
                              ApprovedBy := some a, ApprovedAt := some (env.now (w.step + 1)),
                              UpdatedAt := env.dbNow (w.step + 2) } else o) } }],
          step := w.step + 6, gateway := w.gateway }) := by
  simp only [OrderService.RejectOrder, FindByID_ok env _ _ (hdb _), hfind, hpaid,
    Repository_RejectOrder_ok env _ _ _ _ (hdb _),
    tick_db, tick_step, tick_outbox, tick_gateway, World.tick]
  rw [find_map_update]
  swap
  · intro r; rfl
  simp only [hfind, Option.map_some', EmailService.SendOrderRejection,
    sendEmail_world, ActivityLog_Create_ok env _ _ (hdb _), ne_eq, not_true_eq_false, if_false]

/-- C7 (amended): for a paid order that carries a download token and a download expiry,
`ApproveOrder(orderID, adminID)` returns success (the store executing its statements) and
leaves the order with `status = approved`, `approved_by = adminID`, the approval timestamp
set and `updated_at` refreshed to the database's `NOW()`, every other field (amounts,
payment fields, download token, download count, max downloads, expiry) and every other
order unchanged; it attempts exactly one approval notification, built from the order's
download token, `max_downloads` and download expiry, after the state change. -/
theorem C7_ApproveOrder_paid (env : Env) (w : World) (orderID adminID : Int) (order : Order)
    (token : String) (expires : Time)
    (hdb : ∀ n, env.dbFault n = none)
    (hfind : (OrderRepository.FindByID env w orderID).1 = (some order, none))
    (hpaid : order.Status = "paid")
    (htok : order.DownloadToken = some token)
    (hexp : order.DownloadExpiresAt = some expires) :
    (OrderService.ApproveOrder env w orderID adminID).1 = .ret none ∧
      (OrderService.ApproveOrder env w orderID adminID).2.db.orders =
        w.db.orders.map (fun o => if o.ID = orderID then
          { o with Status := "approved", ApprovedBy := some adminID,
                   ApprovedAt := some (env.now (w.step + 1)),
                   UpdatedAt := env.dbNow (w.step + 2) } else o) ∧
      (OrderService.ApproveOrder env w orderID adminID).2.db.orders.find?
          (fun o => o.ID = orderID) =
        some { order with Status := "approved", ApprovedBy := some adminID,
                          ApprovedAt := some (env.now (w.step + 1)),
                          UpdatedAt := env.dbNow (w.step + 2) } ∧
      (OrderService.ApproveOrder env w orderID adminID).2.db.order_items = w.db.order_items ∧
      (OrderService.ApproveOrder env w orderID adminID).2.outbox =
        w.outbox ++
          [{ mail :=
               { From := env.fromName ++ " <" ++ env.fromEmail ++ ">",
                 To := order.CustomerEmail,
                 Subject := "Order Approved - Download Your Templates",
                 Body := .orderApproval order.CustomerName order.OrderNumber
                   (w.db.order_items.filter (fun it => it.OrderID = orderID)).length
                   (env.frontendURL ++ "/orders/download/" ++ order.OrderNumber ++ "?token=" ++
                     token)
                   order.MaxDownloads expires },
             store :=
               { w.db with orders :=
                   (OrderService.ApproveOrder env w orderID adminID).2.db.orders } }] := by
  obtain ⟨_, hf⟩ := FindByID_found env w orderID order hfind
  rw [ApproveOrder_paid env w orderID adminID order token expires hdb hf hpaid htok hexp]
  refine ⟨rfl, rfl, ?_, rfl, rfl⟩
  show (w.db.orders.map _).find? _ = _
  rw [find_map_update]
  · rw [hf]; rfl
  · intro r; rfl

/-- Witness of C7: admin 99 approves order 7, which is paid. -/
theorem C7_ApproveOrder_paid_witness :
    (OrderService.ApproveOrder Sample.env (Sample.world (Sample.order "paid" "success"))
        7 99).1 = .ret none ∧
      (OrderService.ApproveOrder Sample.env (Sample.world (Sample.order "paid" "success"))
        7 99).2.db.orders =
        [{ Sample.order "paid" "success" with
           Status := "approved", ApprovedBy := some 99, ApprovedAt := some 1001,
           UpdatedAt := 2002 }] :=
  have h := C7_ApproveOrder_paid Sample.env (Sample.world (Sample.order "paid" "success")) 7 99
    (Sample.order "paid" "success") "tok" 9000 (fun _ => rfl) (by decide) rfl rfl rfl
  ⟨h.1, h.2.1.trans (by decide)⟩

/-- Counterexample to C7 as stated: approving order 7 moves `updated_at`, a field other than
status, approver and approval timestamp, from 10 to 2002; and a paid order without a
download token is left approved while `ApproveOrder` ends in a nil-dereference panic instead
of returning success, no notification being attempted. -/
theorem C7_counterexample_updated_at_and_missing_token :
    ((Sample.world (Sample.order "paid" "success")).db.orders.map (fun o => o.UpdatedAt) = [10] ∧
      (OrderService.ApproveOrder Sample.env (Sample.world (Sample.order "paid" "success"))
        7 99).2.db.orders.map (fun o => o.UpdatedAt) = [2002]) ∧
    ((OrderService.ApproveOrder Sample.env
        (Sample.world { Sample.order "paid" "success" with DownloadToken := none }) 7 99).1 =
        .panic nilDeref ∧
      (OrderService.ApproveOrder Sample.env
        (Sample.world { Sample.order "paid" "success" with DownloadToken := none })
        7 99).2.db.orders.map (fun o => o.Status) = ["approved"] ∧
      (OrderService.ApproveOrder Sample.env
        (Sample.world { Sample.order "paid" "success" with DownloadToken := none })
        7 99).2.outbox = []) := by
  decide

/-- C8 (amended): for a paid order and any reason, `RejectOrder(orderID, adminID, reason)`
returns success (the store executing its statements) and leaves the order with
`status = rejected`, `rejection_reason = reason`, the acting admin and the timestamp stamped
and `updated_at` refreshed to the database's `NOW()`, every other field and every other
order unchanged; it attempts exactly one rejection notification carrying that same reason,
after the state change. -/
theorem C8_RejectOrder_paid (env : Env) (w : World) (orderID adminID : Int) (reason : String)
    (order : Order)
    (hdb : ∀ n, env.dbFault n = none)
    (hfind : (OrderRepository.FindByID env w orderID).1 = (some order, none))
    (hpaid : order.Status = "paid") :
    (OrderService.RejectOrder env w orderID adminID reason).1 = .ret none ∧
      (OrderService.RejectOrder env w orderID adminID reason).2.db.orders =
        w.db.orders.map (fun o => if o.ID = orderID then
          { o with Status := "rejected", RejectionReason := some reason,
                   ApprovedBy := some adminID, ApprovedAt := some (env.now (w.step + 1)),
                   UpdatedAt := env.dbNow (w.step + 2) } else o) ∧
      (OrderService.RejectOrder env w orderID adminID reason).2.db.orders.find?
          (fun o => o.ID = orderID) =
        some { order with Status := "rejected", RejectionReason := some reason,
                          ApprovedBy := some adminID,
                          ApprovedAt := some (env.now (w.step + 1)),
                          UpdatedAt := env.dbNow (w.step + 2) } ∧
      (OrderService.RejectOrder env w orderID adminID reason).2.db.order_items =
        w.db.order_items ∧
      (OrderService.RejectOrder env w orderID adminID reason).2.outbox =
        w.outbox ++
          [{ mail :=
               { From := env.fromName ++ " <" ++ env.fromEmail ++ ">",
                 To := order.CustomerEmail,
                 Subject := "Order Update - " ++ order.OrderNumber,
                 Body := .orderRejection order.CustomerName order.OrderNumber reason },
             store :=
               { w.db with orders :=
                   (OrderService.RejectOrder env w orderID adminID reason).2.db.orders } }] := by
  obtain ⟨_, hf⟩ := FindByID_found env w orderID order hfind
  rw [RejectOrder_paid env w orderID adminID reason order hdb hf hpaid]
  refine ⟨rfl, rfl, ?_, rfl, rfl⟩
  show (w.db.orders.map _).find? _ = _
  rw [find_map_update]
  · rw [hf]; rfl
  · intro r; rfl

/-- Witness of C8: admin 99 rejects order 7, which is paid, for the reason `duplicate`. -/
theorem C8_RejectOrder_paid_witness :
    (OrderService.RejectOrder Sample.env (Sample.world (Sample.order "paid" "success"))
        7 99 "duplicate").1 = .ret none ∧
      (OrderService.RejectOrder Sample.env (Sample.world (Sample.order "paid" "success"))
        7 99 "duplicate").2.db.orders =
        [{ Sample.order "paid" "success" with
           Status := "rejected", RejectionReason := some "duplicate", ApprovedBy := some 99,
           ApprovedAt := some 1001, UpdatedAt := 2002 }] :=
  have h := C8_RejectOrder_paid Sample.env (Sample.world (Sample.order "paid" "success")) 7 99
    "duplicate" (Sample.order "paid" "success") (fun _ => rfl) (by decide) rfl
  ⟨h.1, h.2.1.trans (by decide)⟩

/-- Counterexample to C8 as stated: rejecting order 7 moves `updated_at`, a field other than
status, reason, admin and timestamp, from 10 to 2002. -/
theorem C8_counterexample_updated_at :
    (Sample.world (Sample.order "paid" "success")).db.orders.map (fun o => o.UpdatedAt) = [10] ∧
      (OrderService.RejectOrder Sample.env (Sample.world (Sample.order "paid" "success"))
        7 99 "duplicate").2.db.orders.map (fun o => o.UpdatedAt) = [2002] := by
  decide

theorem refused_of_not_paid (env : Env) (w : World) (orderID adminID : Int) (reason : String)
    (order : Order) (h0 : env.dbFault w.step = none)
    (hf : w.db.orders.find? (fun o => o.ID = orderID) = some order)
    (hst : order.Status ≠ "paid") :
    refusedInvalidStatus env w orderID adminID reason := by
  constructor
  · simp only [OrderService.ApproveOrder, FindByID_ok env _ _ h0, hf]
    simp [hst, New]
  · simp only [OrderService.RejectOrder, FindByID_ok env _ _ h0, hf]
    simp [hst, New]

theorem approved_after_ApproveOrder (env : Env) (w0 : World) (id a : Int)
    (h : (OrderService.ApproveOrder env w0 id a).1 = .ret none) :
    ∃ o, (OrderService.ApproveOrder env w0 id a).2.db.orders.find? (fun o => o.ID = id) = some o ∧
      o.Status = "approved" := by
  rcases ApproveOrder_orders env w0 id a with ⟨⟨e, he⟩, _⟩ | ⟨order, hf, _, ho⟩
  · rw [h] at he; cases he
  · rw [ho, find_map_update]
    · rw [hf]; exact ⟨_, rfl, rfl⟩
    · intro r; rfl

theorem rejected_after_RejectOrder (env : Env) (w0 : World) (id a : Int) (reason : String)
    (h : (OrderService.RejectOrder env w0 id a reason).1 = .ret none) :
    ∃ o, (OrderService.RejectOrder env w0 id a reason).2.db.orders.find?
        (fun o => o.ID = id) = some o ∧ o.Status = "rejected" := by
  rcases RejectOrder_orders env w0 id a reason with ⟨⟨e, he⟩, _⟩ | ⟨order, hf, _, ho⟩
  · rw [h] at he; cases he
  · rw [ho, find_map_update]
    · rw [hf]; exact ⟨_, rfl, rfl⟩
    · intro r; rfl

/-- C6: for an existing order whose status is not paid, `ApproveOrder` and `RejectOrder` each
fail with `INVALID_STATUS`, leave every table unchanged (nothing is re-stamped) and send no
notification; consequently a second approve or reject that directly follows a successful
approve or a successful reject of the same order, in the world that call left, fails with
`INVALID_STATUS` (the SELECT that looks the order up executing). -/
theorem C6_approve_reject_only_from_paid (env : Env) (orderID : Int) :
    (∀ (w : World) (order : Order) (adminID : Int) (reason : String),
      (OrderRepository.FindByID env w orderID).1 = (some order, none) →
      order.Status ≠ "paid" →
      refusedInvalidStatus env w orderID adminID reason) ∧
    (∀ (w0 : World) (firstAdmin adminID : Int) (reason : String),
      (OrderService.ApproveOrder env w0 orderID firstAdmin).1 = .ret none →
      env.dbFault (OrderService.ApproveOrder env w0 orderID firstAdmin).2.step = none →
      refusedInvalidStatus env (OrderService.ApproveOrder env w0 orderID firstAdmin).2
        orderID adminID reason) ∧
    (∀ (w0 : World) (firstAdmin adminID : Int) (firstReason reason : String),
      (OrderService.RejectOrder env w0 orderID firstAdmin firstReason).1 = .ret none →
      env.dbFault (OrderService.RejectOrder env w0 orderID firstAdmin firstReason).2.step =
        none →
      refusedInvalidStatus env (OrderService.RejectOrder env w0 orderID firstAdmin firstReason).2
        orderID adminID reason) := by
  refine ⟨?_, ?_, ?_⟩
  · intro w order adminID reason hfind hst
    obtain ⟨h0, hf⟩ := FindByID_found env w orderID order hfind
    exact refused_of_not_paid env w orderID adminID reason order h0 hf hst
  · intro w0 firstAdmin adminID reason hok h0
    obtain ⟨o, hf, hst⟩ := approved_after_ApproveOrder env w0 orderID firstAdmin hok
    exact refused_of_not_paid env _ orderID adminID reason o h0 hf (by rw [hst]; decide)
  · intro w0 firstAdmin adminID firstReason reason hok h0
    obtain ⟨o, hf, hst⟩ := rejected_after_RejectOrder env w0 orderID firstAdmin firstReason hok
    exact refused_of_not_paid env _ orderID adminID reason o h0 hf (by rw [hst]; decide)

/-- Witness of C6: order 7 is still pending, and order 7 has just been approved by
admin 99. -/
theorem C6_approve_reject_only_from_paid_witness :
    refusedInvalidStatus Sample.env (Sample.world (Sample.order "pending" "pending")) 7 5
        "late" ∧
      refusedInvalidStatus Sample.env
        (OrderService.ApproveOrder Sample.env (Sample.world (Sample.order "paid" "success"))
          7 99).2 7 5 "late" :=
  ⟨(C6_approve_reject_only_from_paid Sample.env 7).1
      (Sample.world (Sample.order "pending" "pending")) (Sample.order "pending" "pending") 5
      "late" (by decide) (by decide),
    (C6_approve_reject_only_from_paid Sample.env 7).2.1
      (Sample.world (Sample.order "paid" "success")) 99 5 "late" (by decide) rfl⟩

/-! ## The handlers -/

/-- C9 (the code departs from the claim): the admin reject handler passes an empty reason
through. For order 7, paid, the request body `reason = ""` is answered with 200 and the
success message, and the order is stored as rejected with the empty rejection reason; the
rejection message that is handed to the mailer carries the empty reason too. -/
theorem C9_Reject_accepts_empty_reason :
    (admin.OrderHandler.Reject Sample.env (Sample.world (Sample.order "paid" "success"))
        { idParam := .ok 7, body := .ok { Reason := "" }, adminID := 99 }).1 =
        .ret { Status := 200, Success := true, Message := "Order rejected and customer notified",
               Code := "", Data := .null } ∧
      (admin.OrderHandler.Reject Sample.env (Sample.world (Sample.order "paid" "success"))
        { idParam := .ok 7, body := .ok { Reason := "" }, adminID := 99 }).2.db.orders.map
          (fun o => (o.Status, o.RejectionReason)) = [("rejected", some "")] ∧
      (admin.OrderHandler.Reject Sample.env (Sample.world (Sample.order "paid" "success"))
        { idParam := .ok 7, body := .ok { Reason := "" }, adminID := 99 }).2.outbox.map
          (fun a => a.mail.Body) =
        [.orderRejection "Ann" "MRK1700000000" ""] := by
  decide

/-- C10 (the code departs from the claim): `RecordDownload` increments the count before it
tests `DownloadCount == 0`, so the first download does not complete the order. For order 7,
approved with no download yet, the download by token is answered with 200 and afterwards
the order is still `approved`, with `download_count = 1` and no completed timestamp. -/
theorem C10_first_download_leaves_approved :
    (Sample.world (Sample.order "approved" "success")).db.orders.map
        (fun o => (o.Status, o.DownloadCount, o.MaxDownloads, o.CompletedAt)) =
        [("approved", 0, 3, none)] ∧
      (public.OrderHandler.Download Sample.env (Sample.world (Sample.order "approved" "success"))
        { orderNumber := "MRK1700000000", email := "", token := "tok", ip := "10.0.0.1",
          userAgent := "curl" }).1.Status = 200 ∧
      (public.OrderHandler.Download Sample.env (Sample.world (Sample.order "approved" "success"))
        { orderNumber := "MRK1700000000", email := "", token := "tok", ip := "10.0.0.1",
          userAgent := "curl" }).2.db.orders.map
          (fun o => (o.Status, o.DownloadCount, o.MaxDownloads, o.CompletedAt)) =
        [("approved", 1, 3, none)] := by
  decide

/-! ## Download authorisation -/

/-- With a token, or with an order number and an e-mail, `ValidateDownload` looks up the
first row the request matches and goes on with it. -/
theorem ValidateDownload_eq (env : Env) (w : World) (orderNumber email token : String)
    (hparams : token ≠ "" ∨ (orderNumber ≠ "" ∧ email ≠ "")) :
    OrderService.ValidateDownload env w orderNumber email token =
      OrderService.validateFound env
        (OrderRepository.findResult (getOrder env w (requestSelects orderNumber email token))) := by
  unfold OrderService.ValidateDownload
  by_cases ht : token = ""
  · subst ht
    have hp : orderNumber ≠ "" ∧ email ≠ "" := by
      rcases hparams with h | h
      · exact absurd rfl h
      · exact h
    have hc : requestSelects orderNumber email "" =
        (fun o => o.OrderNumber = orderNumber && o.CustomerEmail = email) := by
      funext o; simp [requestSelects]
    rw [hc]
    simp [hp, OrderRepository.FindByOrderNumberAndEmail]
  · have hc : requestSelects orderNumber email token =
        (fun o => decide (o.DownloadToken = some token)) := by
      funext o; simp [requestSelects, ht]
    rw [hc]
    simp [ht, OrderRepository.FindByDownloadToken]

/-- C13: `ValidateDownload` fails with `ORDER_NOT_FOUND` (404) when no order matches the
supplied token, or the supplied order number and e-mail, and with `ORDER_NOT_APPROVED` (403)
when the matched order has a status other than approved and completed, whatever its
download count and expiry; in both cases the store is not touched: the world handed back is
`w.tick`, which differs from `w` only in the effect counter. -/
theorem C13_ValidateDownload_not_found_not_approved (env : Env) (w : World)
    (orderNumber email token : String)
    (hparams : token ≠ "" ∨ (orderNumber ≠ "" ∧ email ≠ ""))
    (h0 : env.dbFault w.step = none) :
    (w.db.orders.find? (requestSelects orderNumber email token) = none →
      OrderService.ValidateDownload env w orderNumber email token =
        (.error { Code := "ORDER_NOT_FOUND", Message := "Order not found", Status := 404,
                  Err := none }, w.tick)) ∧
    (∀ order : Order,
      w.db.orders.find? (requestSelects orderNumber email token) = some order →
      order.Status ≠ "approved" → order.Status ≠ "completed" →
      OrderService.ValidateDownload env w orderNumber email token =
        (.error { Code := "ORDER_NOT_APPROVED", Message := "Order not yet approved",
                  Status := 403, Err := none }, w.tick)) ∧
    w.tick.db = w.db ∧ w.tick.outbox = w.outbox ∧ w.tick.gateway = w.gateway := by
  refine ⟨?_, ?_, rfl, rfl, rfl⟩
  · intro hnone
    rw [ValidateDownload_eq env w orderNumber email token hparams, findResult_ok env w _ h0, hnone]
    rfl
  · intro order hsome ha hc
    rw [ValidateDownload_eq env w orderNumber email token hparams, findResult_ok env w _ h0, hsome]
    simp [OrderService.validateFound, ha, hc, New]

/-- Witness of C13: the token `nope` matches no order, and order 7, found by its token, is
only paid. -/
theorem C13_ValidateDownload_not_found_not_approved_witness :
    OrderService.ValidateDownload Sample.env (Sample.world (Sample.order "paid" "success"))
        "" "" "nope" =
        (.error { Code := "ORDER_NOT_FOUND", Message := "Order not found", Status := 404,
                  Err := none }, (Sample.world (Sample.order "paid" "success")).tick) ∧
      OrderService.ValidateDownload Sample.env (Sample.world (Sample.order "paid" "success"))
        "" "" "tok" =
        (.error { Code := "ORDER_NOT_APPROVED", Message := "Order not yet approved",
                  Status := 403, Err := none },
          (Sample.world (Sample.order "paid" "success")).tick) :=
  ⟨(C13_ValidateDownload_not_found_not_approved Sample.env
      (Sample.world (Sample.order "paid" "success")) "" "" "nope" (Or.inl (by decide)) rfl).1
      (by decide),
    (C13_ValidateDownload_not_found_not_approved Sample.env
      (Sample.world (Sample.order "paid" "success")) "" "" "tok" (Or.inl (by decide)) rfl).2.1
      (Sample.order "paid" "success") (by decide) (by decide) (by decide)⟩

/-- C12: for an order with status approved or completed whose expiry is set and lies before
the clock reading taken by `ValidateDownload`, the call fails with `LINK_EXPIRED` (410),
whether the download count is below, equal to or above the limit, and touches neither the
store nor the outbox; the handler `Download` answers 410 and records no download. -/
theorem C12_ValidateDownload_expired (env : Env) (w : World)
    (orderNumber email token : String) (order : Order) (expires : Time)
    (hparams : token ≠ "" ∨ (orderNumber ≠ "" ∧ email ≠ ""))
    (h0 : env.dbFault w.step = none)
    (hfind : w.db.orders.find? (requestSelects orderNumber email token) = some order)
    (hstatus : order.Status = "approved" ∨ order.Status = "completed")
    (hexp : order.DownloadExpiresAt = some expires)
    (hpast : expires < env.now (w.step + 1)) :
    OrderService.ValidateDownload env w orderNumber email token =
        (.error { Code := "LINK_EXPIRED", Message := "Download link has expired", Status := 410,
                  Err := none },
          { db := w.db, outbox := w.outbox, step := w.step + 2, gateway := w.gateway }) ∧
      ∀ ip userAgent : String,
        public.OrderHandler.Download env w
            { orderNumber := orderNumber, email := email, token := token, ip := ip,
              userAgent := userAgent } =
          ({ Status := 410, Success := false, Message := "Download link has expired",
             Code := "LINK_EXPIRED", Data := .null },
            { db := w.db, outbox := w.outbox, step := w.step + 2, gateway := w.gateway }) := by
  have hv : OrderService.ValidateDownload env w orderNumber email token =
        (.error { Code := "LINK_EXPIRED", Message := "Download link has expired", Status := 410,
                  Err := none },
          { db := w.db, outbox := w.outbox, step := w.step + 2, gateway := w.gateway }) := by
    rw [ValidateDownload_eq env w orderNumber email token hparams, findResult_ok env w _ h0, hfind]
    have hs : ¬ (order.Status ≠ "approved" ∧ order.Status ≠ "completed") := by
      rcases hstatus with h | h <;> simp [h]
    simp [OrderService.validateFound, hs, hexp, hpast, New, World.tick]
  refine ⟨hv, ?_⟩
  intro ip userAgent
  simp only [public.OrderHandler.Download, hv, response.Error]

/-- Witness of C12: order 7, approved, expired at instant 500 with its three downloads
unused; the clock reads 1001. -/
theorem C12_ValidateDownload_expired_witness :
    OrderService.ValidateDownload Sample.env
        (Sample.world { Sample.order "approved" "success" with DownloadExpiresAt := some 500 })
        "" "" "tok" =
      (.error { Code := "LINK_EXPIRED", Message := "Download link has expired", Status := 410,
                Err := none },
        { db := (Sample.world
            { Sample.order "approved" "success" with DownloadExpiresAt := some 500 }).db,
          outbox := [], step := 2, gateway := [] }) :=
  (C12_ValidateDownload_expired Sample.env
    (Sample.world { Sample.order "approved" "success" with DownloadExpiresAt := some 500 })
    "" "" "tok" { Sample.order "approved" "success" with DownloadExpiresAt := some 500 } 500
    (Or.inl (by decide)) rfl (by decide) (Or.inl rfl) rfl (by decide)).1

/-- Looking a row up after an update that does not change what the lookup tests. -/
theorem find_map_keep (l : List Order) (cond : Order → Bool) (f : Order → Order)
    (hf : ∀ r, cond (f r) = cond r) :
    (l.map f).find? cond = (l.find? cond).map f := by
  rw [List.find?_map]
  have : cond ∘ f = cond := funext hf
  rw [this]

theorem requestSelects_congr (orderNumber email token : String) (r r' : Order)
    (h1 : r'.DownloadToken = r.DownloadToken) (h2 : r'.OrderNumber = r.OrderNumber)
    (h3 : r'.CustomerEmail = r.CustomerEmail) :
    requestSelects orderNumber email token r' = requestSelects orderNumber email token r := by
  simp [requestSelects, h1, h2, h3]

/-- `RecordDownload` when no statement faults: it returns no error, appends one entry to the
download log, and the row a request selects has its count raised by one when it is a row of
the order recorded. -/
theorem RecordDownload_selected (env : Env) (w : World) (id : Int) (log : DownloadLog)
    (orderNumber email token : String) (o : Order)
    (hdb : ∀ n, env.dbFault n = none)
    (hfind : w.db.orders.find? (requestSelects orderNumber email token) = some o)
    (hid : o.ID = id) :
    ∃ o', (OrderService.RecordDownload env w id log).2.db.orders.find?
          (requestSelects orderNumber email token) = some o' ∧
      o'.ID = o.ID ∧ o'.DownloadCount = o.DownloadCount + 1 ∧
      o'.MaxDownloads = o.MaxDownloads ∧ o'.DownloadExpiresAt = o.DownloadExpiresAt ∧
      (o'.Status = o.Status ∨ o'.Status = "completed") := by
  rcases RecordDownload_orders env w id log with ⟨⟨e, he⟩, _⟩ | h | ⟨_, _, _, _, h⟩
  · rw [hdb] at he; cases he
  · rw [h, find_map_keep, hfind]
    · refine ⟨_, rfl, ?_⟩
      simp [hid]
    · intro r
      by_cases hr : r.ID = id
      · simp only [hr, if_true]; exact requestSelects_congr _ _ _ _ _ rfl rfl rfl
      · simp only [hr, if_false]
  · rw [h, find_map_keep, find_map_keep, hfind]
    · refine ⟨_, rfl, ?_⟩
      simp [hid]
    · intro r
      by_cases hr : r.ID = id
      · simp only [hr, if_true]; exact requestSelects_congr _ _ _ _ _ rfl rfl rfl
      · simp only [hr, if_false]
    · intro r
      by_cases hr : r.ID = id
      · simp only [hr, if_true]; exact requestSelects_congr _ _ _ _ _ rfl rfl rfl
      · simp only [hr, if_false]


theorem execUpdateOrders_logs (env : Env) (w : World) (set : Time → Order → Order)
    (cond : Order → Bool) :
    (execUpdateOrders env w set cond).2.db.download_logs = w.db.download_logs := by
  unfold execUpdateOrders; split <;> rfl

/-- `RecordDownload` when no statement faults returns no error and appends exactly one entry
to the download log. -/
theorem RecordDownload_logged (env : Env) (w : World) (id : Int) (log : DownloadLog)
    (hdb : ∀ n, env.dbFault n = none) :
    (OrderService.RecordDownload env w id log).1 = none ∧
      (OrderService.RecordDownload env w id log).2.db.download_logs.length =
        w.db.download_logs.length + 1 ∧
      (OrderService.RecordDownload env w id log).2.step ≤ w.step + 5 := by
  unfold OrderService.RecordDownload
  simp only [OrderRepository.IncrementDownloadCount, execUpdateOrders, hdb,
    FindByID_ok env _ _ (hdb _), OrderRepository.LogDownload]
  refine ⟨trivial, ?_, ?_⟩
  · dsimp only
    split
    · split
      · simp [OrderRepository.MarkCompleted, execUpdateOrders_logs]
      · simp
    · simp
  · dsimp only
    split
    · split
      · simp [OrderRepository.MarkCompleted, execUpdateOrders, hdb]
      · simp
    · simp

/-- `ValidateDownload` authorises the order a request selects when it is approved or
completed, not expired and below its limit, and no statement faults. -/
theorem ValidateDownload_ok (env : Env) (w : World) (orderNumber email token : String)
    (o : Order)
    (hdb : ∀ n, env.dbFault n = none)
    (hparams : token ≠ "" ∨ (orderNumber ≠ "" ∧ email ≠ ""))
    (hfind : w.db.orders.find? (requestSelects orderNumber email token) = some o)
    (hstatus : o.Status = "approved" ∨ o.Status = "completed")
    (hunexp : ∀ t, o.DownloadExpiresAt = some t → ¬ t < env.now (w.step + 1))
    (hlt : o.DownloadCount < o.MaxDownloads) :
    ∃ w1, OrderService.ValidateDownload env w orderNumber email token =
        (.ok (o, w.db.order_items.filter (fun it => it.OrderID = o.ID)), w1) ∧
      w1.db = w.db ∧ w1.step ≤ w.step + 3 := by
  rw [ValidateDownload_eq env w orderNumber email token hparams, findResult_ok env w _ (hdb _),
    hfind]
  have hs : ¬ (o.Status ≠ "approved" ∧ o.Status ≠ "completed") := by
    rcases hstatus with h | h <;> simp [h]
  have hge : ¬ o.DownloadCount ≥ o.MaxDownloads := not_le.mpr hlt
  cases hexp : o.DownloadExpiresAt with
  | none =>
    refine ⟨w.tick.tick, ?_, rfl, by simp⟩
    simp [OrderService.validateFound, hs, hexp, hge, GetOrderItems_ok env _ _ (hdb _)]
  | some t =>
    have ht := hunexp t hexp
    refine ⟨w.tick.tick.tick, ?_, rfl, by simp⟩
    simp [OrderService.validateFound, hs, hexp, hge, GetOrderItems_ok env _ _ (hdb _), ht]


/-- One authorised download: the handler answers 200, the order the request selects has its
count raised by one and stays approved or completed, and one entry is logged. -/
theorem Download_step (env : Env) (w : World) (c : public.DownloadCtx) (o : Order)
    (hdb : ∀ n, env.dbFault n = none)
    (hparams : c.token ≠ "" ∨ (c.orderNumber ≠ "" ∧ c.email ≠ ""))
    (hfind : w.db.orders.find? (requestSelects c.orderNumber c.email c.token) = some o)
    (hstatus : o.Status = "approved" ∨ o.Status = "completed")
    (hunexp : ∀ t, o.DownloadExpiresAt = some t → ¬ t < env.now (w.step + 1))
    (hlt : o.DownloadCount < o.MaxDownloads) :
    ((public.OrderHandler.Download env w c).1.Status = 200 ∧
      (public.OrderHandler.Download env w c).1.Success = true) ∧
    (public.OrderHandler.Download env w c).2.step ≤ w.step + 8 ∧
    (public.OrderHandler.Download env w c).2.db.download_logs.length =
      w.db.download_logs.length + 1 ∧
    ∃ o', (public.OrderHandler.Download env w c).2.db.orders.find?
          (requestSelects c.orderNumber c.email c.token) = some o' ∧
      o'.DownloadCount = o.DownloadCount + 1 ∧ o'.MaxDownloads = o.MaxDownloads ∧
      o'.DownloadExpiresAt = o.DownloadExpiresAt ∧
      (o'.Status = "approved" ∨ o'.Status = "completed") := by
  obtain ⟨w1, hv, hw1, hs1⟩ := ValidateDownload_ok env w c.orderNumber c.email c.token o hdb
    hparams hfind hstatus hunexp hlt
  simp only [public.OrderHandler.Download, hv]
  refine ⟨⟨rfl, rfl⟩, ?_, ?_, ?_⟩
  · have := (RecordDownload_logged env w1 o.ID
      { ID := 0, OrderID := o.ID, TemplateID := none, TemplateTitle := none,
        DownloadType := "", FileSizeBytes := none, IPAddress := some c.ip,
        UserAgent := some c.userAgent, Status := "success", ErrorMessage := none,
        DownloadedAt := 0 } hdb).2.2
    omega
  · rw [(RecordDownload_logged env w1 o.ID _ hdb).2.1, hw1]
  · obtain ⟨o', h1, _, h3, h4, h5, h6⟩ := RecordDownload_selected env w1 o.ID
      { ID := 0, OrderID := o.ID, TemplateID := none, TemplateTitle := none,
        DownloadType := "", FileSizeBytes := none, IPAddress := some c.ip,
        UserAgent := some c.userAgent, Status := "success", ErrorMessage := none,
        DownloadedAt := 0 }
      c.orderNumber c.email c.token o hdb (by rw [hw1]; exact hfind) rfl
    refine ⟨o', h1, h3, h4, h5, ?_⟩
    rcases h6 with h | h
    · rw [h]; exact hstatus
    · exact Or.inr h

/-- `k` downloads in a row, `k` within what is left of the limit. -/
theorem repeatDownload_spec (env : Env) (c : public.DownloadCtx)
    (hdb : ∀ n, env.dbFault n = none)
    (hparams : c.token ≠ "" ∨ (c.orderNumber ≠ "" ∧ c.email ≠ "")) :
    ∀ (k : Nat) (w : World) (o : Order),
      w.db.orders.find? (requestSelects c.orderNumber c.email c.token) = some o →
      (o.Status = "approved" ∨ o.Status = "completed") →
      (∀ t, o.DownloadExpiresAt = some t → ∀ j, j < w.step + 8 * k → ¬ t < env.now j) →
      o.DownloadCount + k ≤ o.MaxDownloads →
      (repeatDownload env c k w).1.length = k ∧
      (repeatDownload env c k w).2.step ≤ w.step + 8 * k ∧
      (∀ r ∈ (repeatDownload env c k w).1, r.Status = 200 ∧ r.Success = true) ∧
      (repeatDownload env c k w).2.db.download_logs.length = w.db.download_logs.length + k ∧
      ∃ o', (repeatDownload env c k w).2.db.orders.find?
            (requestSelects c.orderNumber c.email c.token) = some o' ∧
        o'.DownloadCount = o.DownloadCount + k ∧ o'.MaxDownloads = o.MaxDownloads ∧
        o'.DownloadExpiresAt = o.DownloadExpiresAt ∧
        (o'.Status = "approved" ∨ o'.Status = "completed") := by
  intro k
  induction k with
  | zero =>
    intro w o hfind hstatus _ _
    refine ⟨rfl, Nat.le_refl _, ?_, rfl, o, hfind, by simp, rfl, rfl, hstatus⟩
    intro r hr
    simp [repeatDownload] at hr
  | succ k ih =>
    intro w o hfind hstatus hunexp hle
    have hlt : o.DownloadCount < o.MaxDownloads := by push_cast at hle; omega
    obtain ⟨hresp, hstep, hlogs, o1, hf1, hc1, hm1, he1, hs1⟩ :=
      Download_step env w c o hdb hparams hfind hstatus
        (fun t ht => hunexp t ht _ (by omega)) hlt
    obtain ⟨hlen, hstep2, hall, hl2, o2, hf2, hc2, hm2, he2, hs2⟩ :=
      ih (public.OrderHandler.Download env w c).2 o1 hf1 hs1
        (by intro t ht j hj; exact hunexp t (he1 ▸ ht) j (by omega))
        (by rw [hc1, hm1]; push_cast at hle; omega)
    refine ⟨?_, ?_, ?_, ?_, o2, hf2, ?_, hm2.trans hm1, he2.trans he1, hs2⟩
    · simp [repeatDownload, hlen]
    · simp only [repeatDownload]; omega
    · intro r hr
      simp only [repeatDownload, List.mem_cons] at hr
      rcases hr with h | h
      · rw [h]; exact hresp
      · exact hall r h
    · simp only [repeatDownload]
      rw [hl2, hlogs]; omega
    · rw [hc2, hc1]; push_cast; omega


/-- A request for an order that has used up its downloads is refused with
`DOWNLOAD_LIMIT_EXCEEDED`, the store untouched. -/
theorem Download_at_limit (env : Env) (w : World) (c : public.DownloadCtx) (o : Order)
    (hdb : ∀ n, env.dbFault n = none)
    (hparams : c.token ≠ "" ∨ (c.orderNumber ≠ "" ∧ c.email ≠ ""))
    (hfind : w.db.orders.find? (requestSelects c.orderNumber c.email c.token) = some o)
    (hstatus : o.Status = "approved" ∨ o.Status = "completed")
    (hunexp : ∀ t, o.DownloadExpiresAt = some t → ¬ t < env.now (w.step + 1))
    (hge : o.DownloadCount ≥ o.MaxDownloads) :
    (public.OrderHandler.Download env w c).1 =
        { Status := 429, Success := false, Message := "Maximum download limit reached",
          Code := "DOWNLOAD_LIMIT_EXCEEDED", Data := .null } ∧
      (public.OrderHandler.Download env w c).2.db = w.db := by
  have hs : ¬ (o.Status ≠ "approved" ∧ o.Status ≠ "completed") := by
    rcases hstatus with h | h <;> simp [h]
  simp only [public.OrderHandler.Download]
  rw [ValidateDownload_eq env w c.orderNumber c.email c.token hparams,
    findResult_ok env w _ (hdb _), hfind]
  cases hexp : o.DownloadExpiresAt with
  | none => simp [OrderService.validateFound, hs, hexp, hge, response.Error, New]
  | some t =>
    have ht := hunexp t hexp
    simp [OrderService.validateFound, hs, hexp, hge, response.Error, New, ht]

/-- C11: for an approved order with no download yet, `max_downloads = n ≥ 1` and a link that
does not expire while the requests run, `n` download requests in a row (the handler
`Download`: `ValidateDownload`, then `RecordDownload`) are all answered 200 and logged; after
`k` of them the order's download count is `k`, so each raises it by exactly one; and the
request after them is refused with `DOWNLOAD_LIMIT_EXCEEDED` (429), the store untouched. The
store is assumed to execute its statements. -/
theorem C11_downloads_up_to_limit (env : Env) (w : World) (c : public.DownloadCtx)
    (order : Order) (n : Nat)
    (hdb : ∀ k, env.dbFault k = none)
    (hparams : c.token ≠ "" ∨ (c.orderNumber ≠ "" ∧ c.email ≠ ""))
    (hfind : w.db.orders.find? (requestSelects c.orderNumber c.email c.token) = some order)
    (happroved : order.Status = "approved")
    (hzero : order.DownloadCount = 0)
    (hmax : order.MaxDownloads = n)
    (hn : 1 ≤ n)
    (hunexp : ∀ t, order.DownloadExpiresAt = some t →
      ∀ j, j < w.step + 8 * (n + 1) → ¬ t < env.now j) :
    (1 ≤ n ∧ (repeatDownload env c n w).1.length = n ∧
      ∀ r ∈ (repeatDownload env c n w).1, r.Status = 200 ∧ r.Success = true) ∧
    (∀ k, k ≤ n →
      (repeatDownload env c k w).2.db.download_logs.length = w.db.download_logs.length + k ∧
      ∃ o', (repeatDownload env c k w).2.db.orders.find?
            (requestSelects c.orderNumber c.email c.token) = some o' ∧
        o'.DownloadCount = k) ∧
    (public.OrderHandler.Download env (repeatDownload env c n w).2 c).1 =
      { Status := 429, Success := false, Message := "Maximum download limit reached",
        Code := "DOWNLOAD_LIMIT_EXCEEDED", Data := .null } ∧
    (public.OrderHandler.Download env (repeatDownload env c n w).2 c).2.db =
      (repeatDownload env c n w).2.db := by
  have hspec : ∀ k, k ≤ n →
      (repeatDownload env c k w).1.length = k ∧
      (repeatDownload env c k w).2.step ≤ w.step + 8 * k ∧
      (∀ r ∈ (repeatDownload env c k w).1, r.Status = 200 ∧ r.Success = true) ∧
      (repeatDownload env c k w).2.db.download_logs.length = w.db.download_logs.length + k ∧
      ∃ o', (repeatDownload env c k w).2.db.orders.find?
            (requestSelects c.orderNumber c.email c.token) = some o' ∧
        o'.DownloadCount = order.DownloadCount + k ∧ o'.MaxDownloads = order.MaxDownloads ∧
        o'.DownloadExpiresAt = order.DownloadExpiresAt ∧
        (o'.Status = "approved" ∨ o'.Status = "completed") := by
    intro k hk
    apply repeatDownload_spec env c hdb hparams k w order hfind (Or.inl happroved)
    · intro t ht j hj
      exact hunexp t ht j (by omega)
    · rw [hzero, hmax]; omega
  obtain ⟨hlen, hstep, hall, _, o', hf, hc, hm, he, hs⟩ := hspec n (Nat.le_refl n)
  refine ⟨⟨hn, hlen, hall⟩, ?_, ?_⟩
  · intro k hk
    obtain ⟨_, _, _, hl, ok, hfk, hck, _⟩ := hspec k hk
    exact ⟨hl, ok, hfk, by rw [hck, hzero]; simp⟩
  · apply Download_at_limit env _ c o' hdb hparams hf hs
    · intro t ht
      exact hunexp t (he ▸ ht) _ (by omega)
    · rw [hc, hm, hzero, hmax]; simp

/-- Witness of C11: order 7, approved, three downloads allowed, expiring at instant 9000,
downloaded by its token while the clock runs from 1000. -/
theorem C11_downloads_up_to_limit_witness :
    (∀ r ∈ (repeatDownload Sample.env
        { orderNumber := "", email := "", token := "tok", ip := "10.0.0.1", userAgent := "curl" }
        3 (Sample.world (Sample.order "approved" "success"))).1,
      r.Status = 200 ∧ r.Success = true) ∧
    (public.OrderHandler.Download Sample.env
        (repeatDownload Sample.env
          { orderNumber := "", email := "", token := "tok", ip := "10.0.0.1",
            userAgent := "curl" }
          3 (Sample.world (Sample.order "approved" "success"))).2
        { orderNumber := "", email := "", token := "tok", ip := "10.0.0.1",
          userAgent := "curl" }).1 =
      { Status := 429, Success := false, Message := "Maximum download limit reached",
        Code := "DOWNLOAD_LIMIT_EXCEEDED", Data := .null } :=
  have h := C11_downloads_up_to_limit Sample.env (Sample.world (Sample.order "approved" "success"))
    { orderNumber := "", email := "", token := "tok", ip := "10.0.0.1", userAgent := "curl" }
    (Sample.order "approved" "success") 3 (fun _ => rfl) (Or.inl (by decide)) (by decide) rfl
    rfl rfl (by decide)
    (by
      intro t ht j hj
      have h9 : t = 9000 := (Option.some.inj ht).symm
      have hnow : Sample.env.now j = 1000 + (j : Int) := rfl
      have hstep : (Sample.world (Sample.order "approved" "success")).step = 0 := rfl
      rw [hstep] at hj
      rw [h9, hnow]
      show ¬ ((9000 : Int) < 1000 + (j : Int))
      omega)
  ⟨h.1.2.2, h.2.2.1⟩


/-! ## Order creation -/

namespace OrderService

theorem createItems_frame (env : Env) (orderID : Int) (ts : List Template) :
    ∀ (w : World) (acc : List OrderItem),
      (createItems env orderID ts w acc).2.gateway = w.gateway ∧
      (createItems env orderID ts w acc).2.db.orders = w.db.orders ∧
      (createItems env orderID ts w acc).2.db.templates = w.db.templates := by
  induction ts with
  | nil => intro w acc; simp [createItems]
  | cons t rest ih =>
    intro w acc
    cases hf : env.dbFault w.step with
    | some e => simp [createItems, OrderRepository.CreateOrderItem, hf, World.tick]
    | none =>
      simp only [createItems, OrderRepository.CreateOrderItem, hf]
      refine ⟨(ih _ _).1.trans rfl, (ih _ _).2.1.trans rfl, (ih _ _).2.2.trans rfl⟩

theorem createItems_ok (env : Env) (orderID : Int) (ts : List Template) :
    ∀ (w : World) (acc : List OrderItem),
      (∀ k, k < ts.length → env.dbFault (w.step + k) = none) →
      createItems env orderID ts w acc =
        (.ok (acc ++ itemsFrom env orderID ts w.step),
          { db := { w.db with
                    order_items := w.db.order_items ++ itemsFrom env orderID ts w.step },
            outbox := w.outbox, step := w.step + ts.length, gateway := w.gateway }) := by
  induction ts with
  | nil => intro w acc _; simp [createItems, itemsFrom]
  | cons t rest ih =>
    intro w acc h
    have h0 : env.dbFault w.step = none := by simpa using h 0 (by simp)
    simp only [createItems, OrderRepository.CreateOrderItem, h0]
    rw [ih]
    · simp [itemsFrom, Nat.add_assoc, Nat.add_comm 1]
    · intro k hk
      have := h (k + 1) (by simpa using hk)
      simpa [Nat.add_assoc, Nat.add_comm 1] using this

theorem createItems_fault (env : Env) (orderID : Int) (ts : List Template) :
    ∀ (w : World) (acc : List OrderItem) (k : Nat) (e : String),
      k < ts.length → env.dbFault (w.step + k) = some e →
      ∃ e', (createItems env orderID ts w acc).1 = .error e' := by
  induction ts with
  | nil => intro w acc k e hk; simp at hk
  | cons t rest ih =>
    intro w acc k e hk hf
    cases h0 : env.dbFault w.step with
    | some e0 => exact ⟨e0, by simp [createItems, OrderRepository.CreateOrderItem, h0]⟩
    | none =>
      simp only [createItems, OrderRepository.CreateOrderItem, h0]
      cases k with
      | zero => simp [h0] at hf
      | succ j =>
        refine ih _ _ j e (by simpa using hk) ?_
        simpa [Nat.add_assoc, Nat.add_comm 1] using hf

theorem createItems_frame_of_eq (env : Env) (orderID : Int) (ts : List Template) (w w1 : World)
    (acc : List OrderItem) (r : Except String (List OrderItem))
    (h : createItems env orderID ts w acc = (r, w1)) :
    w1.gateway = w.gateway ∧ w1.db.orders = w.db.orders ∧ w1.db.templates = w.db.templates := by
  have hframe := createItems_frame env orderID ts w acc
  rw [h] at hframe
  exact hframe

theorem createItems_fault_of_eq (env : Env) (orderID : Int) (ts : List Template) (w w1 : World)
    (acc items : List OrderItem) (k : Nat) (e : String) (hk : k < ts.length)
    (hf : env.dbFault (w.step + k) = some e)
    (h : createItems env orderID ts w acc = (.ok items, w1)) : False := by
  obtain ⟨e', he'⟩ := createItems_fault env orderID ts w acc k e hk hf
  rw [h] at he'
  cases he'

end OrderService


namespace OrderService

theorem CreateOrder_reaching (env : Env) (w : World) (req : CreateOrderRequest)
    (templates : List Template) (subtotalINR : Int) (downloadToken : String)
    (h : ReachesGateway env w req templates subtotalINR downloadToken) :
    CreateOrder env w req =
      match PaymentService.CreateOrder env
          (worldAtGateway env w req templates subtotalINR downloadToken) subtotalINR
          ("MRK" ++ toString (unixSeconds (env.now (w.step + 1)))) req.CustomerEmail with
      | ((_, some err), w6) => (.error err, w6)
      | ((razorpayOrderID, none), w6) =>
        match OrderRepository.Update env w6
            { newOrder env w req subtotalINR downloadToken with
              RazorpayOrderID := some razorpayOrderID } with
        | ((_, some err), w7) =>
          (.error (Wrap err "DATABASE_ERROR" "Failed to update order" 500), w7)
        | ((order, none), w7) =>
          (.ok { Order := order,
                 Items := itemsFrom env (env.newID (w.step + 4)) templates (w.step + 5),
                 RazorpayOrderID := razorpayOrderID,
                 RazorpayKeyID := PaymentService.GetKeyID env }, w7) := by
  have hitems : ∀ k, k < templates.length → env.dbFault (w.step + 1 + 1 + 1 + 1 + 1 + k) = none :=
    h.items
  unfold CreateOrder
  rw [h.resolved]
  simp only [h.nonempty, h.complete.symm, if_false, ne_eq, not_true_eq_false, h.subtotal,
    World.tick, h.token, OrderRepository.Create, h.header]
  rw [createItems_ok env _ templates _ _ hitems]
  simp only [List.nil_append]
  rfl

end OrderService


namespace OrderService

theorem CreateOrder_refused (env : Env) (w : World) (req : CreateOrderRequest)
    (templates : List Template) (subtotalINR : Int) (downloadToken : String)
    (h : ReachesGateway env w req templates subtotalINR downloadToken)
    (hfail : ∀ id, env.gatewayReply (w.step + 5 + templates.length) ≠ .order (some id)) :
    ∃ err,
      (PaymentService.CreateOrder env
        (worldAtGateway env w req templates subtotalINR downloadToken) subtotalINR
        ("MRK" ++ toString (unixSeconds (env.now (w.step + 1)))) req.CustomerEmail).1.2
          = some err ∧
      err.Code = "PAYMENT_ERROR" ∧
      CreateOrder env w req =
        (.error err,
          { db := (worldAtGateway env w req templates subtotalINR downloadToken).db,
            outbox := w.outbox, step := w.step + 5 + templates.length + 1,
            gateway := w.gateway ++
              [{ amount := subtotalINR, currency := "INR",
                 receipt := "MRK" ++ toString (unixSeconds (env.now (w.step + 1))),
                 notesOrderNumber := "MRK" ++ toString (unixSeconds (env.now (w.step + 1))),
                 notesCustomerEmail := req.CustomerEmail }] }) := by
  rw [CreateOrder_reaching env w req templates subtotalINR downloadToken h]
  cases hr : env.gatewayReply (w.step + 5 + templates.length) with
  | fault e =>
    exact ⟨Wrap e "PAYMENT_ERROR" "Failed to create Razorpay order" 500,
      by simp [PaymentService.CreateOrder, worldAtGateway, hr], rfl,
      by simp [PaymentService.CreateOrder, worldAtGateway, hr]⟩
  | order id =>
    cases id with
    | none =>
      exact ⟨New "PAYMENT_ERROR" "Invalid Razorpay order response" 500,
        by simp [PaymentService.CreateOrder, worldAtGateway, hr], rfl,
        by simp [PaymentService.CreateOrder, worldAtGateway, hr]⟩
    | some id => exact absurd hr (hfail id)

theorem CreateOrder_accepted (env : Env) (w : World) (req : CreateOrderRequest)
    (templates : List Template) (subtotalINR : Int) (downloadToken intentID : String)
    (h : ReachesGateway env w req templates subtotalINR downloadToken)
    (hreply : env.gatewayReply (w.step + 5 + templates.length) = .order (some intentID))
    (hupdate : env.dbFault (w.step + 5 + templates.length + 1) = none) :
    CreateOrder env w req =
      (.ok { Order := { newOrder env w req subtotalINR downloadToken with
                        RazorpayOrderID := some intentID,
                        UpdatedAt := env.dbNow (w.step + 5 + templates.length + 1) },
             Items := itemsFrom env (env.newID (w.step + 4)) templates (w.step + 5),
             RazorpayOrderID := intentID, RazorpayKeyID := env.keyID },
        { db := { w.db with
                  orders := (w.db.orders ++ [newOrder env w req subtotalINR downloadToken]).map
                    (fun o => if o.ID = env.newID (w.step + 4) then
                      { o with Status := "pending", PaymentStatus := "pending",
                               RazorpayOrderID := some intentID, RazorpayPaymentID := none,
                               RazorpaySignature := none, ApprovedBy := none,
                               ApprovedAt := none, RejectionReason := none, DownloadCount := 0,
                               PaidAt := none, CompletedAt := none,
                               UpdatedAt := env.dbNow (w.step + 5 + templates.length + 1) }
                      else o),
                  order_items := w.db.order_items ++
                    itemsFrom env (env.newID (w.step + 4)) templates (w.step + 5) },
          outbox := w.outbox, step := w.step + 5 + templates.length + 1 + 1,
          gateway := w.gateway ++
            [{ amount := subtotalINR, currency := "INR",
               receipt := "MRK" ++ toString (unixSeconds (env.now (w.step + 1))),
               notesOrderNumber := "MRK" ++ toString (unixSeconds (env.now (w.step + 1))),
               notesCustomerEmail := req.CustomerEmail }] }) := by
  rw [CreateOrder_reaching env w req templates subtotalINR downloadToken h]
  simp [PaymentService.CreateOrder, worldAtGateway, hreply, OrderRepository.Update, hupdate,
    newOrder, PaymentService.GetKeyID, zeroOrder]

theorem CreateOrder_unrecorded (env : Env) (w : World) (req : CreateOrderRequest)
    (templates : List Template) (subtotalINR : Int) (downloadToken intentID e : String)
    (h : ReachesGateway env w req templates subtotalINR downloadToken)
    (hreply : env.gatewayReply (w.step + 5 + templates.length) = .order (some intentID))
    (hupdate : env.dbFault (w.step + 5 + templates.length + 1) = some e) :
    CreateOrder env w req =
      (.error (Wrap e "DATABASE_ERROR" "Failed to update order" 500),
        { db := (worldAtGateway env w req templates subtotalINR downloadToken).db,
          outbox := w.outbox, step := w.step + 5 + templates.length + 1 + 1,
          gateway := w.gateway ++
            [{ amount := subtotalINR, currency := "INR",
               receipt := "MRK" ++ toString (unixSeconds (env.now (w.step + 1))),
               notesOrderNumber := "MRK" ++ toString (unixSeconds (env.now (w.step + 1))),
               notesCustomerEmail := req.CustomerEmail }] }) := by
  rw [CreateOrder_reaching env w req templates subtotalINR downloadToken h]
  simp [PaymentService.CreateOrder, worldAtGateway, hreply, OrderRepository.Update, hupdate,
    World.tick]

end OrderService


namespace OrderService

end OrderService

namespace OrderService

theorem CreateOrder_cases (env : Env) (w : World) (req : CreateOrderRequest) :
    (∃ templates subtotalINR downloadToken,
      ReachesGateway env w req templates subtotalINR downloadToken) ∨
    ((∃ e, (CreateOrder env w req).1 = .error e ∧
        (e.Code = "DATABASE_ERROR" ∨ e.Code = "NO_TEMPLATES" ∨ e.Code = "INVALID_TEMPLATES" ∨
          e.Code = "TOKEN_ERROR" ∨
          ∃ templates,
            TemplateRepository.GetByIDs env w req.TemplateIDs = ((templates, none), w.tick) ∧
            sumPrices templates 0 = .error e)) ∧
      (CreateOrder env w req).2.gateway = w.gateway ∧
      (CreateOrder env w req).2.db.templates = w.db.templates) := by
  cases hq : TemplateRepository.GetByIDs env w req.TemplateIDs with
  | mk r w1 =>
    obtain ⟨templates, err⟩ := r
    have hw1 : w1 = w ∨ w1 = w.tick := by
      unfold TemplateRepository.GetByIDs at hq
      split at hq
      · left; exact (congrArg Prod.snd hq).symm
      · split at hq <;> right <;> exact (congrArg Prod.snd hq).symm
    have hw1g : w1.gateway = w.gateway ∧ w1.db.templates = w.db.templates := by
      rcases hw1 with h | h <;> subst h <;> exact ⟨rfl, rfl⟩
    cases err with
    | some e => right; unfold CreateOrder; rw [hq]; exact ⟨⟨_, rfl, Or.inl rfl⟩, hw1g⟩
    | none =>
      by_cases h0 : templates.length = 0
      · right; unfold CreateOrder; rw [hq]; simp only [h0, if_true]
        exact ⟨⟨_, rfl, Or.inr (Or.inl rfl)⟩, hw1g⟩
      by_cases h1 : templates.length = req.TemplateIDs.length
      swap
      · right; unfold CreateOrder; rw [hq]
        simp only [h0, if_false, ne_eq, h1, not_false_eq_true, if_true]
        exact ⟨⟨_, rfl, Or.inr (Or.inr (Or.inl rfl))⟩, hw1g⟩
      have hw1t : w1 = w.tick := by
        rcases hw1 with h | h
        · exfalso
          subst h
          unfold TemplateRepository.GetByIDs at hq
          split at hq
          · have := congrArg (fun r => r.1.1) hq
            simp only at this
            subst this
            exact h0 rfl
          · split at hq <;> have := congrArg (fun r => r.2.step) hq <;>
              simp [World.tick] at this
        · exact h
      subst hw1t
      have h0' : ¬ req.TemplateIDs.length = 0 := h1 ▸ h0
      cases hs : sumPrices templates 0 with
      | error e =>
        right; unfold CreateOrder; rw [hq]
        simp only [h0, h0', if_false, ne_eq, h1, not_true_eq_false, hs]
        exact ⟨⟨_, rfl, Or.inr (Or.inr (Or.inr (Or.inr ⟨templates, rfl, hs⟩)))⟩, rfl, rfl⟩
      | ok subtotalINR =>
        cases ht : env.randomToken (w.step + 2) with
        | error e =>
          right; unfold CreateOrder; rw [hq]
          simp only [h0, h0', if_false, ne_eq, h1, not_true_eq_false, hs, World.tick, ht]
          refine ⟨⟨_, rfl, Or.inr (Or.inr (Or.inr (Or.inl rfl)))⟩, ?_⟩
          trivial
        | ok downloadToken =>
          cases hh : env.dbFault (w.step + 4) with
          | some e =>
            right; unfold CreateOrder; rw [hq]
            simp only [h0, h0', if_false, ne_eq, h1, not_true_eq_false, hs, World.tick, ht,
              OrderRepository.Create, hh]
            refine ⟨⟨_, rfl, Or.inl rfl⟩, ?_⟩
            trivial
          | none =>
            by_cases hi : ∀ k, k < templates.length → env.dbFault (w.step + 5 + k) = none
            · left
              exact ⟨templates, subtotalINR, downloadToken, ⟨hq, h0, h1, hs, ht, hh, hi⟩⟩
            · right
              push_neg at hi
              obtain ⟨k, hk, hne⟩ := hi
              obtain ⟨e, he⟩ := Option.ne_none_iff_exists'.mp hne
              unfold CreateOrder; rw [hq]
              simp only [h0, h0', if_false, ne_eq, h1, not_true_eq_false, hs, World.tick, ht,
                OrderRepository.Create, hh]
              split
              · next err w5 heq =>
                have hframe := createItems_frame_of_eq env _ templates _ _ [] _ heq
                exact ⟨⟨_, rfl, Or.inl rfl⟩, hframe.1, hframe.2.2⟩
              · next items w5 heq =>
                exact (createItems_fault_of_eq env _ templates _ _ [] _ k e hk he heq).elim

end OrderService


theorem GetByIDs_mem (env : Env) (w : World) (ids : List Int) (resolved : List Template)
    (hquery : (TemplateRepository.GetByIDs env w ids).1 = (resolved, none)) (t : Template) :
    t ∈ resolved ↔ t ∈ w.db.templates ∧ t.ID ∈ ids ∧ t.Status = "active" := by
  unfold TemplateRepository.GetByIDs at hquery
  split at hquery
  · next h0 =>
    have hnil : ids = [] := List.length_eq_zero.mp h0
    have hr : resolved = [] := (congrArg Prod.fst hquery).symm
    subst hnil hr
    simp
  · split at hquery
    · simp at hquery
    · have hr := (congrArg Prod.fst hquery).symm
      simp only at hr
      subst hr
      simp [List.mem_filter]


namespace OrderService

theorem CreateOrder_short (env : Env) (w w1 : World) (req : CreateOrderRequest)
    (resolved : List Template)
    (hq : TemplateRepository.GetByIDs env w req.TemplateIDs = ((resolved, none), w1))
    (h : resolved.length = 0 ∨ resolved.length ≠ req.TemplateIDs.length) :
    CreateOrder env w req =
      (.error (if resolved.length = 0 then New "NO_TEMPLATES" "No valid templates found" 400
               else New "INVALID_TEMPLATES" "Some templates are not available" 400), w1) := by
  unfold CreateOrder
  rw [hq]
  by_cases h0 : resolved.length = 0
  · simp only [h0, if_true]
  · have h3 : resolved.length ≠ req.TemplateIDs.length := h.resolve_left h0
    simp only [h0, if_false, h3, ne_eq, not_false_eq_true, if_true]

theorem GetByIDs_ok (env : Env) (w : World) (ids : List Int) (hne : ids ≠ [])
    (hdb : env.dbFault w.step = none) :
    TemplateRepository.GetByIDs env w ids =
      ((w.db.templates.filter (fun t => decide (t.ID ∈ ids) && t.Status = "active"), none),
        w.tick) := by
  have h0 : ¬ ids.length = 0 := fun h => hne (List.length_eq_zero.mp h)
  simp [TemplateRepository.GetByIDs, h0, hdb]

theorem resolved_subperm (catalog : List Template) (ids : List Int)
    (hpk : (catalog.map (fun t => t.ID)).Nodup) :
    ((catalog.filter (fun t => decide (t.ID ∈ ids) && t.Status = "active")).map
      (fun t => t.ID)).Subperm ids := by
  apply List.subperm_of_subset
  · exact List.Nodup.sublist (List.Sublist.map _ (List.filter_sublist _)) hpk
  · intro id hid
    obtain ⟨t, ht, rfl⟩ := List.mem_map.mp hid
    have := (List.mem_filter.mp ht).2
    simp at this
    exact this.1

theorem resolved_perm (catalog : List Template) (ids : List Int)
    (hpk : (catalog.map (fun t => t.ID)).Nodup)
    (hlen : (catalog.filter (fun t => decide (t.ID ∈ ids) && t.Status = "active")).length
      = ids.length) :
    ((catalog.filter (fun t => decide (t.ID ∈ ids) && t.Status = "active")).map
      (fun t => t.ID)).Perm ids :=
  (resolved_subperm catalog ids hpk).perm_of_length_le (by simp [hlen])

theorem sumPrices_active (ts : List Template) (h : ∀ t ∈ ts, t.Status = "active") :
    ∀ acc, ∃ s, sumPrices ts acc = .ok s := by
  induction ts with
  | nil => intro acc; exact ⟨acc, rfl⟩
  | cons t rest ih =>
    intro acc
    have ht : t.Status = "active" := h t (by simp)
    simp only [sumPrices, ht, ne_eq, not_true_eq_false, if_false]
    exact ih (fun t' ht' => h t' (by simp [ht'])) _

theorem GetByIDs_active (env : Env) (w w1 : World) (ids : List Int) (resolved : List Template)
    (hq : TemplateRepository.GetByIDs env w ids = ((resolved, none), w1)) :
    ∀ t ∈ resolved, t.Status = "active" := by
  intro t ht
  exact ((GetByIDs_mem env w ids resolved (by rw [hq]) t).mp ht).2.2

end OrderService


namespace OrderService

theorem CreateOrder_error_code (env : Env) (w : World) (req : CreateOrderRequest) (e : AppError)
    (he : (CreateOrder env w req).1 = .error e) :
    e.Code = "DATABASE_ERROR" ∨ e.Code = "NO_TEMPLATES" ∨ e.Code = "INVALID_TEMPLATES" ∨
      e.Code = "TOKEN_ERROR" ∨ e.Code = "PAYMENT_ERROR" := by
  rcases CreateOrder_cases env w req with ⟨templates, subtotalINR, downloadToken, h⟩ | h
  · by_cases hr : ∃ id, env.gatewayReply (w.step + 5 + templates.length) = .order (some id)
    · obtain ⟨id, hid⟩ := hr
      cases hu : env.dbFault (w.step + 5 + templates.length + 1) with
      | none =>
        rw [CreateOrder_accepted env w req templates subtotalINR downloadToken id h hid hu] at he
        cases he
      | some x =>
        rw [CreateOrder_unrecorded env w req templates subtotalINR downloadToken id x h hid hu]
          at he
        simp only [Except.error.injEq] at he
        subst he
        exact Or.inl rfl
    · obtain ⟨err, _, hcode, hres⟩ :=
        CreateOrder_refused env w req templates subtotalINR downloadToken h
          (fun id hid => hr ⟨id, hid⟩)
      rw [hres] at he
      simp only [Except.error.injEq] at he
      subst he
      exact Or.inr (Or.inr (Or.inr (Or.inr hcode)))
  · obtain ⟨⟨e', he', hcode⟩, _, _⟩ := h
    rw [he'] at he
    simp only [Except.error.injEq] at he
    subst he
    rcases hcode with h | h | h | h | ⟨templates, hq, hs⟩
    · exact Or.inl h
    · exact Or.inr (Or.inl h)
    · exact Or.inr (Or.inr (Or.inl h))
    · exact Or.inr (Or.inr (Or.inr (Or.inl h)))
    · exfalso
      obtain ⟨s, hs'⟩ := sumPrices_active templates
        (GetByIDs_active env w w.tick req.TemplateIDs templates hq) 0
      rw [hs'] at hs
      cases hs

end OrderService


/-- C16: when the catalog query of `CreateOrder` resolves no active template, the call fails
with `NO_TEMPLATES`; when it resolves at least one but fewer than the request lists, the
call fails with `INVALID_TEMPLATES`; in both cases the store and the list of requests made
to the gateway are left as they were. The resolved templates are the rows of the catalog
that are active and whose `id` the request lists. -/
theorem C16_CreateOrder_unresolved_templates (env : Env) (w : World)
    (req : OrderService.CreateOrderRequest) (resolved : List Template)
    (hquery : (TemplateRepository.GetByIDs env w req.TemplateIDs).1 = (resolved, none)) :
    (∀ t, t ∈ resolved ↔
      t ∈ w.db.templates ∧ t.ID ∈ req.TemplateIDs ∧ t.Status = "active") ∧
    (resolved.length = 0 →
      (OrderService.CreateOrder env w req).1 =
        .error (New "NO_TEMPLATES" "No valid templates found" 400)) ∧
    (1 ≤ resolved.length → resolved.length < req.TemplateIDs.length →
      (OrderService.CreateOrder env w req).1 =
        .error (New "INVALID_TEMPLATES" "Some templates are not available" 400)) ∧
    (resolved.length = 0 ∨ resolved.length < req.TemplateIDs.length →
      (OrderService.CreateOrder env w req).2.db = w.db ∧
      (OrderService.CreateOrder env w req).2.outbox = w.outbox ∧
      (OrderService.CreateOrder env w req).2.gateway = w.gateway) := by
  refine ⟨GetByIDs_mem env w req.TemplateIDs resolved hquery, ?_⟩
  cases hq : TemplateRepository.GetByIDs env w req.TemplateIDs with
  | mk r w1 =>
    rw [hq] at hquery
    simp only at hquery
    subst hquery
    have hw1 : w1 = w ∨ w1 = w.tick := by
      unfold TemplateRepository.GetByIDs at hq
      split at hq
      · left; exact (congrArg Prod.snd hq).symm
      · split at hq <;> right <;> exact (congrArg Prod.snd hq).symm
    have hw1g : w1.db = w.db ∧ w1.outbox = w.outbox ∧ w1.gateway = w.gateway := by
      rcases hw1 with h | h <;> subst h <;> exact ⟨rfl, rfl, rfl⟩
    refine ⟨?_, ?_, ?_⟩
    · intro h0
      unfold OrderService.CreateOrder
      rw [hq]
      simp only [h0, if_true]
    · intro h1 h2
      have h0 : ¬ resolved.length = 0 := by omega
      have h3 : resolved.length ≠ req.TemplateIDs.length := by omega
      unfold OrderService.CreateOrder
      rw [hq]
      simp only [h0, if_false, h3, ne_eq, not_false_eq_true, if_true]
    · intro h
      unfold OrderService.CreateOrder
      rw [hq]
      by_cases h0 : resolved.length = 0
      · simp only [h0, if_true]
        exact hw1g
      · have h3 : resolved.length ≠ req.TemplateIDs.length := by omega
        simp only [h0, if_false, h3, ne_eq, not_false_eq_true, if_true]
        exact hw1g

theorem C16_CreateOrder_unresolved_templates_witness :
    (OrderService.CreateOrder Sample.shopEnv (Sample.shop Sample.catalog)
        (Sample.request [1, 3] "USD")).1 =
      .error (New "INVALID_TEMPLATES" "Some templates are not available" 400) ∧
    (OrderService.CreateOrder Sample.shopEnv (Sample.shop Sample.catalog)
        (Sample.request [1, 3] "USD")).2.db = (Sample.shop Sample.catalog).db ∧
    (OrderService.CreateOrder Sample.shopEnv (Sample.shop Sample.catalog)
        (Sample.request [1, 3] "USD")).2.gateway = [] :=
  have h := C16_CreateOrder_unresolved_templates Sample.shopEnv (Sample.shop Sample.catalog)
    (Sample.request [1, 3] "USD") [Sample.template 1 50000 "active"] (by rfl)
  ⟨h.2.2.1 (by decide) (by decide), (h.2.2.2 (Or.inr (by decide))).1,
    (h.2.2.2 (Or.inr (by decide))).2.2⟩


/-- C17, as the code has it: `CreateOrder` never fails with `TEMPLATE_INACTIVE`. When the
`id`s of the catalog are unique, the catalog query runs and a requested `id` belongs to a
template that is not active, the call fails with `NO_TEMPLATES` if no requested `id`
belongs to an active template and with `INVALID_TEMPLATES` otherwise, and leaves the store
and the list of requests made to the gateway as they were. -/
theorem C17_inactive_template_not_reported (env : Env) (w : World)
    (req : OrderService.CreateOrderRequest) :
    (∀ e, (OrderService.CreateOrder env w req).1 = .error e → e.Code ≠ "TEMPLATE_INACTIVE") ∧
    ((w.db.templates.map (fun t => t.ID)).Nodup → env.dbFault w.step = none →
      ∀ t, t ∈ w.db.templates → t.ID ∈ req.TemplateIDs → t.Status ≠ "active" →
        ((∀ t', t' ∈ w.db.templates → t'.ID ∈ req.TemplateIDs → t'.Status ≠ "active") →
          (OrderService.CreateOrder env w req).1 =
            .error (New "NO_TEMPLATES" "No valid templates found" 400)) ∧
        ((∃ t', t' ∈ w.db.templates ∧ t'.ID ∈ req.TemplateIDs ∧ t'.Status = "active") →
          (OrderService.CreateOrder env w req).1 =
            .error (New "INVALID_TEMPLATES" "Some templates are not available" 400)) ∧
        (OrderService.CreateOrder env w req).2.db = w.db ∧
        (OrderService.CreateOrder env w req).2.gateway = w.gateway) := by
  constructor
  · intro e he
    rcases OrderService.CreateOrder_error_code env w req e he with h | h | h | h | h <;>
      rw [h] <;> decide
  · intro hpk hdb t ht hreq hinactive
    have hne : req.TemplateIDs ≠ [] := by
      intro h
      rw [h] at hreq
      simp at hreq
    have hq := OrderService.GetByIDs_ok env w req.TemplateIDs hne hdb
    have hlen : (w.db.templates.filter
        (fun t => decide (t.ID ∈ req.TemplateIDs) && t.Status = "active")).length
          ≠ req.TemplateIDs.length := by
      intro hlen
      have hperm := OrderService.resolved_perm w.db.templates req.TemplateIDs hpk hlen
      have hmem := (List.Perm.mem_iff hperm).mpr hreq
      obtain ⟨t', ht', hid⟩ := List.mem_map.mp hmem
      have hf := List.mem_filter.mp ht'
      have hactive : t'.Status = "active" := by
        have := hf.2
        simp at this
        exact this.2
      have : t' = t :=
        List.inj_on_of_nodup_map hpk hf.1 ht hid
      subst this
      exact hinactive hactive
    have hres := OrderService.CreateOrder_short env w w.tick req _ hq (Or.inr hlen)
    refine ⟨?_, ?_, ?_, ?_⟩
    · intro hnone
      have h0 : (w.db.templates.filter
          (fun t => decide (t.ID ∈ req.TemplateIDs) && t.Status = "active")).length = 0 := by
        rw [List.length_eq_zero, List.filter_eq_nil_iff]
        intro t' ht'
        have := hnone t' ht'
        simp only [Bool.and_eq_true, decide_eq_true_eq, not_and]
        exact this
      rw [hres, if_pos h0]
    · rintro ⟨t', ht', hreq', hactive'⟩
      have h0 : ¬ (w.db.templates.filter
          (fun t => decide (t.ID ∈ req.TemplateIDs) && t.Status = "active")).length = 0 := by
        rw [List.length_eq_zero, List.filter_eq_nil_iff]
        intro hall
        exact hall t' ht' (by simp [hreq', hactive'])
      rw [hres, if_neg h0]
    · rw [hres]; rfl
    · rw [hres]; rfl

theorem C17_inactive_template_not_reported_witness :
    (OrderService.CreateOrder Sample.shopEnv (Sample.shop Sample.catalog)
        (Sample.request [2, 3] "INR")).1 =
      .error (New "INVALID_TEMPLATES" "Some templates are not available" 400) ∧
    (OrderService.CreateOrder Sample.shopEnv (Sample.shop Sample.catalog)
        (Sample.request [2, 3] "INR")).2.db = (Sample.shop Sample.catalog).db :=
  have h := (C17_inactive_template_not_reported Sample.shopEnv (Sample.shop Sample.catalog)
    (Sample.request [2, 3] "INR")).2 (by decide) rfl (Sample.template 3 20000 "draft")
    (by simp [Sample.shop, Sample.catalog]) (by simp [Sample.request, Sample.template])
    (by decide)
  ⟨h.2.1 ⟨Sample.template 2 30000 "active", by simp [Sample.shop, Sample.catalog],
      by simp [Sample.request, Sample.template], rfl⟩, h.2.2.1⟩

/-- C17 does not hold: template 3 of the catalog exists and is a draft, and the request for
templates 1 and 3 fails with `INVALID_TEMPLATES`. -/
theorem C17_counterexample_inactive_template :
    Sample.template 3 20000 "draft" ∈ (Sample.shop Sample.catalog).db.templates ∧
    (Sample.template 3 20000 "draft").ID ∈ (Sample.request [1, 3] "INR").TemplateIDs ∧
    (Sample.template 3 20000 "draft").Status ≠ "active" ∧
    (OrderService.CreateOrder Sample.shopEnv (Sample.shop Sample.catalog)
        (Sample.request [1, 3] "INR")).1 =
      .error (New "INVALID_TEMPLATES" "Some templates are not available" 400) ∧
    (New "INVALID_TEMPLATES" "Some templates are not available" 400).Code
      ≠ "TEMPLATE_INACTIVE" := by
  refine ⟨by simp [Sample.shop, Sample.catalog], by simp [Sample.request, Sample.template],
    by decide, rfl, by decide⟩


namespace OrderService

theorem itemsFrom_length (env : Env) (orderID : Int) (ts : List Template) :
    ∀ s, (itemsFrom env orderID ts s).length = ts.length := by
  induction ts with
  | nil => intro s; rfl
  | cons t rest ih => intro s; simp [itemsFrom, ih]

theorem itemsFrom_prices (env : Env) (orderID : Int) (ts : List Template) :
    ∀ s, (itemsFrom env orderID ts s).map (fun i => i.PriceINR)
      = ts.map (fun t => t.PriceINR) := by
  induction ts with
  | nil => intro s; rfl
  | cons t rest ih => intro s; simp [itemsFrom, ih]

theorem itemsFrom_snapshot (env : Env) (orderID : Int) (ts : List Template) :
    ∀ s, List.Forall₂
      (fun (item : OrderItem) (t : Template) =>
        item.OrderID = orderID ∧ item.TemplateID = t.ID ∧ item.TemplateTitle = t.Title ∧
        item.TemplateSlug = t.Slug ∧ item.TemplateFileURL = t.FileURL ∧
        item.PriceINR = t.PriceINR)
      (itemsFrom env orderID ts s) ts := by
  induction ts with
  | nil => intro s; exact List.Forall₂.nil
  | cons t rest ih =>
    intro s
    exact List.Forall₂.cons ⟨rfl, rfl, rfl, rfl, rfl, rfl⟩ (ih (s + 1))

theorem CreateOrder_ok_inv (env : Env) (w : World) (req : CreateOrderRequest)
    (resp : CreateOrderResponse) (hok : (CreateOrder env w req).1 = .ok resp) :
    ∃ templates subtotalINR downloadToken intentID,
      ReachesGateway env w req templates subtotalINR downloadToken ∧
      env.gatewayReply (w.step + 5 + templates.length) = .order (some intentID) ∧
      env.dbFault (w.step + 5 + templates.length + 1) = none := by
  rcases CreateOrder_cases env w req with ⟨templates, subtotalINR, downloadToken, h⟩ | h
  · by_cases hr : ∃ id, env.gatewayReply (w.step + 5 + templates.length) = .order (some id)
    · obtain ⟨id, hid⟩ := hr
      cases hu : env.dbFault (w.step + 5 + templates.length + 1) with
      | none => exact ⟨templates, subtotalINR, downloadToken, id, h, hid, hu⟩
      | some x =>
        rw [CreateOrder_unrecorded env w req templates subtotalINR downloadToken id x h hid hu]
          at hok
        cases hok
    · obtain ⟨err, _, _, hres⟩ :=
        CreateOrder_refused env w req templates subtotalINR downloadToken h
          (fun id hid => hr ⟨id, hid⟩)
      rw [hres] at hok
      cases hok
  · obtain ⟨⟨e, he, _⟩, _, _⟩ := h
    rw [he] at hok
    cases hok

end OrderService

theorem Sample_reaches (currency : String) :
    OrderService.ReachesGateway Sample.shopEnv (Sample.shop Sample.catalog)
      (Sample.request [1, 2] currency)
      [Sample.template 1 50000 "active", Sample.template 2 30000 "active"] 80000 "tok" :=
  ⟨rfl, by decide, rfl, rfl, rfl, rfl, fun _ _ => rfl⟩


theorem wrapInt64_of_range (x : Int) (h0 : -2 ^ 63 ≤ x) (h1 : x < 2 ^ 63) : wrapInt64 x = x := by
  unfold wrapInt64
  norm_num at h0 h1 ⊢
  omega

theorem wrapInt64_add_wrap (a b : Int) : wrapInt64 (wrapInt64 a + b) = wrapInt64 (a + b) := by
  unfold wrapInt64
  norm_num
  omega

theorem wrapInt64_idem (a : Int) : wrapInt64 (wrapInt64 a) = wrapInt64 a := by
  have := wrapInt64_add_wrap a 0
  simpa using this

namespace OrderService

theorem sumPrices_ok (ts : List Template) :
    ∀ (acc s : Int), wrapInt64 acc = acc → sumPrices ts acc = .ok s →
      s = wrapInt64 (acc + (ts.map (fun t => t.PriceINR)).sum) := by
  induction ts with
  | nil =>
    intro acc s hacc h
    simp only [sumPrices, Except.ok.injEq] at h
    simp [← h, hacc]
  | cons t rest ih =>
    intro acc s hacc h
    simp only [sumPrices] at h
    split at h
    · cases h
    · have := ih _ s (wrapInt64_idem _) h
      rw [this, wrapInt64_add_wrap]
      simp [Int.add_assoc]

theorem map_append_last (orders : List Order) (o : Order) (f : Order → Order) :
    ((orders ++ [o]).map f).getLast? = some (f o) := by
  simp

theorem map_append_fresh (orders : List Order) (o : Order) (id : Int) (g : Order → Order)
    (hfresh : ∀ r, r ∈ orders → r.ID ≠ id) :
    (orders ++ [o]).map (fun r => if r.ID = id then g r else r)
      = orders ++ [if o.ID = id then g o else o] := by
  rw [List.map_append]
  congr 1
  conv_rhs => rw [← List.map_id orders]
  apply List.map_congr_left
  intro r hr
  simp [hfresh r hr]

end OrderService


/-- C14, as the code has it: when `CreateOrder` succeeds, the subtotal of the order is the
sum of the prices of its items in the arithmetic of Go `int`, which wraps at 64 bits; it is
the exact sum when no price is negative and the exact sum is below 2^63. The discount and
the tax are 0, the total is subtotal − discount + tax, and the order returned is the row
that the store holds last. -/
theorem C14_subtotal_in_int_arithmetic (env : Env) (w w1 : World)
    (req : OrderService.CreateOrderRequest) (resp : OrderService.CreateOrderResponse)
    (hok : OrderService.CreateOrder env w req = (.ok resp, w1)) :
    resp.Order.SubtotalINR = wrapInt64 ((resp.Items.map (fun i => i.PriceINR)).sum) ∧
    ((∀ i, i ∈ resp.Items → 0 ≤ i.PriceINR) →
      (resp.Items.map (fun i => i.PriceINR)).sum < 2 ^ 63 →
      resp.Order.SubtotalINR = (resp.Items.map (fun i => i.PriceINR)).sum) ∧
    resp.Order.DiscountINR = 0 ∧ resp.Order.TaxINR = 0 ∧
    resp.Order.TotalINR = resp.Order.SubtotalINR - resp.Order.DiscountINR + resp.Order.TaxINR ∧
    w1.db.orders.getLast? = some resp.Order := by
  obtain ⟨templates, subtotalINR, downloadToken, intentID, h, hreply, hupdate⟩ :=
    OrderService.CreateOrder_ok_inv env w req resp (by rw [hok])
  rw [OrderService.CreateOrder_accepted env w req templates subtotalINR downloadToken
    intentID h hreply hupdate] at hok
  simp only [Prod.mk.injEq, Except.ok.injEq] at hok
  obtain ⟨hresp, hw1⟩ := hok
  subst hresp hw1
  have hsum := OrderService.sumPrices_ok templates 0 subtotalINR (by decide) h.subtotal
  simp only [Int.zero_add] at hsum
  have hwrap : subtotalINR = wrapInt64 ((List.map (fun i => i.PriceINR)
      (OrderService.itemsFrom env (env.newID (w.step + 4)) templates (w.step + 5))).sum) := by
    rw [OrderService.itemsFrom_prices]
    exact hsum
  refine ⟨hwrap, ?_, rfl, rfl, ?_, ?_⟩
  · intro hnonneg hlt
    show subtotalINR = _
    rw [hwrap]
    apply wrapInt64_of_range
    · have : (0 : Int) ≤ (List.map (fun i => i.PriceINR)
          (OrderService.itemsFrom env (env.newID (w.step + 4)) templates (w.step + 5))).sum := by
        apply List.sum_nonneg
        intro x hx
        obtain ⟨i, hi, rfl⟩ := List.mem_map.mp hx
        exact hnonneg i hi
      omega
    · exact hlt
  · show subtotalINR = subtotalINR - 0 + 0
    omega
  · simp [OrderService.newOrder, zeroOrder]

theorem C14_subtotal_in_int_arithmetic_witness :
    ∃ resp w1,
      OrderService.CreateOrder Sample.shopEnv (Sample.shop Sample.catalog)
        (Sample.request [1, 2] "INR") = (.ok resp, w1) ∧
      resp.Order.SubtotalINR = wrapInt64 ((resp.Items.map (fun i => i.PriceINR)).sum) ∧
      resp.Order.TotalINR
        = resp.Order.SubtotalINR - resp.Order.DiscountINR + resp.Order.TaxINR ∧
      w1.db.orders.getLast? = some resp.Order :=
  have hrun := OrderService.CreateOrder_accepted Sample.shopEnv (Sample.shop Sample.catalog)
    (Sample.request [1, 2] "INR") _ 80000 "tok" "order_1" (Sample_reaches "INR") rfl rfl
  have h := C14_subtotal_in_int_arithmetic Sample.shopEnv (Sample.shop Sample.catalog) _
    (Sample.request [1, 2] "INR") _ hrun
  ⟨_, _, hrun, h.1, h.2.2.2.2.1, h.2.2.2.2.2⟩

/-- C14 does not hold: the order for the two templates of the catalog `costly` succeeds, its
items are priced 2^62 each, which sums to 2^63, and its subtotal is −2^63. -/
theorem C14_counterexample_subtotal_wraps :
    ∃ resp,
      (OrderService.CreateOrder Sample.shopEnv (Sample.shop Sample.costly)
        (Sample.request [1, 2] "INR")).1 = .ok resp ∧
      resp.Items.map (fun i => i.PriceINR) = [4611686018427387904, 4611686018427387904] ∧
      (resp.Items.map (fun i => i.PriceINR)).sum = 9223372036854775808 ∧
      resp.Order.SubtotalINR = -9223372036854775808 ∧
      resp.Order.TotalINR = -9223372036854775808 := by
  have hreach : OrderService.ReachesGateway Sample.shopEnv (Sample.shop Sample.costly)
      (Sample.request [1, 2] "INR") Sample.costly (-9223372036854775808) "tok" :=
    ⟨rfl, by decide, rfl, rfl, rfl, rfl, fun _ _ => rfl⟩
  have hrun := OrderService.CreateOrder_accepted Sample.shopEnv (Sample.shop Sample.costly)
    (Sample.request [1, 2] "INR") _ _ "tok" "order_1" hreach rfl rfl
  exact ⟨_, congrArg Prod.fst hrun, rfl, rfl, rfl, rfl⟩


namespace OrderService

theorem ReachesGateway_currency (env : Env) (w : World) (req : CreateOrderRequest)
    (templates : List Template) (subtotalINR : Int) (downloadToken currency : String)
    (h : ReachesGateway env w req templates subtotalINR downloadToken) :
    ReachesGateway env w { req with CurrencyCode := currency } templates subtotalINR
      downloadToken :=
  ⟨h.resolved, h.nonempty, h.complete, h.subtotal, h.token, h.header, h.items⟩

theorem CreateOrder_reached (env : Env) (w : World) (req : CreateOrderRequest)
    (templates : List Template) (subtotalINR : Int) (downloadToken : String)
    (h : ReachesGateway env w req templates subtotalINR downloadToken) :
    (CreateOrder env w req).2.gateway = w.gateway ++
      [{ amount := subtotalINR, currency := "INR",
         receipt := "MRK" ++ toString (unixSeconds (env.now (w.step + 1))),
         notesOrderNumber := "MRK" ++ toString (unixSeconds (env.now (w.step + 1))),
         notesCustomerEmail := req.CustomerEmail }] ∧
    ∃ row, (CreateOrder env w req).2.db.orders.getLast? = some row ∧
      row.TotalINR = subtotalINR ∧ row.SubtotalINR = subtotalINR ∧ row.DiscountINR = 0 ∧
      row.TaxINR = 0 ∧
      row.OrderNumber = "MRK" ++ toString (unixSeconds (env.now (w.step + 1))) ∧
      row.CurrencyCode = req.CurrencyCode ∧ row.Status = "pending" ∧
      row.PaymentStatus = "pending" := by
  by_cases hr : ∃ id, env.gatewayReply (w.step + 5 + templates.length) = .order (some id)
  · obtain ⟨id, hid⟩ := hr
    cases hu : env.dbFault (w.step + 5 + templates.length + 1) with
    | none =>
      rw [CreateOrder_accepted env w req templates subtotalINR downloadToken id h hid hu]
      refine ⟨rfl, _, map_append_last _ _ _, ?_⟩
      simp [newOrder]
    | some x =>
      rw [CreateOrder_unrecorded env w req templates subtotalINR downloadToken id x h hid hu]
      refine ⟨rfl, newOrder env w req subtotalINR downloadToken, ?_, rfl, rfl, rfl, rfl, rfl,
        rfl, rfl, rfl⟩
      simp [worldAtGateway]
  · obtain ⟨err, _, _, hres⟩ :=
      CreateOrder_refused env w req templates subtotalINR downloadToken h
        (fun id hid => hr ⟨id, hid⟩)
    rw [hres]
    refine ⟨rfl, newOrder env w req subtotalINR downloadToken, ?_, rfl, rfl, rfl, rfl, rfl,
      rfl, rfl, rfl⟩
    simp [worldAtGateway]

theorem CreateOrder_reaches_of_gateway (env : Env) (w : World) (req : CreateOrderRequest)
    (hreach : (CreateOrder env w req).2.gateway ≠ w.gateway) :
    ∃ templates subtotalINR downloadToken,
      ReachesGateway env w req templates subtotalINR downloadToken := by
  rcases CreateOrder_cases env w req with h | h
  · exact h
  · exact absurd h.2.1 hreach

end OrderService

theorem Sample_down_reaches (currency : String) :
    OrderService.ReachesGateway Sample.downEnv (Sample.shop Sample.catalog)
      (Sample.request [1, 2] currency)
      [Sample.template 1 50000 "active", Sample.template 2 30000 "active"] 80000 "tok" :=
  ⟨rfl, by decide, rfl, rfl, rfl, rfl, fun _ _ => rfl⟩


/-- C19: when `CreateOrder` succeeds, the order returned is the last row of table `orders`,
which has one row more than before (and the other rows as before when the new `id` is not
already in use); its status and its payment status are `pending`. The items returned are
the rows added to `order_items`, one per template resolved by the catalog query and in
the same order, each with the `id` of the order and the title, slug, file URL and price of
its template. The intent ID returned is the one the gateway issued and the one stored on
the order. -/
theorem C19_CreateOrder_success (env : Env) (w w1 : World)
    (req : OrderService.CreateOrderRequest) (resp : OrderService.CreateOrderResponse)
    (hok : OrderService.CreateOrder env w req = (.ok resp, w1)) :
    ∃ templates,
      (TemplateRepository.GetByIDs env w req.TemplateIDs).1 = (templates, none) ∧
      List.Forall₂
        (fun (item : OrderItem) (t : Template) =>
          item.OrderID = resp.Order.ID ∧ item.TemplateID = t.ID ∧
          item.TemplateTitle = t.Title ∧ item.TemplateSlug = t.Slug ∧
          item.TemplateFileURL = t.FileURL ∧ item.PriceINR = t.PriceINR)
        resp.Items templates ∧
      w1.db.order_items = w.db.order_items ++ resp.Items ∧
      w1.db.orders.getLast? = some resp.Order ∧
      w1.db.orders.length = w.db.orders.length + 1 ∧
      ((∀ r, r ∈ w.db.orders → r.ID ≠ resp.Order.ID) →
        w1.db.orders = w.db.orders ++ [resp.Order]) ∧
      resp.Order.Status = "pending" ∧ resp.Order.PaymentStatus = "pending" ∧
      resp.Order.RazorpayOrderID = some resp.RazorpayOrderID ∧
      env.gatewayReply (w.step + 5 + templates.length) = .order (some resp.RazorpayOrderID) := by
  obtain ⟨templates, subtotalINR, downloadToken, intentID, h, hreply, hupdate⟩ :=
    OrderService.CreateOrder_ok_inv env w req resp (by rw [hok])
  rw [OrderService.CreateOrder_accepted env w req templates subtotalINR downloadToken
    intentID h hreply hupdate] at hok
  simp only [Prod.mk.injEq, Except.ok.injEq] at hok
  obtain ⟨hresp, hw1⟩ := hok
  subst hresp hw1
  refine ⟨templates, by rw [h.resolved], OrderService.itemsFrom_snapshot env _ templates _, rfl,
    ?_, ?_, ?_, rfl, rfl, rfl, hreply⟩
  · simp [OrderService.newOrder, zeroOrder]
  · simp
  · intro hfresh
    have hfresh' : ∀ r, r ∈ w.db.orders → r.ID ≠ env.newID (w.step + 4) := hfresh
    refine (OrderService.map_append_fresh _ _ _ _ hfresh').trans ?_
    simp [OrderService.newOrder, zeroOrder]

theorem C19_CreateOrder_success_witness :
    ∃ resp w1,
      OrderService.CreateOrder Sample.shopEnv (Sample.shop Sample.catalog)
        (Sample.request [1, 2] "USD") = (.ok resp, w1) ∧
      w1.db.orders = [resp.Order] ∧ w1.db.order_items = resp.Items ∧
      resp.Order.Status = "pending" ∧ resp.Order.PaymentStatus = "pending" ∧
      resp.Order.RazorpayOrderID = some resp.RazorpayOrderID := by
  have hrun := OrderService.CreateOrder_accepted Sample.shopEnv (Sample.shop Sample.catalog)
    (Sample.request [1, 2] "USD") _ 80000 "tok" "order_1" (Sample_reaches "USD") rfl rfl
  obtain ⟨_, _, _, hitems, _, _, horders, hs, hp, hid, _⟩ :=
    C19_CreateOrder_success Sample.shopEnv (Sample.shop Sample.catalog) _
      (Sample.request [1, 2] "USD") _ hrun
  exact ⟨_, _, hrun, horders (fun r hr => by simp [Sample.shop] at hr), hitems, hs, hp, hid⟩


/-- C20: when `CreateOrder` turns to the payment gateway and the gateway does not issue an
intent, the call returns the error of the gateway call, and the order it has inserted
stays in the store as the last row, with status `pending`, payment status `pending` and no
intent ID; the other rows are as before. The request to the gateway is effect number
`w.step + 5 + n` of the call for `n` requested templates, after the catalog query, two
clock readings, the token draw and the INSERTs of the order and of its `n` items. -/
theorem C20_gateway_failure_leaves_pending_order (env : Env) (w : World)
    (req : OrderService.CreateOrderRequest)
    (hreach : (OrderService.CreateOrder env w req).2.gateway ≠ w.gateway)
    (hfail : ∀ id,
      env.gatewayReply (w.step + 5 + req.TemplateIDs.length) ≠ .order (some id)) :
    ∃ err row,
      (OrderService.CreateOrder env w req).1 = .error err ∧
      (∀ e, env.gatewayReply (w.step + 5 + req.TemplateIDs.length) = .fault e →
        err = Wrap e "PAYMENT_ERROR" "Failed to create Razorpay order" 500) ∧
      (env.gatewayReply (w.step + 5 + req.TemplateIDs.length) = .order none →
        err = New "PAYMENT_ERROR" "Invalid Razorpay order response" 500) ∧
      (OrderService.CreateOrder env w req).2.db.orders = w.db.orders ++ [row] ∧
      row.CustomerEmail = req.CustomerEmail ∧
      row.Status = "pending" ∧ row.PaymentStatus = "pending" ∧ row.RazorpayOrderID = none := by
  obtain ⟨templates, subtotalINR, downloadToken, h⟩ :=
    OrderService.CreateOrder_reaches_of_gateway env w req hreach
  have hlen := h.complete
  rw [← hlen] at hfail ⊢
  obtain ⟨err, hgw, _, hres⟩ :=
    OrderService.CreateOrder_refused env w req templates subtotalINR downloadToken h hfail
  rw [hres]
  refine ⟨err, OrderService.newOrder env w req subtotalINR downloadToken, rfl, ?_, ?_, rfl, rfl,
    rfl, rfl, rfl⟩
  · intro e he
    simp [PaymentService.CreateOrder, OrderService.worldAtGateway, he] at hgw
    exact hgw.symm
  · intro he
    simp [PaymentService.CreateOrder, OrderService.worldAtGateway, he] at hgw
    exact hgw.symm

theorem C20_gateway_failure_leaves_pending_order_witness :
    (OrderService.CreateOrder Sample.downEnv (Sample.shop Sample.catalog)
        (Sample.request [1, 2] "INR")).2.gateway ≠ (Sample.shop Sample.catalog).gateway ∧
    ∃ row,
      (OrderService.CreateOrder Sample.downEnv (Sample.shop Sample.catalog)
        (Sample.request [1, 2] "INR")).1 =
          .error (Wrap "gateway unreachable" "PAYMENT_ERROR"
            "Failed to create Razorpay order" 500) ∧
      (OrderService.CreateOrder Sample.downEnv (Sample.shop Sample.catalog)
        (Sample.request [1, 2] "INR")).2.db.orders = [row] ∧
      row.Status = "pending" ∧ row.PaymentStatus = "pending" ∧ row.RazorpayOrderID = none := by
  have hreach : (OrderService.CreateOrder Sample.downEnv (Sample.shop Sample.catalog)
      (Sample.request [1, 2] "INR")).2.gateway ≠ (Sample.shop Sample.catalog).gateway := by
    rw [(OrderService.CreateOrder_reached Sample.downEnv (Sample.shop Sample.catalog)
      (Sample.request [1, 2] "INR") _ 80000 "tok" (Sample_down_reaches "INR")).1]
    simp [Sample.shop]
  obtain ⟨err, row, herr, hfault, _, horders, _, hs, hp, hid⟩ :=
    C20_gateway_failure_leaves_pending_order Sample.downEnv (Sample.shop Sample.catalog)
      (Sample.request [1, 2] "INR") hreach (fun id h => by cases h)
  refine ⟨hreach, row, ?_, horders, hs, hp, hid⟩
  rw [herr, hfault "gateway unreachable" rfl]


/-- C15: when `CreateOrder` turns to the payment gateway, it makes one request, whose amount
is the total in INR of the order it has persisted (subtotal − discount + tax), whose
currency is `INR` and whose receipt is the order number; the same call for a request that
differs only in the currency code makes the very same request to the gateway, and persists
an order with the same total and that currency code. -/
theorem C15_gateway_amount_is_total_inr (env : Env) (w : World)
    (req : OrderService.CreateOrderRequest)
    (hreach : (OrderService.CreateOrder env w req).2.gateway ≠ w.gateway) :
    ∃ g row,
      (OrderService.CreateOrder env w req).2.gateway = w.gateway ++ [g] ∧
      (OrderService.CreateOrder env w req).2.db.orders.getLast? = some row ∧
      g.amount = row.TotalINR ∧
      row.TotalINR = row.SubtotalINR - row.DiscountINR + row.TaxINR ∧
      g.currency = "INR" ∧ g.receipt = row.OrderNumber ∧
      row.CurrencyCode = req.CurrencyCode ∧
      ∀ currency, ∃ row',
        (OrderService.CreateOrder env w { req with CurrencyCode := currency }).2.gateway
          = w.gateway ++ [g] ∧
        (OrderService.CreateOrder env w { req with CurrencyCode := currency }).2.db.orders.getLast?
          = some row' ∧
        row'.TotalINR = row.TotalINR ∧ row'.OrderNumber = row.OrderNumber ∧
        row'.CurrencyCode = currency := by
  obtain ⟨templates, subtotalINR, downloadToken, h⟩ :=
    OrderService.CreateOrder_reaches_of_gateway env w req hreach
  obtain ⟨hg, row, hrow, ht, hsub, hd, htax, hnum, hcur, _, _⟩ :=
    OrderService.CreateOrder_reached env w req templates subtotalINR downloadToken h
  refine ⟨_, row, hg, hrow, ht.symm, by rw [ht, hsub, hd, htax]; omega, rfl, hnum.symm, hcur, ?_⟩
  intro currency
  obtain ⟨hg', row', hrow', ht', _, _, _, hnum', hcur', _, _⟩ :=
    OrderService.CreateOrder_reached env w { req with CurrencyCode := currency } templates
      subtotalINR downloadToken
      (OrderService.ReachesGateway_currency env w req templates subtotalINR downloadToken
        currency h)
  exact ⟨row', hg', hrow', by rw [ht', ht], by rw [hnum', hnum], hcur'⟩

theorem C15_gateway_amount_is_total_inr_witness :
    (OrderService.CreateOrder Sample.shopEnv (Sample.shop Sample.catalog)
        (Sample.request [1, 2] "USD")).2.gateway ≠ (Sample.shop Sample.catalog).gateway ∧
    ∃ g row,
      (OrderService.CreateOrder Sample.shopEnv (Sample.shop Sample.catalog)
        (Sample.request [1, 2] "USD")).2.gateway = [g] ∧
      (OrderService.CreateOrder Sample.shopEnv (Sample.shop Sample.catalog)
        (Sample.request [1, 2] "USD")).2.db.orders.getLast? = some row ∧
      g.amount = row.TotalINR ∧ g.currency = "INR" ∧ g.receipt = row.OrderNumber ∧
      (OrderService.CreateOrder Sample.shopEnv (Sample.shop Sample.catalog)
        (Sample.request [1, 2] "INR")).2.gateway = [g] := by
  have hreach : (OrderService.CreateOrder Sample.shopEnv (Sample.shop Sample.catalog)
      (Sample.request [1, 2] "USD")).2.gateway ≠ (Sample.shop Sample.catalog).gateway := by
    rw [(OrderService.CreateOrder_reached Sample.shopEnv (Sample.shop Sample.catalog)
      (Sample.request [1, 2] "USD") _ 80000 "tok" (Sample_reaches "USD")).1]
    simp [Sample.shop]
  obtain ⟨g, row, hg, hrow, hamount, _, hcur, hreceipt, _, hother⟩ :=
    C15_gateway_amount_is_total_inr Sample.shopEnv (Sample.shop Sample.catalog)
      (Sample.request [1, 2] "USD") hreach
  obtain ⟨_, hg', _⟩ := hother "INR"
  exact ⟨hreach, g, row, hg, hrow, hamount, hcur, hreceipt, hg'⟩


/-! ## What the verdicts depend on -/

/-- C29: `VerifySignature` depends on the intent ID and the payment ID only through the
string `intentID + "|" + paymentID`: two pairs with the same concatenation get the same
verdict for every signature, so a signature accepted for one pair is accepted for the
other. -/
theorem C29_VerifySignature_concatenation (env : Env)
    (intentID paymentID intentID' paymentID' signature : String)
    (hsame : intentID ++ "|" ++ paymentID = intentID' ++ "|" ++ paymentID') :
    PaymentService.VerifySignature env intentID paymentID signature =
        PaymentService.VerifySignature env intentID' paymentID' signature ∧
    (PaymentService.VerifySignature env intentID paymentID signature = none →
      PaymentService.VerifySignature env intentID' paymentID' signature = none) := by
  have h : PaymentService.VerifySignature env intentID paymentID signature =
      PaymentService.VerifySignature env intentID' paymentID' signature := by
    simp only [PaymentService.VerifySignature, PaymentService.expectedSignature, hsame]
  exact ⟨h, fun hv => h ▸ hv⟩

theorem C29_VerifySignature_concatenation_witness :
    "a|b" ++ "|" ++ "c" = "a" ++ "|" ++ "b|c" ∧
    ("a|b", "c") ≠ ("a", "b|c") ∧
    ∀ signature,
      PaymentService.VerifySignature Sample.env "a|b" "c" signature =
        PaymentService.VerifySignature Sample.env "a" "b|c" signature :=
  ⟨by decide, by decide, fun signature =>
    (C29_VerifySignature_concatenation Sample.env "a|b" "c" "a" "b|c" signature
      (by decide)).1⟩

/-- C30: when a non-empty token is supplied, `ValidateDownload` ignores the order number and
the e-mail: two calls with the same token in the same world give the same result (the order
and its items, or the error) and the same world, and that result is the one of deciding the
order that the token selects. -/
theorem C30_ValidateDownload_token_only (env : Env) (w : World)
    (orderNumber email orderNumber' email' token : String) (htoken : token ≠ "") :
    OrderService.ValidateDownload env w orderNumber email token =
        OrderService.ValidateDownload env w orderNumber' email' token ∧
    OrderService.ValidateDownload env w orderNumber email token =
        OrderService.validateFound env (OrderRepository.FindByDownloadToken env w token) ∧
    ∀ ip userAgent,
      public.OrderHandler.Download env w
          { orderNumber := orderNumber, email := email, token := token, ip := ip,
            userAgent := userAgent } =
        public.OrderHandler.Download env w
          { orderNumber := orderNumber', email := email', token := token, ip := ip,
            userAgent := userAgent } := by
  have h : ∀ a b, OrderService.ValidateDownload env w a b token =
      OrderService.validateFound env (OrderRepository.FindByDownloadToken env w token) := by
    intro a b
    simp only [OrderService.ValidateDownload, htoken, ne_eq, not_false_eq_true, if_true]
  refine ⟨by rw [h, h], h _ _, ?_⟩
  intro ip userAgent
  simp only [public.OrderHandler.Download, h]

theorem C30_ValidateDownload_token_only_witness :
    OrderService.ValidateDownload Sample.env Sample.twoOrders "MRK1700000000"
        "ann@example.com" "tok8" =
      OrderService.ValidateDownload Sample.env Sample.twoOrders "" "" "tok8" ∧
    (OrderService.ValidateDownload Sample.env Sample.twoOrders "MRK1700000000"
        "ann@example.com" "").1 = .ok (Sample.order "approved" "success", []) ∧
    (OrderService.ValidateDownload Sample.env Sample.twoOrders "MRK1700000000"
        "ann@example.com" "tok8").1 = .ok (Sample.orderB, []) :=
  ⟨(C30_ValidateDownload_token_only Sample.env Sample.twoOrders "MRK1700000000"
      "ann@example.com" "" "" "tok8" (by decide)).1, rfl, rfl⟩


/-! ## The guards of the store operations -/

/-- C25, as the code has it: the store operations carry no guard. When the statement
executes, `OrderRepository.ApproveOrder` and `OrderRepository.RejectOrder` rewrite every row
with the given `id`, whatever its status, and `OrderRepository.IncrementDownloadCount`
raises `download_count` by one in a single UPDATE, whatever `max_downloads` is. The status
guard and the download limit are tested in the service only (`ApproveOrder`, `RejectOrder`,
`ValidateDownload`), before the separate write. -/
theorem C25_store_operations_unguarded (env : Env) (w : World) (id adminID : Int)
    (reason : String) (hdb : ∀ n, env.dbFault n = none) :
    (OrderRepository.ApproveOrder env w id adminID).2.db.orders =
        w.db.orders.map (fun o => if o.ID = id then
          { o with Status := "approved", ApprovedBy := some adminID,
                   ApprovedAt := some (env.now w.step),
                   UpdatedAt := env.dbNow (w.step + 1) } else o) ∧
    (OrderRepository.RejectOrder env w id adminID reason).2.db.orders =
        w.db.orders.map (fun o => if o.ID = id then
          { o with Status := "rejected", RejectionReason := some reason,
                   ApprovedBy := some adminID, ApprovedAt := some (env.now w.step),
                   UpdatedAt := env.dbNow (w.step + 1) } else o) ∧
    (OrderRepository.IncrementDownloadCount env w id).2.db.orders =
        w.db.orders.map (fun o => if o.ID = id then
          { o with DownloadCount := o.DownloadCount + 1, UpdatedAt := env.dbNow w.step }
          else o) ∧
    ∀ o, o ∈ w.db.orders → o.ID = id →
      (∃ o', o' ∈ (OrderRepository.ApproveOrder env w id adminID).2.db.orders ∧
        o'.ID = id ∧ o'.Status = "approved") ∧
      (∃ o', o' ∈ (OrderRepository.RejectOrder env w id adminID reason).2.db.orders ∧
        o'.ID = id ∧ o'.Status = "rejected") ∧
      (∃ o', o' ∈ (OrderRepository.IncrementDownloadCount env w id).2.db.orders ∧
        o'.ID = id ∧ o'.DownloadCount = o.DownloadCount + 1) := by
  have ha := Repository_ApproveOrder_ok env w id adminID (hdb _)
  have hr := Repository_RejectOrder_ok env w id adminID reason (hdb _)
  have hi : OrderRepository.IncrementDownloadCount env w id =
      (none,
        { db := { w.db with
                  orders := w.db.orders.map (fun o => if o.ID = id then
                    { o with DownloadCount := o.DownloadCount + 1,
                             UpdatedAt := env.dbNow w.step } else o) },
          outbox := w.outbox, step := w.step + 1, gateway := w.gateway }) := by
    simp [OrderRepository.IncrementDownloadCount, execUpdateOrders, hdb]
  rw [ha, hr, hi]
  refine ⟨rfl, rfl, rfl, ?_⟩
  intro o ho hid
  refine ⟨⟨_, List.mem_map.mpr ⟨o, ho, rfl⟩, ?_, ?_⟩, ⟨_, List.mem_map.mpr ⟨o, ho, rfl⟩, ?_, ?_⟩,
    ⟨_, List.mem_map.mpr ⟨o, ho, rfl⟩, ?_, ?_⟩⟩ <;> simp [hid]

theorem C25_store_operations_unguarded_witness :
    (Sample.world (Sample.order "pending" "pending")).db.orders.map
        (fun o => (o.ID, o.Status)) = [(7, "pending")] ∧
    (OrderRepository.ApproveOrder Sample.env (Sample.world (Sample.order "pending" "pending"))
        7 99).2.db.orders.map (fun o => (o.ID, o.Status)) = [(7, "approved")] := by
  refine ⟨by decide, ?_⟩
  rw [(C25_store_operations_unguarded Sample.env
    (Sample.world (Sample.order "pending" "pending")) 7 99 "" (fun _ => rfl)).1]
  decide

/-- C25 does not hold: order 7 is `pending` and `OrderRepository.ApproveOrder` leaves it
`approved`; it is `completed` and `OrderRepository.RejectOrder` leaves it `rejected`; it has
used its three downloads and `OrderRepository.IncrementDownloadCount` counts a fourth. -/
theorem C25_counterexample_unguarded_updates :
    ((Sample.world (Sample.order "pending" "pending")).db.orders.map
        (fun o => (o.ID, o.Status)) = [(7, "pending")] ∧
      (OrderRepository.ApproveOrder Sample.env (Sample.world (Sample.order "pending" "pending"))
        7 99).2.db.orders.map (fun o => (o.ID, o.Status)) = [(7, "approved")]) ∧
    ((Sample.world (Sample.order "completed" "success")).db.orders.map
        (fun o => (o.ID, o.Status)) = [(7, "completed")] ∧
      (OrderRepository.RejectOrder Sample.env (Sample.world (Sample.order "completed" "success"))
        7 99 "late").2.db.orders.map (fun o => (o.ID, o.Status)) = [(7, "rejected")]) ∧
    ((Sample.world { Sample.order "completed" "success" with DownloadCount := 3 }).db.orders.map
        (fun o => (o.ID, o.DownloadCount, o.MaxDownloads)) = [(7, 3, 3)] ∧
      (OrderRepository.IncrementDownloadCount Sample.env
        (Sample.world { Sample.order "completed" "success" with DownloadCount := 3 })
        7).2.db.orders.map (fun o => (o.ID, o.DownloadCount, o.MaxDownloads)) = [(7, 4, 3)]) := by
  decide


/-! ## Verification after a failed verification -/

/-- C23, as the code has it: `VerifyPayment` does not look at the status of the order. After
a call with a signature that does not match has left the order of the intent `failed`, a
call with the matching signature for the same intent and any payment ID returns the order
without error and leaves it with `status = paid` and `payment_status = success` (the
statements executing, `id` being the primary key). -/
theorem C23_valid_signature_after_failure (env : Env) (w : World)
    (intentID paymentID signature paymentID' : String) (order : Order)
    (hdb : ∀ n, env.dbFault n = none)
    (hpk : (w.db.orders.map (fun o => o.ID)).Nodup)
    (hfind : w.db.orders.find? (fun o => o.RazorpayOrderID = some intentID) = some order)
    (hbad : signature ≠ PaymentService.expectedSignature env intentID paymentID) :
    (∃ e, (OrderService.VerifyPayment env w intentID paymentID signature).1 = (none, some e)) ∧
    (∃ failed,
      (OrderService.VerifyPayment env w intentID paymentID signature).2.db.orders.find?
        (fun o => o.ID = order.ID) = some failed ∧
      failed.Status = "failed" ∧ failed.PaymentStatus = "failed") ∧
    ∃ paid,
      (OrderService.VerifyPayment env
        (OrderService.VerifyPayment env w intentID paymentID signature).2 intentID paymentID'
        (PaymentService.expectedSignature env intentID paymentID')).1 = (some paid, none) ∧
      (OrderService.VerifyPayment env
        (OrderService.VerifyPayment env w intentID paymentID signature).2 intentID paymentID'
        (PaymentService.expectedSignature env intentID paymentID')).2.db.orders.find?
          (fun o => o.ID = order.ID) = some paid ∧
      paid.ID = order.ID ∧ paid.Status = "paid" ∧ paid.PaymentStatus = "success" := by
  have hmem : order ∈ w.db.orders := List.mem_of_find?_eq_some hfind
  have hbyid := find_by_id_of_mem w.db.orders order hpk hmem
  rw [VerifyPayment_mismatch env w intentID paymentID signature order (hdb _) (hdb _) hfind hbad]
  have hfind1 : (w.db.orders.map (fun r => if r.ID = order.ID then
        { r with PaymentStatus := "failed", Status := "failed",
                 UpdatedAt := env.dbNow (w.step + 1) } else r)).find?
        (fun o => o.RazorpayOrderID = some intentID) =
      some { order with PaymentStatus := "failed", Status := "failed",
                        UpdatedAt := env.dbNow (w.step + 1) } := by
    rw [find_map_keep]
    · rw [hfind]; simp
    · intro r; split <;> rfl
  have hbyid1 : (w.db.orders.map (fun r => if r.ID = order.ID then
        { r with PaymentStatus := "failed", Status := "failed",
                 UpdatedAt := env.dbNow (w.step + 1) } else r)).find?
        (fun o => o.ID = order.ID) =
      some { order with PaymentStatus := "failed", Status := "failed",
                        UpdatedAt := env.dbNow (w.step + 1) } := by
    rw [find_map_update]
    · rw [hbyid]; rfl
    · intro r; rfl
  refine ⟨⟨_, rfl⟩, ⟨_, hbyid1, rfl, rfl⟩, ?_⟩
  dsimp only
  rw [VerifyPayment_valid env _ intentID paymentID' _ _ hdb hfind1 rfl]
  dsimp only
  refine ⟨{ order with
      PaymentStatus := "success", Status := "paid", RazorpayPaymentID := some paymentID',
      RazorpaySignature := some (PaymentService.expectedSignature env intentID paymentID'),
      PaidAt := some (env.now (w.step + 2 + 1)), UpdatedAt := env.dbNow (w.step + 2 + 2) },
    ?_, ?_, rfl, rfl, rfl⟩
  · rw [hbyid1]
    rfl
  · rw [find_map_update]
    · rw [hbyid1]; rfl
    · intro r; rfl

theorem C23_valid_signature_after_failure_witness :
    (Sample.world (Sample.order "pending" "pending")).db.orders.map
        (fun o => (o.Status, o.PaymentStatus)) = [("pending", "pending")] ∧
    (OrderService.VerifyPayment Sample.env (Sample.world (Sample.order "pending" "pending"))
        "order_1" "pay_1" "forged").2.db.orders.map
        (fun o => (o.Status, o.PaymentStatus)) = [("failed", "failed")] ∧
    ∃ paid,
      (OrderService.VerifyPayment Sample.env
        (OrderService.VerifyPayment Sample.env (Sample.world (Sample.order "pending" "pending"))
          "order_1" "pay_1" "forged").2 "order_1" "pay_1"
        (PaymentService.expectedSignature Sample.env "order_1" "pay_1")).1
          = (some paid, none) ∧
      paid.Status = "paid" ∧ paid.PaymentStatus = "success" := by
  obtain ⟨_, _, paid, hret, _, _, hs, hp⟩ :=
    C23_valid_signature_after_failure Sample.env
      (Sample.world (Sample.order "pending" "pending")) "order_1" "pay_1" "forged" "pay_1"
      (Sample.order "pending" "pending") (fun _ => rfl) (by decide) (by decide)
      (forged_ne_expected Sample.env "order_1" "pay_1")
  refine ⟨by decide, ?_, paid, hret, hs, hp⟩
  rw [VerifyPayment_mismatch Sample.env _ "order_1" "pay_1" "forged"
    (Sample.order "pending" "pending") rfl rfl (by decide)
    (forged_ne_expected Sample.env "order_1" "pay_1")]
  decide

/-- C23 does not hold: order 7 is left `failed` by a verification with the signature
`forged`; the next verification, with the matching signature for the same intent, returns
the order without error, and the order is then `paid` with payment status `success`. -/
theorem C23_counterexample_failed_order_paid :
    (OrderService.VerifyPayment Sample.env (Sample.world (Sample.order "pending" "pending"))
        "order_1" "pay_1" "forged").2.db.orders.map
        (fun o => (o.ID, o.Status, o.PaymentStatus)) = [(7, "failed", "failed")] ∧
    (OrderService.VerifyPayment Sample.env
        (OrderService.VerifyPayment Sample.env (Sample.world (Sample.order "pending" "pending"))
          "order_1" "pay_1" "forged").2 "order_1" "pay_1"
        (PaymentService.expectedSignature Sample.env "order_1" "pay_1")).1.2 = none ∧
    (OrderService.VerifyPayment Sample.env
        (OrderService.VerifyPayment Sample.env (Sample.world (Sample.order "pending" "pending"))
          "order_1" "pay_1" "forged").2 "order_1" "pay_1"
        (PaymentService.expectedSignature Sample.env "order_1" "pay_1")).2.db.orders.map
        (fun o => (o.ID, o.Status, o.PaymentStatus)) = [(7, "paid", "success")] := by
  rw [VerifyPayment_mismatch Sample.env _ "order_1" "pay_1" "forged"
    (Sample.order "pending" "pending") rfl rfl (by decide)
    (forged_ne_expected Sample.env "order_1" "pay_1")]
  refine ⟨by decide, ?_⟩
  rw [VerifyPayment_valid Sample.env _ "order_1" "pay_1" _
    { Sample.order "pending" "pending" with
      PaymentStatus := "failed", Status := "failed", UpdatedAt := Sample.env.dbNow 1 }
    (fun _ => rfl) (by decide) rfl]
  exact ⟨rfl, by decide⟩


/-! ## Notification failures -/

theorem sendEmail_smtp (env : Env) (f : Nat → Option String) (w : World) (a b : String)
    (c : MailBody) :
    (EmailService.sendEmail { env with smtpFault := f } w a b c).2 =
      (EmailService.sendEmail env w a b c).2 := by
  rw [sendEmail_world, sendEmail_world]

theorem SendOrderApproval_smtp (env : Env) (f : Nat → Option String) (w : World) (o : Order)
    (items : List OrderItem) :
    (∀ m w3, EmailService.SendOrderApproval { env with smtpFault := f } w o items = (.panic m, w3) →
      EmailService.SendOrderApproval env w o items = (.panic m, w3)) ∧
    (∀ x w3, EmailService.SendOrderApproval { env with smtpFault := f } w o items = (.ret x, w3) →
      ∃ y, EmailService.SendOrderApproval env w o items = (.ret y, w3)) := by
  unfold EmailService.SendOrderApproval
  cases o.DownloadToken with
  | none => simp
  | some token =>
    cases o.DownloadExpiresAt with
    | none => simp
    | some expires =>
      simp only [sendEmail_world]
      constructor
      · intro m w3 h
        cases h
      · intro x w3 h
        simp only [Prod.mk.injEq] at h
        exact ⟨_, by rw [← h.2]⟩

theorem VerifyPayment_smtp (env : Env) (f : Nat → Option String) (w : World) (i p s : String) :
    OrderService.VerifyPayment { env with smtpFault := f } w i p s =
      OrderService.VerifyPayment env w i p s := by
  simp only [OrderService.VerifyPayment, EmailService.SendOrderConfirmation, sendEmail_world]
  rfl

theorem RejectOrder_smtp (env : Env) (f : Nat → Option String) (w : World) (id a : Int)
    (reason : String) :
    OrderService.RejectOrder { env with smtpFault := f } w id a reason =
      OrderService.RejectOrder env w id a reason := by
  simp only [OrderService.RejectOrder, EmailService.SendOrderRejection, sendEmail_world]
  rfl

theorem ApproveOrder_smtp (env : Env) (f : Nat → Option String) (w : World) (id a : Int) :
    OrderService.ApproveOrder { env with smtpFault := f } w id a =
      OrderService.ApproveOrder env w id a := by
  have e1 : OrderRepository.FindByID { env with smtpFault := f } = OrderRepository.FindByID env :=
    rfl
  have e2 : OrderRepository.ApproveOrder { env with smtpFault := f } =
      OrderRepository.ApproveOrder env := rfl
  have e3 : OrderRepository.GetOrderItems { env with smtpFault := f } =
      OrderRepository.GetOrderItems env := rfl
  have e4 : ActivityLogRepository.Create { env with smtpFault := f } =
      ActivityLogRepository.Create env := rfl
  simp only [OrderService.ApproveOrder, e1, e2, e3, e4]
  split
  · rfl
  · rfl
  · split
    · rfl
    · split
      · rfl
      · next w2 _ =>
        split
        · rfl
        · next order _ =>
          have hs := SendOrderApproval_smtp env f
            (OrderRepository.GetOrderItems env (OrderRepository.FindByID env w2 id).2 id).2 order
            (OrderRepository.GetOrderItems env (OrderRepository.FindByID env w2 id).2 id).1.1
          split
          · next m w3 heq => rw [hs.1 m w3 heq]
          · next x w3 heq =>
            obtain ⟨y, hy⟩ := hs.2 x w3 heq
            rw [hy]


/-- C24: whether the sends of the notification e-mails fail makes no difference to
`VerifyPayment`, `ApproveOrder` and `RejectOrder`: for any two behaviours `f` and `g` of
the SMTP dialer (for instance every send succeeding, and every send failing), each of the
three operations returns the same result and leaves the same world, whatever the
arguments and the store. So a failed send neither turns the operation into an error nor
undoes the status change already written. -/
theorem C24_notification_failure_ignored (env : Env) (w : World)
    (f g : Nat → Option String) :
    (∀ intentID paymentID signature,
      OrderService.VerifyPayment { env with smtpFault := f } w intentID paymentID signature =
        OrderService.VerifyPayment { env with smtpFault := g } w intentID paymentID signature) ∧
    (∀ orderID adminID,
      OrderService.ApproveOrder { env with smtpFault := f } w orderID adminID =
        OrderService.ApproveOrder { env with smtpFault := g } w orderID adminID) ∧
    (∀ orderID adminID reason,
      OrderService.RejectOrder { env with smtpFault := f } w orderID adminID reason =
        OrderService.RejectOrder { env with smtpFault := g } w orderID adminID reason) := by
  refine ⟨?_, ?_, ?_⟩
  · intro i p s
    rw [VerifyPayment_smtp env f, VerifyPayment_smtp env g]
  · intro id a
    rw [ApproveOrder_smtp env f, ApproveOrder_smtp env g]
  · intro id a reason
    rw [RejectOrder_smtp env f, RejectOrder_smtp env g]

/-! ## The download token -/

theorem tokens_kept_map (l : List Order) (g : Order → Order) (hid : ∀ o, (g o).ID = o.ID)
    (htoken : ∀ o, (g o).DownloadToken = o.DownloadToken) :
    List.Forall₂ (fun o o' => o'.ID = o.ID ∧ o'.DownloadToken = o.DownloadToken) l (l.map g) := by
  induction l with
  | nil => exact List.Forall₂.nil
  | cons o rest ih => exact List.Forall₂.cons ⟨hid o, htoken o⟩ ih

theorem tokens_kept_refl (l : List Order) :
    List.Forall₂ (fun o o' => o'.ID = o.ID ∧ o'.DownloadToken = o.DownloadToken) l l := by
  have h := tokens_kept_map l id (fun _ => rfl) (fun _ => rfl)
  rw [List.map_id] at h
  exact h

theorem Update_orders (env : Env) (w : World) (order : Order) :
    (OrderRepository.Update env w order).2.db.orders = w.db.orders ∨
    (OrderRepository.Update env w order).2.db.orders =
      w.db.orders.map (fun o => if o.ID = order.ID then
        { o with Status := order.Status, PaymentStatus := order.PaymentStatus,
                 RazorpayOrderID := order.RazorpayOrderID,
                 RazorpayPaymentID := order.RazorpayPaymentID,
                 RazorpaySignature := order.RazorpaySignature,
                 ApprovedBy := order.ApprovedBy, ApprovedAt := order.ApprovedAt,
                 RejectionReason := order.RejectionReason,
                 DownloadCount := order.DownloadCount, PaidAt := order.PaidAt,
                 CompletedAt := order.CompletedAt,
                 UpdatedAt := env.dbNow w.step } else o) := by
  unfold OrderRepository.Update
  split
  · left; rfl
  · split
    · right; rfl
    · left; rfl

/-- C26: none of the operations that follow the creation of an order changes a download
token. `OrderRepository.Update` (with any argument), `VerifyPayment`, `ApproveOrder`,
`RejectOrder` and `RecordDownload`, with any arguments and whatever fails, leave table
`orders` with the same rows in the same order, each with its `id` and its download token
as before. A successful `CreateOrder` adds one row, the order it returns, whose download
token is the one drawn by that call, and the `Update` it performs keeps the `id` and the
token of every earlier row. -/
theorem C26_download_token_unchanged (env : Env) (w : World) :
    (∀ order,
      List.Forall₂ (fun o o' => o'.ID = o.ID ∧ o'.DownloadToken = o.DownloadToken)
        w.db.orders (OrderRepository.Update env w order).2.db.orders) ∧
    (∀ intentID paymentID signature,
      List.Forall₂ (fun o o' => o'.ID = o.ID ∧ o'.DownloadToken = o.DownloadToken)
        w.db.orders
        (OrderService.VerifyPayment env w intentID paymentID signature).2.db.orders) ∧
    (∀ orderID adminID,
      List.Forall₂ (fun o o' => o'.ID = o.ID ∧ o'.DownloadToken = o.DownloadToken)
        w.db.orders (OrderService.ApproveOrder env w orderID adminID).2.db.orders) ∧
    (∀ orderID adminID reason,
      List.Forall₂ (fun o o' => o'.ID = o.ID ∧ o'.DownloadToken = o.DownloadToken)
        w.db.orders (OrderService.RejectOrder env w orderID adminID reason).2.db.orders) ∧
    (∀ orderID log,
      List.Forall₂ (fun o o' => o'.ID = o.ID ∧ o'.DownloadToken = o.DownloadToken)
        w.db.orders (OrderService.RecordDownload env w orderID log).2.db.orders) ∧
    (∀ req resp w1, OrderService.CreateOrder env w req = (.ok resp, w1) →
      ∃ token rows,
        env.randomToken (w.step + 2) = .ok token ∧
        resp.Order.DownloadToken = some token ∧
        w1.db.orders = rows ++ [resp.Order] ∧
        List.Forall₂ (fun o o' => o'.ID = o.ID ∧ o'.DownloadToken = o.DownloadToken)
          w.db.orders rows) := by
  refine ⟨?_, ?_, ?_, ?_, ?_, ?_⟩
  · intro order
    rcases Update_orders env w order with h | h <;> rw [h]
    · exact tokens_kept_refl _
    · exact tokens_kept_map _ _ (fun o => by split <;> rfl) (fun o => by split <;> rfl)
  · intro i p s
    rcases VerifyPayment_orders env w i p s with h | ⟨id, _, h⟩ | ⟨id, _, h⟩ <;> rw [h]
    · exact tokens_kept_refl _
    · exact tokens_kept_map _ _ (fun o => by split <;> rfl) (fun o => by split <;> rfl)
    · exact tokens_kept_map _ _ (fun o => by split <;> rfl) (fun o => by split <;> rfl)
  · intro id a
    rcases ApproveOrder_orders env w id a with ⟨_, h⟩ | ⟨_, _, _, h⟩ <;> rw [h]
    · exact tokens_kept_refl _
    · exact tokens_kept_map _ _ (fun o => by split <;> rfl) (fun o => by split <;> rfl)
  · intro id a reason
    rcases RejectOrder_orders env w id a reason with ⟨_, h⟩ | ⟨_, _, _, h⟩ <;> rw [h]
    · exact tokens_kept_refl _
    · exact tokens_kept_map _ _ (fun o => by split <;> rfl) (fun o => by split <;> rfl)
  · intro id log
    rcases RecordDownload_orders env w id log with ⟨_, h⟩ | h | ⟨_, _, _, _, h⟩ <;> rw [h]
    · exact tokens_kept_refl _
    · exact tokens_kept_map _ _ (fun o => by split <;> rfl) (fun o => by split <;> rfl)
    · rw [List.map_map]
      exact tokens_kept_map _ _
        (fun o => by by_cases ho : o.ID = id <;> simp [Function.comp, ho])
        (fun o => by by_cases ho : o.ID = id <;> simp [Function.comp, ho])
  · intro req resp w1 hok
    obtain ⟨templates, subtotalINR, downloadToken, intentID, h, hreply, hupdate⟩ :=
      OrderService.CreateOrder_ok_inv env w req resp (by rw [hok])
    rw [OrderService.CreateOrder_accepted env w req templates subtotalINR downloadToken
      intentID h hreply hupdate] at hok
    simp only [Prod.mk.injEq, Except.ok.injEq] at hok
    obtain ⟨hresp, hw1⟩ := hok
    subst hresp hw1
    have key : ∀ (G : Order → Order) (x y : Order), G x = y →
        List.map G (w.db.orders ++ [x]) = List.map G w.db.orders ++ [y] := by
      intro G x y hxy
      simp [hxy]
    exact ⟨downloadToken, _, h.token, rfl,
      key _ _ _ (by simp [OrderService.newOrder, zeroOrder]),
      tokens_kept_map _ _ (fun o => by by_cases ho : o.ID = env.newID (w.step + 4) <;> simp [ho])
        (fun o => by by_cases ho : o.ID = env.newID (w.step + 4) <;> simp [ho])⟩


theorem C26_download_token_unchanged_witness :
    ∃ resp w1,
      OrderService.CreateOrder Sample.shopEnv (Sample.shop Sample.catalog)
        (Sample.request [1, 2] "INR") = (.ok resp, w1) ∧
      resp.Order.DownloadToken = some "tok" ∧ w1.db.orders = [resp.Order] := by
  have hrun := OrderService.CreateOrder_accepted Sample.shopEnv (Sample.shop Sample.catalog)
    (Sample.request [1, 2] "INR") _ 80000 "tok" "order_1" (Sample_reaches "INR") rfl rfl
  obtain ⟨token, rows, htoken, hresp, horders, hrows⟩ :=
    (C26_download_token_unchanged Sample.shopEnv (Sample.shop Sample.catalog)).2.2.2.2.2
      _ _ _ hrun
  have htok : token = "tok" := by
    have h : Sample.shopEnv.randomToken ((Sample.shop Sample.catalog).step + 2) = .ok "tok" := rfl
    rw [h] at htoken
    simp only [Except.ok.injEq] at htoken
    exact htoken.symm
  have hnil : rows = [] := by
    have h : (Sample.shop Sample.catalog).db.orders = [] := rfl
    rw [h] at hrows
    cases hrows
    rfl
  subst htok hnil
  exact ⟨_, _, hrun, hresp, horders⟩

/-! ## The webhook -/

theorem forged_ne_expected_webhook (env : Env) (payload : String) :
    "forged" ≠ PaymentService.expectedWebhookSignature env payload := by
  intro h
  have h1 := congrArg String.length h
  have h2 : (PaymentService.expectedWebhookSignature env payload).length = 64 := by
    unfold PaymentService.expectedWebhookSignature hmacSHA256
    simp [hexEncode_length, sha256_length]
  rw [h2] at h1
  revert h1
  decide

/-- C22 (the code departs from the claim): the handler `Webhook` only tests that the
signature header is not empty and never calls `VerifyWebhookSignature`. For every world and
every body, the request whose header is `forged`, which is not the HMAC-SHA256 of the body
under the webhook secret and which `VerifyWebhookSignature` rejects, is answered with
status 200 and `success = true`; the store is not touched. -/
theorem C22_Webhook_accepts_forged_signature (env : Env) (w : World) (body : String) :
    "forged" ≠ PaymentService.expectedWebhookSignature env body ∧
    PaymentService.VerifyWebhookSignature env body "forged" =
      some (New "INVALID_SIGNATURE" "Webhook signature verification failed" 400) ∧
    public.OrderHandler.Webhook env w { signature := "forged", body := body } =
      ({ Status := 200, Success := true, Message := "", Code := "", Data := .null }, w) := by
  refine ⟨forged_ne_expected_webhook env body, ?_, ?_⟩
  · simp [PaymentService.VerifyWebhookSignature, (forged_ne_expected_webhook env body).symm]
  · simp [public.OrderHandler.Webhook]


/-! ## A failing item INSERT -/

namespace OrderService

theorem createItems_fault_at (env : Env) (orderID : Int) (ts : List Template) :
    ∀ (w : World) (acc : List OrderItem) (k : Nat) (e : String),
      k < ts.length → (∀ j, j < k → env.dbFault (w.step + j) = none) →
      env.dbFault (w.step + k) = some e →
      createItems env orderID ts w acc =
        (.error e,
          { db := { w.db with
                    order_items := w.db.order_items ++ itemsFrom env orderID (ts.take k) w.step },
            outbox := w.outbox, step := w.step + k + 1, gateway := w.gateway }) := by
  induction ts with
  | nil => intro w acc k e hk; simp at hk
  | cons t rest ih =>
    intro w acc k e hk hbefore hfault
    cases k with
    | zero =>
      have h0 : env.dbFault w.step = some e := by simpa using hfault
      simp [createItems, OrderRepository.CreateOrderItem, h0, itemsFrom, World.tick]
    | succ j =>
      have h0 : env.dbFault w.step = none := by simpa using hbefore 0 (by omega)
      simp only [createItems, OrderRepository.CreateOrderItem, h0]
      rw [ih _ _ j e (by simpa using hk)
        (fun i hi => by
          have := hbefore (i + 1) (by omega)
          simpa [Nat.add_assoc, Nat.add_comm 1] using this)
        (by simpa [Nat.add_assoc, Nat.add_comm 1] using hfault)]
      simp [itemsFrom, Nat.add_assoc, Nat.add_comm 1]

theorem CreateOrder_item_fault (env : Env) (w : World) (req : CreateOrderRequest)
    (templates : List Template) (subtotalINR : Int) (downloadToken : String) (k : Nat)
    (e : String)
    (hq : TemplateRepository.GetByIDs env w req.TemplateIDs = ((templates, none), w.tick))
    (h0 : templates.length ≠ 0) (hlen : templates.length = req.TemplateIDs.length)
    (hs : sumPrices templates 0 = .ok subtotalINR)
    (ht : env.randomToken (w.step + 2) = .ok downloadToken)
    (hh : env.dbFault (w.step + 4) = none) (hk : k < templates.length)
    (hbefore : ∀ j, j < k → env.dbFault (w.step + 5 + j) = none)
    (hfault : env.dbFault (w.step + 5 + k) = some e) :
    CreateOrder env w req =
      (.error (Wrap e "DATABASE_ERROR" "Failed to create order item" 500),
        { db := { w.db with
                  orders := w.db.orders ++ [newOrder env w req subtotalINR downloadToken],
                  order_items := w.db.order_items ++
                    itemsFrom env (env.newID (w.step + 4)) (templates.take k) (w.step + 5) },
          outbox := w.outbox, step := w.step + 5 + k + 1, gateway := w.gateway }) := by
  have hbefore' : ∀ j, j < k → env.dbFault (w.step + 1 + 1 + 1 + 1 + 1 + j) = none := hbefore
  have hfault' : env.dbFault (w.step + 1 + 1 + 1 + 1 + 1 + k) = some e := hfault
  unfold CreateOrder
  rw [hq]
  simp only [h0, hlen.symm, if_false, ne_eq, not_true_eq_false, hs, World.tick, ht,
    OrderRepository.Create, hh]
  rw [createItems_fault_at env _ templates _ _ k e hk hbefore' hfault']
  rfl

end OrderService


/-- C21, as the code has it: `CreateOrder` runs no transaction and rolls nothing back. When
the INSERT of the item number `k` (counted from 0) fails after the catalog query, the
token draw, the INSERT of the order and the INSERTs of the items before it have run,
`CreateOrder` returns `DATABASE_ERROR`, and the store holds one more row in `orders`, the
header with status `pending`, payment status `pending` and no intent ID, together with
exactly the `k` items written before the failure, fewer than the request lists; no request
is made to the gateway. -/
theorem C21_item_failure_keeps_partial_order (env : Env) (w : World)
    (req : OrderService.CreateOrderRequest) (templates : List Template)
    (downloadToken : String) (k : Nat) (e : String)
    (hquery : (TemplateRepository.GetByIDs env w req.TemplateIDs).1 = (templates, none))
    (hall : templates.length = req.TemplateIDs.length)
    (htoken : env.randomToken (w.step + 2) = .ok downloadToken)
    (hk : k < templates.length)
    (hbefore : ∀ n, n < w.step + 5 + k → env.dbFault n = none)
    (hfault : env.dbFault (w.step + 5 + k) = some e) :
    ∃ header items,
      (OrderService.CreateOrder env w req).1 =
        .error (Wrap e "DATABASE_ERROR" "Failed to create order item" 500) ∧
      (OrderService.CreateOrder env w req).2.db.orders = w.db.orders ++ [header] ∧
      header.Status = "pending" ∧ header.PaymentStatus = "pending" ∧
      header.RazorpayOrderID = none ∧
      (OrderService.CreateOrder env w req).2.db.order_items = w.db.order_items ++ items ∧
      items.length = k ∧ k < req.TemplateIDs.length ∧
      List.Forall₂
        (fun (item : OrderItem) (t : Template) =>
          item.OrderID = header.ID ∧ item.TemplateID = t.ID ∧ item.TemplateTitle = t.Title ∧
          item.TemplateSlug = t.Slug ∧ item.TemplateFileURL = t.FileURL ∧
          item.PriceINR = t.PriceINR)
        items (templates.take k) ∧
      (OrderService.CreateOrder env w req).2.gateway = w.gateway := by
  have hne : req.TemplateIDs ≠ [] := by
    intro h
    rw [h] at hall
    simp only [List.length_nil] at hall
    omega
  have hq := OrderService.GetByIDs_ok env w req.TemplateIDs hne (hbefore _ (by omega))
  rw [hq] at hquery
  simp only [Prod.mk.injEq, and_true] at hquery
  rw [hquery] at hq
  obtain ⟨subtotalINR, hs⟩ := OrderService.sumPrices_active templates
    (OrderService.GetByIDs_active env w w.tick req.TemplateIDs templates hq) 0
  rw [OrderService.CreateOrder_item_fault env w req templates subtotalINR downloadToken k e hq
    (by omega) hall hs htoken (hbefore _ (by omega)) hk (fun j hj => hbefore _ (by omega))
    hfault]
  refine ⟨OrderService.newOrder env w req subtotalINR downloadToken, _, rfl, rfl, rfl, rfl, rfl,
    rfl, ?_, by omega, OrderService.itemsFrom_snapshot env _ _ _, rfl⟩
  rw [OrderService.itemsFrom_length, List.length_take]
  omega

theorem C21_item_failure_keeps_partial_order_witness :
    ∃ header items,
      (OrderService.CreateOrder Sample.itemFaultEnv (Sample.shop Sample.catalog)
        (Sample.request [1, 2] "INR")).1 =
          .error (Wrap "connection reset" "DATABASE_ERROR" "Failed to create order item" 500) ∧
      (OrderService.CreateOrder Sample.itemFaultEnv (Sample.shop Sample.catalog)
        (Sample.request [1, 2] "INR")).2.db.orders = [header] ∧
      (OrderService.CreateOrder Sample.itemFaultEnv (Sample.shop Sample.catalog)
        (Sample.request [1, 2] "INR")).2.db.order_items = items ∧
      items.length = 1 := by
  obtain ⟨header, items, herr, horders, _, _, _, hitems, hlen, _⟩ :=
    C21_item_failure_keeps_partial_order Sample.itemFaultEnv (Sample.shop Sample.catalog)
      (Sample.request [1, 2] "INR")
      [Sample.template 1 50000 "active", Sample.template 2 30000 "active"] "tok" 1
      "connection reset" rfl rfl rfl (by decide)
      (fun n hn => by
        have h6 : n ≠ 6 := by
          have : n < 0 + 5 + 1 := hn
          omega
        simp [Sample.itemFaultEnv, h6])
      rfl
  exact ⟨header, items, herr, horders, hitems, hlen⟩

/-- C21 does not hold: in the environment where the INSERT of the second item fails, the
order for templates 1 and 2 ends with `DATABASE_ERROR` while the store holds the header,
order 104, with the item for template 1 only. -/
theorem C21_counterexample_partial_items :
    (Sample.request [1, 2] "INR").TemplateIDs = [1, 2] ∧
    (∃ e, (OrderService.CreateOrder Sample.itemFaultEnv (Sample.shop Sample.catalog)
        (Sample.request [1, 2] "INR")).1 = .error e) ∧
    (OrderService.CreateOrder Sample.itemFaultEnv (Sample.shop Sample.catalog)
        (Sample.request [1, 2] "INR")).2.db.orders.map (fun o => o.ID) = [104] ∧
    (OrderService.CreateOrder Sample.itemFaultEnv (Sample.shop Sample.catalog)
        (Sample.request [1, 2] "INR")).2.db.order_items.map
        (fun i => (i.OrderID, i.TemplateID)) = [(104, 1)] := by
  have hrun := OrderService.CreateOrder_item_fault Sample.itemFaultEnv
    (Sample.shop Sample.catalog) (Sample.request [1, 2] "INR")
    [Sample.template 1 50000 "active", Sample.template 2 30000 "active"] 80000 "tok" 1
    "connection reset" rfl (by decide) rfl rfl rfl rfl (by decide)
    (fun j hj => by
      have h0 : j = 0 := by omega
      subst h0
      rfl)
    rfl
  rw [hrun]
  exact ⟨rfl, ⟨_, rfl⟩, rfl, rfl⟩


/-! ## The order number -/

theorem toDigitsCore_foldl (fuel : Nat) : ∀ (n : Nat) (ds : List Char), n < fuel →
    List.foldl (fun acc (c : Char) => 10 * acc + (c.toNat - 48)) 0
        (Nat.toDigitsCore 10 fuel n ds)
      = List.foldl (fun acc (c : Char) => 10 * acc + (c.toNat - 48)) n ds := by
  induction fuel with
  | zero => intro n ds h; omega
  | succ fuel ih =>
    intro n ds h
    have hd : (Nat.digitChar (n % 10)).toNat = 48 + n % 10 := by
      have : n % 10 < 10 := Nat.mod_lt _ (by decide)
      generalize n % 10 = d at this
      interval_cases d <;> rfl
    simp only [Nat.toDigitsCore]
    by_cases hn : n / 10 = 0
    · simp only [hn, if_true, List.foldl_cons, hd]
      congr 1
      omega
    · simp only [hn, if_false]
      rw [ih _ _ (by omega)]
      simp only [List.foldl_cons, hd]
      congr 1
      omega

theorem repr_decode (n : Nat) :
    List.foldl (fun acc (c : Char) => 10 * acc + (c.toNat - 48)) 0 (Nat.repr n).data = n := by
  show List.foldl _ 0 (Nat.toDigitsCore 10 (n + 1) n []) = n
  rw [toDigitsCore_foldl (n + 1) n [] (by omega)]
  rfl

theorem repr_injective (a b : Nat) (h : Nat.repr a = Nat.repr b) : a = b := by
  have ha := repr_decode a
  rw [h, repr_decode b] at ha
  exact ha.symm

theorem toString_int_injective (x y : Int) (h : toString x = toString y) : x = y := by
  have hminus : ∀ (a b : Nat), Nat.repr a ≠ "-" ++ Nat.repr b := by
    intro a b hab
    have hdec := repr_decode a
    rw [hab, String.data_append] at hdec
    have hb : List.foldl (fun acc (c : Char) => 10 * acc + (c.toNat - 48)) 0
        ("-".data ++ (Nat.repr b).data) = b := by
      have := repr_decode b
      simpa using this
    rw [hb] at hdec
    subst hdec
    have hlen := congrArg String.length hab
    rw [String.length_append] at hlen
    have h1 : "-".length = 1 := rfl
    omega
  cases x with
  | ofNat a =>
    cases y with
    | ofNat b =>
      have h' : Nat.repr a = Nat.repr b := h
      rw [repr_injective a b h']
    | negSucc b =>
      have h' : Nat.repr a = "-" ++ Nat.repr (b + 1) := h
      exact absurd h' (hminus a (b + 1))
  | negSucc a =>
    cases y with
    | ofNat b =>
      have h' : "-" ++ Nat.repr (a + 1) = Nat.repr b := h
      exact absurd h'.symm (hminus b (a + 1))
    | negSucc b =>
      have h' : "-" ++ Nat.repr (a + 1) = "-" ++ Nat.repr (b + 1) := h
      have hdata := congrArg String.data h'
      rw [String.data_append, String.data_append] at hdata
      have hrepr : Nat.repr (a + 1) = Nat.repr (b + 1) :=
        String.ext (List.append_cancel_left hdata)
      have := repr_injective _ _ hrepr
      have hab : a = b := by omega
      rw [hab]

theorem orderNumber_injective (x y : Int) (h : "MRK" ++ toString x = "MRK" ++ toString y) :
    x = y := by
  have hdata := congrArg String.data h
  rw [String.data_append, String.data_append] at hdata
  exact toString_int_injective x y (String.ext (List.append_cancel_left hdata))

/-- C27, as the code has it: the order number is `MRK` followed by the Unix time of the
clock reading in seconds. Two successful calls of `CreateOrder` return the same order
number exactly when their clock readings fall in the same second, whatever their distance
within it; readings in different seconds give different order numbers. -/
theorem C27_order_number_per_second (env env' : Env) (w w' w1 w1' : World)
    (req req' : OrderService.CreateOrderRequest)
    (resp resp' : OrderService.CreateOrderResponse)
    (hok : OrderService.CreateOrder env w req = (.ok resp, w1))
    (hok' : OrderService.CreateOrder env' w' req' = (.ok resp', w1')) :
    resp.Order.OrderNumber = "MRK" ++ toString (unixSeconds (env.now (w.step + 1))) ∧
    (resp.Order.OrderNumber = resp'.Order.OrderNumber ↔
      unixSeconds (env.now (w.step + 1)) = unixSeconds (env'.now (w'.step + 1))) := by
  obtain ⟨templates, subtotalINR, downloadToken, intentID, h, hreply, hupdate⟩ :=
    OrderService.CreateOrder_ok_inv env w req resp (by rw [hok])
  rw [OrderService.CreateOrder_accepted env w req templates subtotalINR downloadToken
    intentID h hreply hupdate] at hok
  obtain ⟨templates', subtotalINR', downloadToken', intentID', h', hreply', hupdate'⟩ :=
    OrderService.CreateOrder_ok_inv env' w' req' resp' (by rw [hok'])
  rw [OrderService.CreateOrder_accepted env' w' req' templates' subtotalINR' downloadToken'
    intentID' h' hreply' hupdate'] at hok'
  simp only [Prod.mk.injEq, Except.ok.injEq] at hok hok'
  obtain ⟨hresp, _⟩ := hok
  obtain ⟨hresp', _⟩ := hok'
  subst hresp hresp'
  refine ⟨rfl, ?_⟩
  show "MRK" ++ toString (unixSeconds (env.now (w.step + 1))) =
      "MRK" ++ toString (unixSeconds (env'.now (w'.step + 1))) ↔ _
  constructor
  · exact orderNumber_injective _ _
  · intro heq
    rw [heq]

theorem Sample_reaches_later (currency : String) :
    OrderService.ReachesGateway Sample.shopEnv { Sample.shop Sample.catalog with step := 1 }
      (Sample.request [1, 2] currency)
      [Sample.template 1 50000 "active", Sample.template 2 30000 "active"] 80000 "tok" :=
  ⟨rfl, by decide, rfl, rfl, rfl, rfl, fun _ _ => rfl⟩

theorem C27_order_number_per_second_witness :
    ∃ resp w1 resp' w1',
      OrderService.CreateOrder Sample.shopEnv (Sample.shop Sample.catalog)
        (Sample.request [1, 2] "INR") = (.ok resp, w1) ∧
      OrderService.CreateOrder Sample.shopEnv { Sample.shop Sample.catalog with step := 1 }
        (Sample.request [1, 2] "INR") = (.ok resp', w1') ∧
      resp.Order.OrderNumber = "MRK" ++ toString (1700000000 : Int) ∧
      resp.Order.OrderNumber = resp'.Order.OrderNumber := by
  have hrun := OrderService.CreateOrder_accepted Sample.shopEnv (Sample.shop Sample.catalog)
    (Sample.request [1, 2] "INR") _ 80000 "tok" "order_1" (Sample_reaches "INR") rfl rfl
  have hrun' := OrderService.CreateOrder_accepted Sample.shopEnv
    { Sample.shop Sample.catalog with step := 1 }
    (Sample.request [1, 2] "INR") _ 80000 "tok" "order_1" (Sample_reaches_later "INR") rfl rfl
  have h := C27_order_number_per_second Sample.shopEnv Sample.shopEnv _ _ _ _ _ _ _ _ hrun hrun'
  refine ⟨_, _, _, _, hrun, hrun', ?_, h.2.mpr (by decide)⟩
  rw [h.1]
  have hsec : unixSeconds (Sample.shopEnv.now ((Sample.shop Sample.catalog).step + 1))
      = 1700000000 := by decide
  rw [hsec]

/-- C27 does not hold: two calls of `CreateOrder` whose clock readings are one millisecond
apart, both within the second 1700000000, succeed with the same order number. -/
theorem C27_counterexample_same_second :
    Sample.shopEnv.now ((Sample.shop Sample.catalog).step + 1) + 1000000 ≤
      Sample.shopEnv.now (({ Sample.shop Sample.catalog with step := 1 } : World).step + 1) ∧
    ∃ resp resp',
      (OrderService.CreateOrder Sample.shopEnv (Sample.shop Sample.catalog)
        (Sample.request [1, 2] "INR")).1 = .ok resp ∧
      (OrderService.CreateOrder Sample.shopEnv { Sample.shop Sample.catalog with step := 1 }
        (Sample.request [1, 2] "INR")).1 = .ok resp' ∧
      resp.Order.OrderNumber = resp'.Order.OrderNumber := by
  have hrun := OrderService.CreateOrder_accepted Sample.shopEnv (Sample.shop Sample.catalog)
    (Sample.request [1, 2] "INR") _ 80000 "tok" "order_1" (Sample_reaches "INR") rfl rfl
  have hrun' := OrderService.CreateOrder_accepted Sample.shopEnv
    { Sample.shop Sample.catalog with step := 1 }
    (Sample.request [1, 2] "INR") _ 80000 "tok" "order_1" (Sample_reaches_later "INR") rfl rfl
  refine ⟨by decide, _, _, congrArg Prod.fst hrun, congrArg Prod.fst hrun', ?_⟩
  show "MRK" ++ toString (unixSeconds _) = "MRK" ++ toString (unixSeconds _)
  have hsec : unixSeconds (Sample.shopEnv.now ((Sample.shop Sample.catalog).step + 1)) =
      unixSeconds (Sample.shopEnv.now
        (({ Sample.shop Sample.catalog with step := 1 } : World).step + 1)) := by decide
  rw [hsec]


/-! ## Runs in which a discarded error occurs or a confirmation is replayed -/

theorem VerifyPayment_mismatch_fault (env : Env) (w : World) (i p s e : String) (order : Order)
    (h0 : env.dbFault w.step = none) (h1 : env.dbFault (w.step + 1) = some e)
    (hfind : w.db.orders.find? (fun o => o.RazorpayOrderID = some i) = some order)
    (hsig : s ≠ PaymentService.expectedSignature env i p) :
    OrderService.VerifyPayment env w i p s =
      ((none, some (New "INVALID_SIGNATURE" "Payment signature verification failed" 400)),
        { db := w.db, outbox := w.outbox, step := w.step + 2, gateway := w.gateway }) := by
  simp only [OrderService.VerifyPayment, FindByRazorpayOrderID_ok env _ _ h0, hfind,
    VerifySignature_mismatch env _ _ _ hsig, OrderRepository.UpdatePaymentFailed,
    execUpdateOrders, World.tick, h1]

/-- C4 does not hold as stated: the UPDATE that marks the failure fails, its error is
discarded, and the confirmation with the signature `forged` for order 7 is answered with
`INVALID_SIGNATURE` while the order stays `pending` with payment status `pending`. -/
theorem C4_counterexample_update_fails :
    (OrderService.VerifyPayment Sample.updateFaultEnv
        (Sample.world (Sample.order "pending" "pending")) "order_1" "pay_1" "forged").1 =
      (none, some (New "INVALID_SIGNATURE" "Payment signature verification failed" 400)) ∧
    (OrderService.VerifyPayment Sample.updateFaultEnv
        (Sample.world (Sample.order "pending" "pending")) "order_1" "pay_1" "forged").2.db.orders.map
        (fun o => (o.ID, o.Status, o.PaymentStatus)) = [(7, "pending", "pending")] := by
  rw [VerifyPayment_mismatch_fault Sample.updateFaultEnv
    (Sample.world (Sample.order "pending" "pending")) "order_1" "pay_1" "forged"
    "connection reset" (Sample.order "pending" "pending") rfl rfl (by decide)
    (forged_ne_expected Sample.updateFaultEnv "order_1" "pay_1")]
  exact ⟨rfl, by decide⟩

/-- C11 does not hold as stated: the UPDATE that counts the first download fails and the
handler discards the error. The three requests for order 7, approved, with three downloads
allowed, are answered 200, the count afterwards is 2, and the fourth request is answered
200 as well. -/
theorem C11_counterexample_uncounted_download :
    (Sample.world (Sample.order "approved" "success")).db.orders.map
        (fun o => (o.Status, o.DownloadCount, o.MaxDownloads)) = [("approved", 0, 3)] ∧
    (repeatDownload Sample.incrementFaultEnv
        { orderNumber := "", email := "", token := "tok", ip := "10.0.0.1", userAgent := "curl" }
        3 (Sample.world (Sample.order "approved" "success"))).1.map (fun r => r.Status) =
      [200, 200, 200] ∧
    (repeatDownload Sample.incrementFaultEnv
        { orderNumber := "", email := "", token := "tok", ip := "10.0.0.1", userAgent := "curl" }
        3 (Sample.world (Sample.order "approved" "success"))).2.db.orders.map
        (fun o => (o.DownloadCount, o.MaxDownloads)) = [(2, 3)] ∧
    (public.OrderHandler.Download Sample.incrementFaultEnv
        (repeatDownload Sample.incrementFaultEnv
          { orderNumber := "", email := "", token := "tok", ip := "10.0.0.1",
            userAgent := "curl" }
          3 (Sample.world (Sample.order "approved" "success"))).2
        { orderNumber := "", email := "", token := "tok", ip := "10.0.0.1",
          userAgent := "curl" }).1.Status = 200 := by
  decide


/-- C6 does not hold as stated: order 7, paid, is approved by admin 99; the payment
confirmation is then replayed with its valid signature, which makes the order `paid` again;
the second approve, by admin 5, succeeds, stamps admin 5 as approver and hands a second
approval message to the mailer. -/
theorem C6_counterexample_second_approve_succeeds :
    (OrderService.ApproveOrder Sample.env (Sample.world (Sample.order "paid" "success"))
        7 99).1 = .ret none ∧
    (OrderService.ApproveOrder Sample.env
        (OrderService.VerifyPayment Sample.env
          (OrderService.ApproveOrder Sample.env (Sample.world (Sample.order "paid" "success"))
            7 99).2
          "order_1" "pay_1" (PaymentService.expectedSignature Sample.env "order_1" "pay_1")).2
        7 5).1 = .ret none ∧
    (OrderService.ApproveOrder Sample.env
        (OrderService.VerifyPayment Sample.env
          (OrderService.ApproveOrder Sample.env (Sample.world (Sample.order "paid" "success"))
            7 99).2
          "order_1" "pay_1" (PaymentService.expectedSignature Sample.env "order_1" "pay_1")).2
        7 5).2.db.orders.map (fun o => (o.ID, o.Status, o.ApprovedBy)) =
      [(7, "approved", some 5)] ∧
    (OrderService.ApproveOrder Sample.env
        (OrderService.VerifyPayment Sample.env
          (OrderService.ApproveOrder Sample.env (Sample.world (Sample.order "paid" "success"))
            7 99).2
          "order_1" "pay_1" (PaymentService.expectedSignature Sample.env "order_1" "pay_1")).2
        7 5).2.outbox.map (fun a => a.mail.Subject) =
      ["Order Approved - Download Your Templates", "Order Confirmation - MRK1700000000",
        "Order Approved - Download Your Templates"] := by
  have hA := ApproveOrder_paid Sample.env (Sample.world (Sample.order "paid" "success")) 7 99
    (Sample.order "paid" "success") "tok" 9000 (fun _ => rfl) (by decide) rfl rfl rfl
  have hV := VerifyPayment_valid Sample.env
    (OrderService.ApproveOrder Sample.env (Sample.world (Sample.order "paid" "success"))
      7 99).2
    "order_1" "pay_1" (PaymentService.expectedSignature Sample.env "order_1" "pay_1")
    { Sample.order "paid" "success" with
      Status := "approved", ApprovedBy := some 99, ApprovedAt := some (Sample.env.now 1),
      UpdatedAt := Sample.env.dbNow 2 }
    (fun _ => rfl) (by rw [hA]; rfl) rfl
  have hA2 := ApproveOrder_paid Sample.env
    (OrderService.VerifyPayment Sample.env
      (OrderService.ApproveOrder Sample.env (Sample.world (Sample.order "paid" "success"))
        7 99).2
      "order_1" "pay_1" (PaymentService.expectedSignature Sample.env "order_1" "pay_1")).2
    7 5
    { Sample.order "paid" "success" with
      Status := "paid", PaymentStatus := "success", ApprovedBy := some 99,
      ApprovedAt := some (Sample.env.now 1), RazorpayPaymentID := some "pay_1",
      RazorpaySignature := some (PaymentService.expectedSignature Sample.env "order_1" "pay_1"),
      PaidAt := some (Sample.env.now 8), UpdatedAt := Sample.env.dbNow 9 }
    "tok" 9000 (fun _ => rfl) (by rw [hV]; dsimp only; rw [hA]; rfl) rfl rfl rfl
  rw [hA2]
  refine ⟨by rw [hA], rfl, ?_, ?_⟩
  · dsimp only
    rw [hV]
    dsimp only
    rw [hA]
    rfl
  · dsimp only
    rw [hV]
    dsimp only
    rw [hA]
    rfl


end Merraki
